import Mathlib

/-!
# Genetic simulation: a shallow embedding and its verified properties

The C++ sources under `src/` are translated function by function.

Numeric conventions of the embedding
* `float` and `double` values of the organism model are rationals (`ℚ`). The functions
  are translated in two ways. The plain translation keeps the formulas of the source exact:
  rounding is not represented. The translation with the suffix `_f32` rounds the result of
  every `float` operation to IEEE 754 binary32 (`f32`: round to nearest, ties to even,
  subnormal numbers included, overflow excluded), which is how the operations evaluate with
  `FLT_EVAL_METHOD == 0` and without contraction to fused multiply-add. The statements on
  the interaction of two organisms, the reaction to temperature, the bounds of a moved
  position, the distribution of resources and the search for the nearest resource are made
  about the `_f32` translation.
* The planet precomputation is written over an arbitrary carrier `α` with a
  `FloatOps α` structure, so that statements about it hold for every
  interpretation of the arithmetic, IEEE arithmetic included.
* `int` / `std::atomic<int>` health counters and the `unsigned` age are `Int` / `Nat`;
  the `unsigned int` index arithmetic of the planet table is reduced modulo `2^32`,
  because the admitted configuration ranges reach beyond `2^32` there. The awards of the
  distribute phase (`Organism.nourish_i32`, `Organism.hydrate_i32`) wrap the counter to 32
  bits (`i32`), as `fetch_add` does.
* A conversion `float → int` truncates toward zero (`truncToInt`).
* Random engines are sequences of draws (`Rng`): every distribution call consumes
  the next element of the sequence.
* Worker threads are run one after the other in index order. The awards of two workers to
  one organism are followed action by action under every schedule (`AwardState`).
* The libm functions of the organism model (`tanh`, `exp`, `atan2`, `cos`, `sin`) are
  parameters (`LibmFns`), so that statements about them hold for every interpretation.
* Mutexes and condition variables are not represented: a `SignalLink::wait` that would
  block is a step that cannot be taken.
-/

namespace GeneticSimulation

/-! ## Numbers -/

/-- Modelled from the spec: `helper/numbers.h` is not among the sources; the spec gives
the clamp of the health counters as 1,000,000. -/
def one_million : Int := 1000000

/-- Modelled from the spec: `helper/numbers.h` is not among the sources; `pi` is the
constant π, here the decimal expansion used by `Planet.cpp`. -/
def pi : ℚ := 3.14159265358979323846

/-- Conversion `float → int` of C++: truncation toward zero. -/
def truncToInt (q : ℚ) : Int := Int.tdiv q.num q.den

/-- Conversion `float → unsigned int` for non-negative values (truncation). -/
def truncToNat (q : ℚ) : Nat := (truncToInt q).toNat

/-- Conversion `int → unsigned int`: the value modulo `2^32`. -/
def toUnsigned (i : Int) : Nat := (i % 4294967296).toNat

/-- Result of `unsigned int` arithmetic: the value modulo `2^32`. -/
def u32 (n : Nat) : Nat := n % 4294967296

/-- An `sf::Vector2f`. -/
structure Vector2f where
  x : ℚ
  y : ℚ
deriving DecidableEq

/-- An `sf::Vector2u`. -/
structure Vector2u where
  x : Nat
  y : Nat
deriving DecidableEq

/-! ## Random engine -/

/-- A `std::default_random_engine` seen through the distributions that read it:
`draws k` is the standardised result of the `k`-th distribution call, `pos` the number
of calls made so far. -/
structure Rng where
  draws : Nat → ℚ
  pos : Nat

/-- One distribution call: the current draw and the advanced engine. -/
def Rng.next (r : Rng) : ℚ × Rng := (r.draws r.pos, { r with pos := r.pos + 1 })

/-- One call of `std::uniform_real_distribution<float>(lo, hi)`; the raw draw is the
position within the interval. -/
def uniform_real (lo hi : ℚ) (r : Rng) : ℚ × Rng :=
  (lo + (r.next).1 * (hi - lo), (r.next).2)

/-- One call of `std::normal_distribution<float>(mean, sigma)`; the raw draw is the
standard normal deviate. -/
def normal (mean sigma : ℚ) (r : Rng) : ℚ × Rng :=
  (mean + sigma * (r.next).1, (r.next).2)

/-! ## genetics/genetic_helper.h -/

/-- `combine(child, parent1, parent2, parent1_weighting)`: for every index of `child`,
`child[i] = parent1_weighting * parent1[i] + (1 - parent1_weighting) * parent2[i]`.
Reads beyond the end of a parent (undefined in C++) yield 0. -/
def combine (child parent1 parent2 : List ℚ) (parent1_weighting : ℚ) : List ℚ :=
  (List.range child.length).map fun i =>
    (parent1_weighting * parent1.getD i 0) + ((1 - parent1_weighting) * parent2.getD i 0)

/-- Loop of `mutate` from index `i` on, `fuel` elements left. -/
def mutate_from (mutation_prob mutation_sigma : ℚ) :
    Nat → Nat → List ℚ → Rng → List ℚ × Rng
  | 0, _, vec, rng => (vec, rng)
  | fuel + 1, i, vec, rng =>
    let d := uniform_real 0 1 rng
    if d.1 ≤ mutation_prob then
      let a := normal 0 mutation_sigma d.2
      mutate_from mutation_prob mutation_sigma fuel (i + 1)
        (vec.set i (vec.getD i 0 + a.1)) a.2
    else
      mutate_from mutation_prob mutation_sigma fuel (i + 1) vec d.2

/-- `mutate(vec, mutation_prob, mutation_sigma, rng)`. -/
def mutate (vec : List ℚ) (mutation_prob mutation_sigma : ℚ) (rng : Rng) : List ℚ × Rng :=
  mutate_from mutation_prob mutation_sigma vec.length 0 vec rng

/-- `combine_and_mutate_random(child, parent1, parent2, mutation_prob, mutation_sigma, rng)`. -/
def combine_and_mutate_random (child parent1 parent2 : List ℚ)
    (mutation_prob mutation_sigma : ℚ) (rng : Rng) : List ℚ × Rng :=
  let w := uniform_real 0 1 rng
  mutate (combine child parent1 parent2 w.1) mutation_prob mutation_sigma w.2

/-- Loop of `randomize_normal` / `randomize_uniform`: every element is replaced by a draw. -/
def randomize_with (draw : Rng → ℚ × Rng) : List ℚ → Rng → List ℚ × Rng
  | [], rng => ([], rng)
  | _ :: rest, rng =>
    let d := draw rng
    let r := randomize_with draw rest d.2
    (d.1 :: r.1, r.2)

/-- `randomize_normal(vec, mean, sigma, rng)`. -/
def randomize_normal (vec : List ℚ) (mean sigma : ℚ) (rng : Rng) : List ℚ × Rng :=
  randomize_with (normal mean sigma) vec rng

/-- `randomize_uniform(vec, min_val, max_val, rng)`. -/
def randomize_uniform (vec : List ℚ) (min_val max_val : ℚ) (rng : Rng) : List ℚ × Rng :=
  randomize_with (uniform_real min_val max_val) vec rng

/-! ## genetics/StandardizeParams.h, PhysicalTrait.cpp, Phenotype.cpp -/

/-- Parameters for standardizing a value (mean and standard deviation). -/
structure StandardizeParams where
  mean : ℚ
  sigma : ℚ
deriving DecidableEq

/-- A physical trait which forms part of an organism's phenotype. -/
structure PhysicalTrait where
  value : ℚ
  params : StandardizeParams
deriving DecidableEq

/-- `PhysicalTrait::get_value`. -/
def PhysicalTrait.get_value (t : PhysicalTrait) : ℚ := t.value

/-- `PhysicalTrait::set_value_from_standardized`. -/
def PhysicalTrait.set_value_from_standardized (t : PhysicalTrait) (standardized_val : ℚ) :
    PhysicalTrait :=
  { t with value := standardized_val * t.params.sigma + t.params.mean }

/-- The five physical traits of an organism. -/
structure Phenotype where
  area_of_influence : PhysicalTrait
  speed : PhysicalTrait
  health_rate : PhysicalTrait
  ideal_temp : PhysicalTrait
  temp_range : PhysicalTrait
deriving DecidableEq

/-- Constructor `Phenotype::Phenotype`: every trait starts at 0 with its own parameters. -/
def Phenotype.mk_from_params (area_params speed_params rate_params ideal_temp_params
    temp_range_params : StandardizeParams) : Phenotype :=
  { area_of_influence := ⟨0, area_params⟩, speed := ⟨0, speed_params⟩,
    health_rate := ⟨0, rate_params⟩, ideal_temp := ⟨0, ideal_temp_params⟩,
    temp_range := ⟨0, temp_range_params⟩ }

def Phenotype.get_area_of_influence (p : Phenotype) : ℚ := p.area_of_influence.get_value
def Phenotype.get_speed (p : Phenotype) : ℚ := p.speed.get_value
def Phenotype.get_health_rate (p : Phenotype) : ℚ := p.health_rate.get_value
def Phenotype.get_ideal_temp (p : Phenotype) : ℚ := p.ideal_temp.get_value
def Phenotype.get_temp_range (p : Phenotype) : ℚ := p.temp_range.get_value

def Phenotype.set_area_of_influence (p : Phenotype) (area_standardized : ℚ) : Phenotype :=
  { p with area_of_influence := p.area_of_influence.set_value_from_standardized area_standardized }
def Phenotype.set_speed (p : Phenotype) (speed_standardized : ℚ) : Phenotype :=
  { p with speed := p.speed.set_value_from_standardized speed_standardized }
def Phenotype.set_health_rate (p : Phenotype) (rate_standardized : ℚ) : Phenotype :=
  { p with health_rate := p.health_rate.set_value_from_standardized rate_standardized }
def Phenotype.set_ideal_temp (p : Phenotype) (temp_standardized : ℚ) : Phenotype :=
  { p with ideal_temp := p.ideal_temp.set_value_from_standardized temp_standardized }
def Phenotype.set_temp_range (p : Phenotype) (temp_standardized : ℚ) : Phenotype :=
  { p with temp_range := p.temp_range.set_value_from_standardized temp_standardized }

/-! ## genetics/BehaviourNetLayer.cpp, BehaviourNet.cpp -/

/-- One fully connected layer: `weights` has `inputs * units` entries, `activations`
has `units` entries. -/
structure BehaviourNetLayer where
  inputs : Nat
  units : Nat
  sigmoid : Bool
  weights : List ℚ
  activations : List ℚ
deriving DecidableEq

/-- Constructor `BehaviourNetLayer::BehaviourNetLayer` (vectors are zero-filled). -/
def BehaviourNetLayer.new (inputs units : Nat) (sigmoid : Bool) : BehaviourNetLayer :=
  { inputs := inputs, units := units, sigmoid := sigmoid,
    weights := List.replicate (inputs * units) 0, activations := List.replicate units 0 }

/-- `BehaviourNetLayer::init_random`. -/
def BehaviourNetLayer.init_random (l : BehaviourNetLayer) (range range_bias : ℚ) (rng : Rng) :
    BehaviourNetLayer × Rng :=
  let range := max (1 / 10) range
  let range_bias := max 1 range_bias
  let w := randomize_uniform l.weights (-range / range_bias) range rng
  ({ l with weights := w.1 }, w.2)

/-- `BehaviourNetLayer::init_from` with two parents. -/
def BehaviourNetLayer.init_from2 (l parent1 parent2 : BehaviourNetLayer)
    (mutation_prob mutation_sigma : ℚ) (rng : Rng) : BehaviourNetLayer × Rng :=
  let w := combine_and_mutate_random l.weights parent1.weights parent2.weights
    mutation_prob mutation_sigma rng
  ({ l with weights := w.1 }, w.2)

/-- `BehaviourNetLayer::init_from` with a single parent. -/
def BehaviourNetLayer.init_from (l parent : BehaviourNetLayer)
    (mutation_prob mutation_sigma : ℚ) (rng : Rng) : BehaviourNetLayer × Rng :=
  let w := mutate parent.weights mutation_prob mutation_sigma rng
  ({ l with weights := w.1 }, w.2)

/-- `BehaviourNetLayer::transfer_from`: `combine(weights, donor.weights, weights, donor_weighting)`. -/
def BehaviourNetLayer.transfer_from (l donor : BehaviourNetLayer) (donor_weighting : ℚ) :
    BehaviourNetLayer :=
  { l with weights := combine l.weights donor.weights l.weights donor_weighting }

/-- The three-layer behaviour network. -/
structure BehaviourNet where
  layer1 : BehaviourNetLayer
  layer2 : BehaviourNetLayer
  output_layer : BehaviourNetLayer
deriving DecidableEq

/-- Constructor `BehaviourNet::BehaviourNet(ni, nh1, nh2, no)`. -/
def BehaviourNet.new (ni nh1 nh2 no : Nat) : BehaviourNet :=
  { layer1 := BehaviourNetLayer.new ni nh1 false,
    layer2 := BehaviourNetLayer.new nh1 nh2 false,
    output_layer := BehaviourNetLayer.new nh2 no false }

/-- `BehaviourNet::init_random`. -/
def BehaviourNet.init_random (n : BehaviourNet) (weights_range range_bias : ℚ) (rng : Rng) :
    BehaviourNet × Rng :=
  let l1 := n.layer1.init_random weights_range range_bias rng
  let l2 := n.layer2.init_random weights_range range_bias l1.2
  let l3 := n.output_layer.init_random weights_range range_bias l2.2
  ({ layer1 := l1.1, layer2 := l2.1, output_layer := l3.1 }, l3.2)

/-- `BehaviourNet::init_from` with two parents. -/
def BehaviourNet.init_from2 (n parent1 parent2 : BehaviourNet)
    (mutation_prob mutation_sigma : ℚ) (rng : Rng) : BehaviourNet × Rng :=
  let l1 := n.layer1.init_from2 parent1.layer1 parent2.layer1 mutation_prob mutation_sigma rng
  let l2 := n.layer2.init_from2 parent1.layer2 parent2.layer2 mutation_prob mutation_sigma l1.2
  let l3 := n.output_layer.init_from2 parent1.output_layer parent2.output_layer
    mutation_prob mutation_sigma l2.2
  ({ layer1 := l1.1, layer2 := l2.1, output_layer := l3.1 }, l3.2)

/-- `BehaviourNet::init_from` with a single parent. -/
def BehaviourNet.init_from (n parent : BehaviourNet)
    (mutation_prob mutation_sigma : ℚ) (rng : Rng) : BehaviourNet × Rng :=
  let l1 := n.layer1.init_from parent.layer1 mutation_prob mutation_sigma rng
  let l2 := n.layer2.init_from parent.layer2 mutation_prob mutation_sigma l1.2
  let l3 := n.output_layer.init_from parent.output_layer mutation_prob mutation_sigma l2.2
  ({ layer1 := l1.1, layer2 := l2.1, output_layer := l3.1 }, l3.2)

/-- `BehaviourNet::transfer_from`. -/
def BehaviourNet.transfer_from (n donor : BehaviourNet) (donor_weighting : ℚ) : BehaviourNet :=
  { layer1 := n.layer1.transfer_from donor.layer1 donor_weighting,
    layer2 := n.layer2.transfer_from donor.layer2 donor_weighting,
    output_layer := n.output_layer.transfer_from donor.output_layer donor_weighting }

/-! ## genetics/Genotype.cpp -/

/-- The genetic information of an organism (the mutex is not represented). -/
structure Genotype where
  behaviour_net : BehaviourNet
  trait_genes : List ℚ
deriving DecidableEq

/-- Constructor `Genotype::Genotype`. -/
def Genotype.new (sensory_values behaviour_net_nh1 behaviour_net_nh2 decision_values : Nat) :
    Genotype :=
  { behaviour_net := BehaviourNet.new sensory_values behaviour_net_nh1 behaviour_net_nh2
      decision_values,
    trait_genes := List.replicate 15 0 }

/-- `Genotype::init_random`. -/
def Genotype.init_random (g : Genotype) (behaviour_net_range behaviour_net_range_bias : ℚ)
    (rng : Rng) : Genotype × Rng :=
  let n := g.behaviour_net.init_random behaviour_net_range behaviour_net_range_bias rng
  let t := randomize_normal g.trait_genes 0 1 n.2
  ({ behaviour_net := n.1, trait_genes := t.1 }, t.2)

/-- `Genotype::init_from` with two parents. -/
def Genotype.init_from2 (g parent1 parent2 : Genotype)
    (behaviour_net_mutation_prob behaviour_net_mutation_sigma
      trait_genes_mutation_prob trait_genes_mutation_sigma : ℚ) (rng : Rng) : Genotype × Rng :=
  let n := g.behaviour_net.init_from2 parent1.behaviour_net parent2.behaviour_net
    behaviour_net_mutation_prob behaviour_net_mutation_sigma rng
  let t := combine_and_mutate_random g.trait_genes parent1.trait_genes parent2.trait_genes
    trait_genes_mutation_prob trait_genes_mutation_sigma n.2
  ({ behaviour_net := n.1, trait_genes := t.1 }, t.2)

/-- `Genotype::init_from` with a single parent. -/
def Genotype.init_from (g parent : Genotype)
    (behaviour_net_mutation_prob behaviour_net_mutation_sigma
      trait_genes_mutation_prob trait_genes_mutation_sigma : ℚ) (rng : Rng) : Genotype × Rng :=
  let n := g.behaviour_net.init_from parent.behaviour_net
    behaviour_net_mutation_prob behaviour_net_mutation_sigma rng
  let t := mutate parent.trait_genes trait_genes_mutation_prob trait_genes_mutation_sigma n.2
  ({ behaviour_net := n.1, trait_genes := t.1 }, t.2)

/-- `Genotype::transfer_from(donor, donor_weighting)`; the donor is passed by reference,
so the pair (recipient, donor) after the call is returned. -/
def Genotype.transfer_from (g donor : Genotype) (donor_weighting : ℚ) : Genotype × Genotype :=
  ({ behaviour_net := g.behaviour_net.transfer_from donor.behaviour_net donor_weighting,
     trait_genes := combine g.trait_genes donor.trait_genes g.trait_genes donor_weighting },
   donor)

/-- Summation loop of `Genotype::calculate_trait`: adds `trait_genes[start_i + i]` for the
next `n` indices from `i` on. -/
def calculate_trait_sum (trait_genes : List ℚ) (start_i : Nat) : Nat → Nat → ℚ → ℚ
  | 0, _, val => val
  | n + 1, i, val => calculate_trait_sum trait_genes start_i n (i + 1)
      (val + trait_genes.getD (start_i + i) 0)

/-- `Genotype::calculate_trait(start_i, n, negate)`. -/
def Genotype.calculate_trait (g : Genotype) (start_i n : Nat) (negate : Bool) : ℚ :=
  let multiplier : ℚ := if negate then -1 else 1
  let val := calculate_trait_sum g.trait_genes start_i n 0 0
  multiplier * val / (n : ℚ)

/-- `Genotype::express_traits(phenotype)`. -/
def Genotype.express_traits (g : Genotype) (phenotype : Phenotype) : Phenotype :=
  let p := phenotype.set_area_of_influence (g.calculate_trait 0 4 false)
  let p := p.set_speed (g.calculate_trait 3 4 true)
  let p := p.set_health_rate (g.calculate_trait 6 3 true)
  let p := p.set_ideal_temp (g.calculate_trait 9 3 false)
  p.set_temp_range (g.calculate_trait 12 3 false)

/-! ## Config.h -/

/-- The configuration record (numerical options; `unsigned int` as `Nat`, `float` and
`double` as `ℚ`). -/
structure Config where
  precompute_temperatures_cpu_threads : Nat
  planet_benchmark_samples : Nat
  standard_framerate : Nat
  area_width : Nat
  area_height : Nat
  latitude_range : ℚ
  orbital_period : Nat
  orbit_center_offset_x : ℚ
  orbit_center_offset_y : ℚ
  orbit_radius_x : ℚ
  orbit_radius_y : ℚ
  orbit_rotation : ℚ
  star_luminosity : ℚ
  albedo : ℚ
  axial_tilt : ℚ
  radius : ℚ
  atmosphere_optical_thickness : ℚ
  temperature_moderation_factor : ℚ
  temperature_moderation_bias : ℚ
  population_size : Nat
  population_pos_margin : ℚ
  area_of_influence_mean : ℚ
  area_of_influence_sigma : ℚ
  speed_mean : ℚ
  speed_sigma : ℚ
  health_rate_mean : ℚ
  health_rate_sigma : ℚ
  ideal_temp_mean : ℚ
  ideal_temp_sigma : ℚ
  temp_range_mean : ℚ
  temp_range_sigma : ℚ
  behaviour_net_weight_range : ℚ
  behaviour_net_weight_range_bias : ℚ
  behaviour_net_layer_1_units : Nat
  behaviour_net_layer_2_units : Nat
  population_init : Nat
  replication_rate : ℚ
  behaviour_net_mutation_prob : ℚ
  behaviour_net_mutation_sigma : ℚ
  trait_genes_mutation_prob : ℚ
  trait_genes_mutation_sigma : ℚ

/-! ## engine/SimulationArea.cpp, engine/SimulationObject.cpp -/

/-- The simulation area, reduced to its size in cells. -/
structure SimulationArea where
  area_size : Vector2u
deriving DecidableEq

/-- `SimulationArea::get_size`. -/
def SimulationArea.get_size (a : SimulationArea) : Vector2u := a.area_size

/-- State of a `SimulationObject` (the sprite is not represented). -/
structure SimulationObject where
  exists_ : Bool
  size : ℚ
  wrap : Bool
  position : Vector2f
  velocity : Vector2f
  area : SimulationArea
deriving DecidableEq

/-- Constructor `SimulationObject::SimulationObject(area)`. -/
def SimulationObject.new (area : SimulationArea) : SimulationObject :=
  { exists_ := false, size := 0, wrap := false, position := ⟨0, 0⟩, velocity := ⟨0, 0⟩,
    area := area }

def SimulationObject.get_exists (o : SimulationObject) : Bool := o.exists_
def SimulationObject.get_size (o : SimulationObject) : ℚ := o.size
def SimulationObject.get_position (o : SimulationObject) : Vector2f := o.position
def SimulationObject.get_area_size (o : SimulationObject) : Vector2u := o.area.get_size

/-! ## SensoryData.cpp -/

/-- The seven scaled sensory values: hunger, thirst, temperature damage, food heading,
water heading, temperature heading, memory. -/
structure SensoryData where
  data : List ℚ
deriving DecidableEq

/-- Constructor `SensoryData::SensoryData`: `data(7, 0)`. -/
def SensoryData.new : SensoryData := { data := List.replicate 7 0 }

/-- `SensoryData::set_temperature_damage(unsigned int integrity)`, writing `data[2]`. -/
def SensoryData.set_temperature_damage (s : SensoryData) (integrity : Nat) : SensoryData :=
  { data := s.data.set 2 (((1 - (integrity : ℚ) / 1000000) - 1 / 2) * 2) }

/-- `SensoryData::set_temperature_heading(heading)`, writing `data[5]`. -/
def SensoryData.set_temperature_heading (s : SensoryData) (heading : ℚ) : SensoryData :=
  { data := s.data.set 5 (heading / pi) }

/-- Embedding of literals, configuration values and integer-to-double casts into the
carrier of the floating-point arithmetic. -/
class FloatLit (α : Type) where
  lit : ℚ → α

/-- The floating-point operations used by the planet precomputation. No law is assumed
of them: `+ - * /`, unary minus, `max`, `min`, the comparison with zero, the libm
functions, `boost::math::sign` and the narrowing `double → float`. -/
class FloatOps (α : Type) extends FloatLit α, Add α, Sub α, Mul α, Div α, Neg α, Max α, Min α where
  isZero : α → Bool
  cos : α → α
  sin : α → α
  tan : α → α
  asin : α → α
  pow : α → α → α
  sign : α → α
  narrow : α → α

/-- Exact rationals embed literally. -/
instance : FloatLit ℚ := ⟨id⟩

export FloatLit (lit)

/-- Precomputes and stores planetary surface temperature. -/
structure Planet (α : Type) where
  initialized : Bool
  temperatures : List α
  timesteps : Nat

/-- Default constructor `Planet::Planet`. -/
def Planet.new {α : Type} : Planet α := { initialized := false, temperatures := [], timesteps := 0 }

/-- Index expression of `Planet::get_temperature`, in `unsigned int` arithmetic:
`y * timesteps + (t % timesteps)`. -/
def Planet.index {α : Type} (p : Planet α) (y t : Nat) : Nat :=
  u32 (u32 (y * p.timesteps) + t % p.timesteps)

/-- `Planet::get_temperature(y, t)`. A read beyond the table (undefined in C++) yields 0. -/
def Planet.get_temperature {α : Type} [FloatLit α] (p : Planet α) (y t : Nat) : α :=
  if p.initialized then p.temperatures.getD (p.index y t) (lit 0) else lit (-1)

section PlanetPrecompute

variable {α : Type} [FloatOps α]

open FloatOps in
/-- Body of the first loop of `precompute_temperatures_for_timestep_range_cpu`: the
approximated equatorial temperature at timestep `t`. -/
def equatorial_black_body_temperature (config : Config) (t : Nat) : α :=
  let pi : α := lit 3.14159265358979323846
  let angle : α := (lit (t : ℚ) / lit (config.orbital_period : ℚ)) * lit 2 * pi
  let pos_x : α := (lit config.orbit_radius_x * cos angle * cos (lit config.orbit_rotation)) -
    (lit config.orbit_radius_y * sin angle * sin (lit config.orbit_rotation)) +
    lit config.orbit_center_offset_x
  let pos_y : α := (lit config.orbit_radius_x * cos angle * sin (lit config.orbit_rotation)) +
    (lit config.orbit_radius_y * sin angle * cos (lit config.orbit_rotation)) +
    lit config.orbit_center_offset_y
  let squared_dist : α := pos_x * pos_x + pos_y * pos_y
  let black_body_temperature : α := pow ((lit config.star_luminosity * (lit 1 - lit config.albedo)) /
    (lit 16 * pi * squared_dist * lit 5.670373e-8)) (lit 0.25)
  black_body_temperature / cos (pi / lit 6)

/-- Latitude corresponding to the y coordinate, as computed in the second loop. -/
def latitude_of_row (config : Config) (y : Nat) : α :=
  -(((lit (y : ℚ) / lit ((u32 (config.area_height + 4294967295) : Nat) : ℚ))
    * (lit 90 - -(lit 90))) - lit 90)

open FloatOps in
/-- Body of the inner loop of the second pass: the value stored for latitude `latitude`
and timestep `t`, given the buffered equatorial temperature `equatorial` of `t`. -/
def final_temperature (config : Config) (latitude : α) (t : Nat) (equatorial : α) : α :=
  let pi : α := lit 3.14159265358979323846
  let angle : α := (lit (t : ℚ) / lit (config.orbital_period : ℚ)) * lit 2 * pi
  let angle_from_vernal_equinox : α := angle + lit config.orbit_rotation
  let effective_axial_tilt : α := sin angle_from_vernal_equinox * lit config.axial_tilt
  let effective_latitude : α := latitude - effective_axial_tilt
  let height_to_latitude : α := sin ((latitude / lit 360) * lit 2 * pi) * lit config.radius
  let effective_tilt_plane_dist : α :=
    tan ((effective_axial_tilt / lit 360) * lit 2 * pi) * height_to_latitude
  let width_at_latitude : α := max (lit 0) (cos ((latitude / lit 360) * lit 2 * pi) * lit config.radius)
  let plane_dist_radius_ratio : α := if isZero width_at_latitude then
      sign effective_tilt_plane_dist
    else effective_tilt_plane_dist / width_at_latitude
  let extra_logitude : α := asin (max (-(lit 1)) (min (lit 1) plane_dist_radius_ratio))
  let daylight_proportion : α := (pi + lit 2 * extra_logitude) / (lit 2 * pi)
  let radiation_strength : α := max (lit 0) (cos ((effective_latitude / lit 360) * lit 2 * pi))
  let base_temperature : α := equatorial * radiation_strength * (daylight_proportion * lit 2)
  let moderated_temperature : α := ((base_temperature
    - (equatorial * lit config.temperature_moderation_bias))
    / lit config.temperature_moderation_factor) + (equatorial
      * lit config.temperature_moderation_bias)
  moderated_temperature * pow (lit 1 + lit 0.75 * lit config.atmosphere_optical_thickness) (lit 0.25)

/-- The timesteps visited by `for (unsigned int t = start_t; t < end_t; t++)`. -/
def timestep_loop (start_t end_t : Nat) : List Nat := List.range' start_t (end_t - start_t)

/-- First loop of `precompute_temperatures_for_timestep_range_cpu`: the buffer
`equatorial_black_body_temperatures`, of `unsigned` length `end_t - start_t`, filled at
`t - start_t` for every `t` of the range. -/
def equatorial_buffer (config : Config) (start_t end_t : Nat) : List α :=
  (timestep_loop start_t end_t).foldl
    (fun buf t => buf.set (t - start_t) (equatorial_black_body_temperature config t))
    (List.replicate (u32 (end_t + 4294967296 - start_t)) (lit 0))

open FloatOps in
/-- `Planet::precompute_temperatures_for_timestep_range_cpu(start_t, end_t, config)`,
acting on the lookup table. A write beyond the table (undefined in C++) is dropped. -/
def precompute_temperatures_for_timestep_range_cpu (temperatures : List α)
    (start_t end_t : Nat) (config : Config) : List α :=
  let end_t := min end_t config.orbital_period
  let equatorial_black_body_temperatures : List α := equatorial_buffer config start_t end_t
  (List.range config.area_height).foldl
    (fun temperatures y =>
      let latitude : α := latitude_of_row config y
      (timestep_loop start_t end_t).foldl
        (fun temperatures t =>
          temperatures.set (u32 (u32 (y * config.orbital_period) + t))
            (narrow (final_temperature config latitude t
              (equatorial_black_body_temperatures.getD (t - start_t) (lit 0)))))
        temperatures)
    temperatures

/-- `Planet::precompute_temperatures_cpu(worker_threads, config)`: the workers
`i = 0 .. worker_threads - 1` each process their timestep range. -/
def Planet.precompute_temperatures_cpu (p : Planet α) (worker_threads : Nat) (config : Config) :
    Planet α :=
  let timesteps_per_thread := u32 (p.timesteps / worker_threads + 1)
  let temperatures := (List.range worker_threads).foldl
    (fun temperatures i =>
      precompute_temperatures_for_timestep_range_cpu temperatures
        (u32 (i * timesteps_per_thread)) (u32 ((i + 1) * timesteps_per_thread)) config)
    p.temperatures;
  { p with temperatures := temperatures }

/-- `Planet::benchmark_temperature_computation_cpu`: the precomputation is run
`planet_benchmark_samples` times back to back (timing is not represented). -/
def Planet.benchmark_temperature_computation_cpu (p : Planet α) (worker_threads : Nat)
    (config : Config) : Planet α :=
  (List.range config.planet_benchmark_samples).foldl
    (fun p _ => p.precompute_temperatures_cpu worker_threads config) p

/-- `std::vector::resize(n)`: keeps the first `n` elements and pads with zeros. -/
def resize (v : List α) (n : Nat) : List α :=
  v.take n ++ List.replicate (n - v.length) (lit 0)

/-- `Planet::precompute_temperatures(config, benchmark)` on the CPU path;
`hardware_concurrency` is the value of `thread::hardware_concurrency()`. -/
def Planet.precompute_temperatures (p : Planet α) (config : Config) (benchmark : Bool)
    (hardware_concurrency : Nat) : Planet α :=
  let p : Planet α := { p with
    temperatures := resize p.temperatures (u32 (config.area_height * config.orbital_period)),
    timesteps := config.orbital_period }
  let num_threads := if config.precompute_temperatures_cpu_threads = 0 then
      hardware_concurrency
    else config.precompute_temperatures_cpu_threads
  let p := if benchmark then p.benchmark_temperature_computation_cpu num_threads config
    else p.precompute_temperatures_cpu num_threads config;
  { p with initialized := true }

end PlanetPrecompute

/-! ## Organism.cpp -/

/-- A living organism that is part of a population. -/
structure Organism extends SimulationObject where
  index : Nat
  genotype : Genotype
  phenotype : Phenotype
  sensory_data : SensoryData
  age : Nat
  nutrition : Int
  hydration : Int
  integrity : Int
  fitness : ℚ
  collisions : List Nat
  genes_transferred : Bool
  transfer_effect_time : Int
deriving DecidableEq

/-- Constructor `Organism::Organism(index, area, config)`. -/
def Organism.new (index : Nat) (area : SimulationArea) (config : Config) : Organism :=
  { toSimulationObject := SimulationObject.new area,
    index := index,
    genotype := Genotype.new 7 config.behaviour_net_layer_1_units
      config.behaviour_net_layer_2_units 2,
    phenotype := Phenotype.mk_from_params
      ⟨config.area_of_influence_mean, config.area_of_influence_sigma⟩
      ⟨config.speed_mean, config.speed_sigma⟩
      ⟨config.health_rate_mean, config.health_rate_sigma⟩
      ⟨config.ideal_temp_mean, config.ideal_temp_sigma⟩
      ⟨config.temp_range_mean, config.temp_range_sigma⟩,
    sensory_data := SensoryData.new,
    age := 0, nutrition := one_million, hydration := one_million, integrity := one_million,
    fitness := 1,
    collisions := List.replicate config.population_size 0,
    genes_transferred := false, transfer_effect_time := -1 }

def Organism.get_index (o : Organism) : Nat := o.index
def Organism.get_fitness (o : Organism) : ℚ := o.fitness
def Organism.get_age (o : Organism) : Nat := o.age

/-- `Organism::set_collision(i)`: `collisions[i] = 1`. -/
def Organism.set_collision (o : Organism) (i : Nat) : Organism :=
  { o with collisions := o.collisions.set i 1 }

/-- `Organism::reset`. -/
def Organism.reset (o : Organism) : Organism :=
  { o with
    nutrition := one_million, hydration := one_million, integrity := one_million,
    fitness := 1, age := 0,
    collisions := o.collisions.map (fun _ => 0),
    genes_transferred := false, transfer_effect_time := -1 }

/-- `Organism::init(pos, config, rng)`. -/
def Organism.init (o : Organism) (pos : Vector2f) (config : Config) (rng : Rng) :
    Organism × Rng :=
  let o := o.reset
  let o : Organism := { o with position := pos }
  let g := o.genotype.init_random config.behaviour_net_weight_range
    config.behaviour_net_weight_range_bias rng
  let o : Organism := { o with genotype := g.1 }
  let o : Organism := { o with phenotype := o.genotype.express_traits o.phenotype }
  let o : Organism := { o with size := o.phenotype.get_area_of_influence }
  ({ o with exists_ := true }, g.2)

/-- `Organism::init_from(parent1, parent2, config, rng)`. -/
def Organism.init_from2 (o parent1 parent2 : Organism) (config : Config) (rng : Rng) :
    Organism × Rng :=
  let o := o.reset
  let o : Organism := { o with position :=
    ⟨(parent1.get_position.x + parent2.get_position.x) / 2,
     (parent1.get_position.y + parent2.get_position.y) / 2⟩ }
  let g := o.genotype.init_from2 parent1.genotype parent2.genotype
    config.behaviour_net_mutation_prob config.behaviour_net_mutation_sigma
    config.trait_genes_mutation_prob config.trait_genes_mutation_sigma rng
  let o : Organism := { o with genotype := g.1 }
  let o : Organism := { o with phenotype := o.genotype.express_traits o.phenotype }
  let o : Organism := { o with size := o.phenotype.get_area_of_influence }
  ({ o with exists_ := true }, g.2)

/-- `Organism::init_from(parent, config, rng)`. -/
def Organism.init_from (o parent : Organism) (config : Config) (rng : Rng) :
    Organism × Rng :=
  let o := o.reset
  let o : Organism := { o with position := parent.get_position }
  let g := o.genotype.init_from parent.genotype
    config.behaviour_net_mutation_prob config.behaviour_net_mutation_sigma
    config.trait_genes_mutation_prob config.trait_genes_mutation_sigma rng
  let o : Organism := { o with genotype := g.1 }
  let o : Organism := { o with phenotype := o.genotype.express_traits o.phenotype }
  let o : Organism := { o with size := o.phenotype.get_area_of_influence }
  ({ o with exists_ := true }, g.2)

/-- `Organism::check_in_range(item, center)`. -/
def Organism.check_in_range (o : Organism) (item : SimulationObject) (center : Bool) : Bool :=
  let item_pos := item.get_position
  let pos := o.get_position
  let size := o.get_size
  let d_x := pos.x - item_pos.x
  let d_y := pos.y - item_pos.y
  let d_2 := d_x * d_x + d_y * d_y
  let range := size + (if center then 0 else 1) * item.get_size
  decide (d_2 < range * range)

/-- `Organism::interact_with(other, rng)`; `other` is passed by reference, so the state of
both organisms and of the engine after the call is returned. -/
def Organism.interact_with (self other : Organism) (rng : Rng) : Organism × Organism × Rng :=
  if !self.get_exists then (self, other, rng)
  else if !other.get_exists then
    ({ self with collisions := self.collisions.set other.index 0 }, other, rng)
  else
    let collision := self.check_in_range other.toSimulationObject true
    let r : Organism × Organism × Rng :=
      if collision && self.collisions.getD other.index 0 == 0 && decide (other.age > 250) then
        let d := uniform_real 0 1 rng
        let chance_of_transfer := (self.fitness * 0.35 + other.fitness * 0.65) / 10
        if d.1 < chance_of_transfer then
          let weighting := (((other.fitness - self.fitness) / 2) + 0.5) / 5
          let g := self.genotype.transfer_from other.genotype weighting
          ({ self with genotype := g.1, genes_transferred := true, transfer_effect_time := 0 },
           { other with genotype := g.2 }, d.2)
        else (self, other, d.2)
      else (self, other, rng)
    ({ r.1 with collisions := r.1.collisions.set other.index (if collision then 1 else 0) },
     r.2.1, r.2.2)

/-- `Organism::react_to_temperature(planet, time)`. With `health_rate = 0` the quotient
`120 / (health_rate / 2)` is infinite in IEEE arithmetic and the loss is 0; the rational
model yields the same loss, division by zero being 0. -/
def Organism.react_to_temperature (o : Organism) (planet : Planet ℚ) (time : Nat) : Organism :=
  if !o.get_exists then o
  else
    let position := o.get_position
    let current_temp := planet.get_temperature (truncToNat position.y) time
    let temp_d := |current_temp - o.phenotype.get_ideal_temp|
    let integrity : Int := truncToInt (if temp_d < o.phenotype.get_temp_range then
        min 1000000 ((o.integrity : ℚ) + o.phenotype.get_health_rate / max 1 temp_d)
      else
        max 0 ((o.integrity : ℚ) - temp_d / (120 / (o.phenotype.get_health_rate / 2))))
    let sensory_data := o.sensory_data.set_temperature_damage (toUnsigned integrity)
    let north_temperature := planet.get_temperature
      (toUnsigned (max 0 (truncToInt position.y - 5))) time
    let south_temperature := planet.get_temperature
      (toUnsigned (min ((o.get_area_size.y : Int) - 1) (truncToInt position.y + 5))) time
    let north_d := |north_temperature - o.phenotype.get_ideal_temp|
    let south_d := |south_temperature - o.phenotype.get_ideal_temp|
    let temperature_heading := if north_d < south_d then pi / 2 else -pi / 2
    { o with integrity := integrity,
             sensory_data := sensory_data.set_temperature_heading temperature_heading }

/-- `Organism::nourish(amount)`: atomic `fetch_add` on nutrition. -/
def Organism.nourish (o : Organism) (amount : Nat) : Organism :=
  { o with nutrition := o.nutrition + amount }

/-- `Organism::hydrate(amount)`: atomic `fetch_add` on hydration. -/
def Organism.hydrate (o : Organism) (amount : Nat) : Organism :=
  { o with hydration := o.hydration + amount }

/-- `Organism::update_phenotype`. -/
def Organism.update_phenotype (o : Organism) : Organism :=
  if o.genes_transferred then
    let o : Organism := { o with phenotype := o.genotype.express_traits o.phenotype }
    let o : Organism := { o with size := o.phenotype.get_area_of_influence }
    { o with genes_transferred := false }
  else o

/-- `Organism::update_fitness`: the returned flag and the organism after the call.
`nutrition -= health_rate` subtracts the `float` converted to `int`. -/
def Organism.update_fitness (o : Organism) : Bool × Organism :=
  if !o.get_exists then (false, o)
  else
    let o : Organism := { o with nutrition := min one_million o.nutrition }
    let o : Organism := { o with nutrition := o.nutrition - truncToInt o.phenotype.get_health_rate }
    let o : Organism := { o with hydration := min one_million o.hydration }
    let o : Organism := { o with hydration := o.hydration - truncToInt o.phenotype.get_health_rate }
    let o : Organism :=
      if o.nutrition ≤ 0 ∨ o.hydration ≤ 0 ∨ o.integrity ≤ 0 then
        { o with exists_ := false }
      else
        { o with fitness := ((o.nutrition + o.hydration + o.integrity : Int) : ℚ) / 3000000,
                 age := o.age + 1 }
    (o.get_exists, o)

/-! ## helper/ConcurrentQueue.h, engine/SimulationObjectPool.h -/

/-- A `ConcurrentQueue<unsigned int>`: the head of the list is the front of the queue
(the mutex is not represented). -/
structure ConcurrentQueue where
  q : List Nat
deriving DecidableEq

/-- `ConcurrentQueue::safe_push(item)`: push at the back. -/
def ConcurrentQueue.safe_push (cq : ConcurrentQueue) (item : Nat) : ConcurrentQueue :=
  { q := cq.q ++ [item] }

/-- `ConcurrentQueue::safe_pop(pop_callback)`: the callback acts on the state `s` it
captures by reference; the flag, the queue and that state after the call are returned. -/
def ConcurrentQueue.safe_pop {σ : Type} (cq : ConcurrentQueue) (s : σ)
    (pop_callback : Nat → σ → σ) : Bool × ConcurrentQueue × σ :=
  match cq.q with
  | [] => (false, cq, s)
  | item :: rest => (true, { q := rest }, pop_callback item s)

/-- A `SimulationObjectPool<T>`. -/
structure SimulationObjectPool (T : Type) where
  initialized : Bool
  max_size : Nat
  pool : List T
  available_slots : ConcurrentQueue

/-- Constructor `SimulationObjectPool(max_size)`. -/
def SimulationObjectPool.new {T : Type} (max_size : Nat) : SimulationObjectPool T :=
  { initialized := false, max_size := max_size, pool := [], available_slots := { q := [] } }

def SimulationObjectPool.get_max_size {T : Type} (p : SimulationObjectPool T) : Nat := p.max_size
def SimulationObjectPool.get_initialized {T : Type} (p : SimulationObjectPool T) : Bool :=
  p.initialized

/-- `add_item(args...)`: `pool.emplace_back(args...)`, given the constructed item. -/
def SimulationObjectPool.add_item {T : Type} (p : SimulationObjectPool T) (item : T) :
    SimulationObjectPool T :=
  { p with pool := p.pool ++ [item] }

/-- `set_initialized(status)`. -/
def SimulationObjectPool.set_initialized {T : Type} (p : SimulationObjectPool T) (status : Bool) :
    SimulationObjectPool T :=
  { p with initialized := status }

/-- `set_available(i)`. -/
def SimulationObjectPool.set_available {T : Type} (p : SimulationObjectPool T) (i : Nat) :
    SimulationObjectPool T :=
  { p with available_slots := p.available_slots.safe_push i }

/-- `get_available_slot(pop_callback)`: the callback captures the pool items and some
further state `s` by reference. -/
def SimulationObjectPool.get_available_slot {T σ : Type} (p : SimulationObjectPool T) (s : σ)
    (pop_callback : Nat → List T × σ → List T × σ) : Bool × SimulationObjectPool T × σ :=
  let r := p.available_slots.safe_pop (p.pool, s) pop_callback
  (r.1, { p with available_slots := r.2.1, pool := r.2.2.1 }, r.2.2.2)

/-- Write access `at(i)`: the item at `i` is replaced by `f` of it. An index beyond the
pool (undefined in C++) changes nothing. -/
def update_at {T : Type} (pool : List T) (i : Nat) (f : T → T) : List T :=
  match pool[i]? with
  | some item => pool.set i (f item)
  | none => pool

/-! ## Population.cpp -/

/-- A population of organisms (the references to planet, food and water are passed to
the operations that use them). -/
structure Population extends SimulationObjectPool Organism where
  area : SimulationArea
  config : Config

/-- Constructor `Population::Population`. -/
def Population.new (area : SimulationArea) (config : Config) : Population :=
  { toSimulationObjectPool := SimulationObjectPool.new config.population_size,
    area := area, config := config }

/-- Loop of `Population::init_random` over the indices `i`. The two position draws of
`sf::Vector2f(dist_x(rng), dist_y(rng))` are taken in the order x, y. -/
def Population.init_random_loop (n : Nat) (lo_x hi_x lo_y hi_y : ℚ) :
    List Nat → Population × Rng → Population × Rng
  | [], s => s
  | i :: rest, (p, rng) =>
    let item := Organism.new i p.area p.config
    let p : Population :=
      { p with toSimulationObjectPool := p.toSimulationObjectPool.add_item item }
    if i < n then
      let dx := uniform_real lo_x hi_x rng
      let dy := uniform_real lo_y hi_y dx.2
      match p.pool[i]? with
      | some o =>
        let r := o.init ⟨dx.1, dy.1⟩ p.config dy.2
        Population.init_random_loop n lo_x hi_x lo_y hi_y rest
          ({ p with pool := p.pool.set i r.1 }, r.2)
      | none => Population.init_random_loop n lo_x hi_x lo_y hi_y rest (p, dy.2)
    else
      Population.init_random_loop n lo_x hi_x lo_y hi_y rest
        ({ p with toSimulationObjectPool := p.toSimulationObjectPool.set_available i }, rng)

/-- `Population::init_random(n, rng)`. -/
def Population.init_random (p : Population) (n : Nat) (rng : Rng) : Population × Rng :=
  if p.get_initialized then (p, rng)
  else
    let n := min p.get_max_size n
    let area_size := p.area.get_size
    let margin := p.config.population_pos_margin
    let r := Population.init_random_loop n
      margin ((area_size.x : ℚ) - margin - 1) margin ((area_size.y : ℚ) - margin - 1)
      (List.range p.get_max_size) (p, rng)
    ({ r.1 with toSimulationObjectPool := r.1.toSimulationObjectPool.set_initialized true }, r.2)

/-- The callback of `Population::replicate` for parent `i`, applied to the popped `slot`:
the child is initialised from the parent and both are recorded as colliding. -/
def Population.replicate_callback (config : Config) (i : Nat) (slot : Nat) :
    List Organism × Rng → List Organism × Rng
  | (pool, rng) =>
    match pool[slot]?, pool[i]? with
    | some child, some parent =>
      let r := child.init_from parent config rng
      let pool := pool.set slot r.1
      let pool := update_at pool i (fun o => o.set_collision slot)
      let pool := update_at pool slot (fun o => o.set_collision i)
      (pool, r.2)
    | _, _ => (pool, rng)

/-- Loop of `Population::replicate` over the indices `i` of the range; `break` ends it. -/
def Population.replicate_loop : List Nat → Population × Rng → Population × Rng
  | [], s => s
  | i :: rest, (p, rng) =>
    match p.pool[i]? with
    | none => Population.replicate_loop rest (p, rng)
    | some o =>
      if o.get_exists then
        let replication_prob : ℚ :=
          if o.get_age < 500 then 0 else o.get_fitness * p.config.replication_rate
        let d := uniform_real 0 1 rng
        if d.1 < replication_prob then
          let r := p.toSimulationObjectPool.get_available_slot d.2
            (Population.replicate_callback p.config i)
          let p' : Population := { p with toSimulationObjectPool := r.2.1 }
          if !r.1 then (p', r.2.2)
          else Population.replicate_loop rest (p', r.2.2)
        else Population.replicate_loop rest (p, d.2)
      else Population.replicate_loop rest (p, rng)

/-- The indices visited by `for (unsigned int i = start; i < end; i++)`. -/
def index_loop (start end_ : Nat) : List Nat := List.range' start (end_ - start)

/-- `Population::replicate(start, end, rng)`. -/
def Population.replicate (p : Population) (start end_ : Nat) (rng : Rng) : Population × Rng :=
  if !p.get_initialized then (p, rng)
  else
    let end_ := min p.get_max_size end_
    Population.replicate_loop (index_loop start end_) (p, rng)

/-- Loop of `Population::update_fitness` over the indices `i` of the range. -/
def Population.update_fitness_loop : List Nat → Population → Population
  | [], p => p
  | i :: rest, p =>
    match p.pool[i]? with
    | none => Population.update_fitness_loop rest p
    | some o =>
      if o.get_exists then
        let r := o.update_fitness
        let p : Population := { p with pool := p.pool.set i r.2 }
        if !r.1 then
          Population.update_fitness_loop rest
            { p with toSimulationObjectPool := p.toSimulationObjectPool.set_available i }
        else Population.update_fitness_loop rest p
      else Population.update_fitness_loop rest p

/-- `Population::update_fitness(start, end)`. -/
def Population.update_fitness (p : Population) (start end_ : Nat) : Population :=
  if !p.get_initialized then p
  else
    let end_ := min p.get_max_size end_
    Population.update_fitness_loop (index_loop start end_) p

/-! ## libm functions of the organism model -/

/-- The libm functions used by the organism model (`tanh`, `exp`, `atan2`, `cos`, `sin`),
which have no exact rational values; the operations that call them take them as a
parameter. -/
structure LibmFns where
  tanh : ℚ → ℚ
  exp : ℚ → ℚ
  atan2 : ℚ → ℚ → ℚ
  cos : ℚ → ℚ
  sin : ℚ → ℚ

/-! ## genetics: forward pass (BehaviourNetLayer.cpp, BehaviourNet.cpp, Genotype.cpp) -/

/-- `BehaviourNetLayer::sigmoid_activation`. -/
def sigmoid_activation (m : LibmFns) (activations : List ℚ) : List ℚ :=
  activations.map (fun i => 1 / (1 + m.exp (-i)))

/-- `BehaviourNetLayer::tanh_activation`. -/
def tanh_activation (m : LibmFns) (activations : List ℚ) : List ℚ :=
  activations.map (fun i => m.tanh i)

/-- The product loops of the forward pass: for each `k < inputs` and each `j < units`,
`activations[j] += input[k] * weights[k * units + j]`. Reads beyond a vector (undefined
in C++) yield 0, writes beyond `activations` are dropped. -/
def accumulate_products (inputs units : Nat) (weights input activations : List ℚ) : List ℚ :=
  (List.range inputs).foldl
    (fun activations k =>
      (List.range units).foldl
        (fun activations j =>
          activations.set j (activations.getD j 0 + input.getD k 0 * weights.getD (k * units + j) 0))
        activations)
    activations

/-- `BehaviourNetLayer::operator()(input)`: the returned activations and the layer after
the call. -/
def BehaviourNetLayer.forward (m : LibmFns) (l : BehaviourNetLayer) (input : List ℚ) :
    List ℚ × BehaviourNetLayer :=
  let activations := l.activations.map (fun _ => (0 : ℚ))
  let activations := accumulate_products l.inputs l.units l.weights input activations
  let activations := if l.sigmoid then sigmoid_activation m activations
    else tanh_activation m activations
  (activations, { l with activations := activations })

/-- `BehaviourNet::operator()(input)`: `output_layer(layer2(layer1(input)))`, with the
network after the call. -/
def BehaviourNet.forward (m : LibmFns) (n : BehaviourNet) (input : List ℚ) :
    List ℚ × BehaviourNet :=
  let l1 := n.layer1.forward m input
  let l2 := n.layer2.forward m l1.1
  let l3 := n.output_layer.forward m l2.1
  (l3.1, { layer1 := l1.2, layer2 := l2.2, output_layer := l3.2 })

/-- `Genotype::express_behaviour(sensory_data)`. -/
def Genotype.express_behaviour (m : LibmFns) (g : Genotype) (sensory_data : List ℚ) :
    List ℚ × Genotype :=
  let r := g.behaviour_net.forward m sensory_data
  (r.1, { g with behaviour_net := r.2 })

/-! ## SensoryData.cpp: the remaining setters -/

/-- `SensoryData::get_data`. -/
def SensoryData.get_data (s : SensoryData) : List ℚ := s.data

/-- `SensoryData::set_hunger(unsigned int nutrition)`, writing `data[0]`. -/
def SensoryData.set_hunger (s : SensoryData) (nutrition : Nat) : SensoryData :=
  { data := s.data.set 0 (((1 - (nutrition : ℚ) / 1000000) - 1 / 2) * 2) }

/-- `SensoryData::set_thirst(unsigned int hydration)`, writing `data[1]`. -/
def SensoryData.set_thirst (s : SensoryData) (hydration : Nat) : SensoryData :=
  { data := s.data.set 1 (((1 - (hydration : ℚ) / 1000000) - 1 / 2) * 2) }

/-- `SensoryData::set_food_heading(heading)`, writing `data[3]`. -/
def SensoryData.set_food_heading (s : SensoryData) (heading : ℚ) : SensoryData :=
  { data := s.data.set 3 (heading / pi) }

/-- `SensoryData::set_water_heading(heading)`, writing `data[4]`. -/
def SensoryData.set_water_heading (s : SensoryData) (heading : ℚ) : SensoryData :=
  { data := s.data.set 4 (heading / pi) }

/-- `SensoryData::set_memory(memory_item)`, writing `data[6]`. -/
def SensoryData.set_memory (s : SensoryData) (memory_item : ℚ) : SensoryData :=
  { data := s.data.set 6 memory_item }

/-! ## engine/SimulationObject.cpp: motion -/

/-- `SimulationObject::set_velocity(heading, speed)`. -/
def SimulationObject.set_velocity (m : LibmFns) (o : SimulationObject) (heading speed : ℚ) :
    SimulationObject :=
  { o with velocity := ⟨m.cos heading * speed, m.sin heading * speed⟩ }

/-- `SimulationObject::update_position_wrap`. -/
def SimulationObject.update_position_wrap (o : SimulationObject) : SimulationObject :=
  if !o.exists_ then o
  else
    let position : Vector2f := ⟨o.position.x + o.velocity.x, o.position.y + o.velocity.y⟩
    let area_size := o.area.get_size
    let bounds_max : Vector2f := ⟨(area_size.x : ℚ) - 1, (area_size.y : ℚ) - 1⟩
    let bounds_min : Vector2f := ⟨0, 0⟩
    let x := if position.x > bounds_max.x then bounds_min.x + (position.x - bounds_max.x)
      else if position.x < bounds_min.x then bounds_max.x - (bounds_min.x - position.x)
      else position.x
    let y := if position.y > bounds_max.y then bounds_min.y + (position.y - bounds_max.y)
      else if position.y < bounds_min.y then bounds_max.y - (bounds_min.y - position.y)
      else position.y
    { o with position := ⟨x, y⟩, wrap := true }

/-! ## helper/SignalLink.cpp -/

/-- State of a `SignalLink` (mutex and condition variable are not represented). -/
structure SignalLink where
  notify_threads : Nat
  wait_threads : Nat
  ready : Bool
  current_notify : Nat
  current_wait : Nat
deriving DecidableEq

/-- Constructor `SignalLink::SignalLink(signal_threads, wait_threads, start_ready)`. -/
def SignalLink.new (signal_threads wait_threads : Nat) (start_ready : Bool) : SignalLink :=
  { notify_threads := signal_threads, wait_threads := wait_threads, ready := start_ready,
    current_notify := 0, current_wait := 0 }

/-- `SignalLink::notify`. -/
def SignalLink.notify (s : SignalLink) : SignalLink :=
  let s : SignalLink := { s with current_notify := u32 (s.current_notify + 1) }
  if s.current_notify = s.notify_threads then
    { s with current_notify := 0, ready := true }
  else s

/-- `SignalLink::wait` as a step: while the link is not ready the caller blocks and no
step is taken (`none`); otherwise the wait passes and the new state is returned. -/
def SignalLink.wait (s : SignalLink) : Option SignalLink :=
  if !s.ready then none
  else
    let s : SignalLink := { s with current_wait := u32 (s.current_wait + 1) }
    if s.current_wait = s.wait_threads then
      some { s with current_wait := 0, ready := false }
    else some s

/-! ## ConsumableResource.cpp, ConsumableResourcePool.cpp -/

/-- One call of `std::uniform_int_distribution<int>(lo, hi)`; the raw draw `u`, a position
within `[0, 1)`, selects `lo + ⌊u * (hi - lo + 1)⌋`. -/
def uniform_int (lo hi : Int) (r : Rng) : Int × Rng :=
  (lo + ⌊(r.next).1 * ((hi - lo + 1 : Int) : ℚ)⌋, (r.next).2)

/-- A consumable resource item such as food or water. -/
structure ConsumableResource extends SimulationObject where
  value : Nat
deriving DecidableEq

/-- Constructor `ConsumableResource::ConsumableResource(color, area)`. -/
def ConsumableResource.new (area : SimulationArea) : ConsumableResource :=
  { toSimulationObject := SimulationObject.new area, value := 0 }

/-- `ConsumableResource::init(val, max_val, pos)`. -/
def ConsumableResource.init (c : ConsumableResource) (val max_val : Nat) (pos : Vector2f) :
    ConsumableResource :=
  { c with value := val, position := pos, size := ((val : ℚ) / (max_val : ℚ)) * 6,
           exists_ := true }

/-- `ConsumableResource::consume`: the returned value and the item after the call. -/
def ConsumableResource.consume (c : ConsumableResource) : Nat × ConsumableResource :=
  (c.value, { c with exists_ := false })

/-- A pool of consumable resources. -/
structure ConsumableResourcePool extends SimulationObjectPool ConsumableResource where
  max_val : Nat
  margin : ℚ
  area : SimulationArea

/-- Constructor `ConsumableResourcePool::ConsumableResourcePool`. -/
def ConsumableResourcePool.new (max_size max_val : Nat) (margin : ℚ) (area : SimulationArea) :
    ConsumableResourcePool :=
  { toSimulationObjectPool := SimulationObjectPool.new max_size,
    max_val := max_val, margin := margin, area := area }

/-- `ConsumableResourcePool::reset_item(i, rng)`. The three draws of
`init(dist_val(rng), max_val, sf::Vector2f(dist_x(rng), dist_y(rng)))` are taken in the
order value, x, y. -/
def ConsumableResourcePool.reset_item (p : ConsumableResourcePool) (i : Nat) (rng : Rng) :
    ConsumableResourcePool × Rng :=
  let area_size := p.area.get_size
  let lo_x := truncToInt p.margin
  let hi_x := truncToInt ((area_size.x : ℚ) - p.margin - 1)
  let lo_y := truncToInt p.margin
  let hi_y := truncToInt ((area_size.y : ℚ) - p.margin - 1)
  let v := uniform_int 10000 (p.max_val : Int) rng
  let x := uniform_int lo_x hi_x v.2
  let y := uniform_int lo_y hi_y x.2
  let pool := update_at p.pool i
    (fun c => c.init (toUnsigned v.1) p.max_val ⟨(x.1 : ℚ), (y.1 : ℚ)⟩);
  ({ p with pool := pool }, y.2)

/-- Loop of `ConsumableResourcePool::init_random` over the indices `i`. -/
def ConsumableResourcePool.init_random_loop (n : Nat) :
    List Nat → ConsumableResourcePool × Rng → ConsumableResourcePool × Rng
  | [], s => s
  | i :: rest, (p, rng) =>
    let item := ConsumableResource.new p.area
    let p : ConsumableResourcePool :=
      { p with toSimulationObjectPool := p.toSimulationObjectPool.add_item item }
    if i < n then
      ConsumableResourcePool.init_random_loop n rest (p.reset_item i rng)
    else
      ConsumableResourcePool.init_random_loop n rest
        ({ p with toSimulationObjectPool := p.toSimulationObjectPool.set_available i }, rng)

/-- `ConsumableResourcePool::init_random(n, rng)`. -/
def ConsumableResourcePool.init_random (p : ConsumableResourcePool) (n : Nat) (rng : Rng) :
    ConsumableResourcePool × Rng :=
  if p.get_initialized then (p, rng)
  else
    let r := ConsumableResourcePool.init_random_loop n (List.range p.get_max_size) (p, rng)
    ({ r.1 with toSimulationObjectPool := r.1.toSimulationObjectPool.set_initialized true }, r.2)

/-- `ConsumableResourcePool::consume_and_reset_item(i, rng)`: the returned value, the pool
and the engine after the call. For an index beyond the pool (undefined in C++) the value
is 0. -/
def ConsumableResourcePool.consume_and_reset_item (p : ConsumableResourcePool) (i : Nat)
    (rng : Rng) : Nat × ConsumableResourcePool × Rng :=
  let value := match p.pool[i]? with
    | some c => (c.consume).1
    | none => 0
  let p : ConsumableResourcePool := { p with pool := update_at p.pool i (fun c => (c.consume).2) }
  let r := p.reset_item i rng
  (value, r.1, r.2)

/-! ## Organism.cpp: search, think, move, sprite -/

/-- `std::numeric_limits<float>::max()`. -/
def float_max : ℚ := 340282346638528859811704183484516925440

/-- Loop of `Organism::get_heading_to_nearest_resource` over the items: the pair
(shortest squared distance, heading) after the scan. -/
def nearest_resource_scan (m : LibmFns) (pos : Vector2f) :
    List ConsumableResource → ℚ × ℚ → ℚ × ℚ
  | [], s => s
  | item :: rest, (shortest_distance, heading) =>
    if item.get_exists then
      let resource_pos := item.get_position
      let d_x := pos.x - resource_pos.x
      let d_y := pos.y - resource_pos.y
      let d_2 := d_x * d_x + d_y * d_y
      if d_2 < shortest_distance then
        nearest_resource_scan m pos rest (d_2, m.atan2 d_y d_x)
      else nearest_resource_scan m pos rest (shortest_distance, heading)
    else nearest_resource_scan m pos rest (shortest_distance, heading)

/-- `Organism::get_heading_to_nearest_resource(pool)`: the items `pool[0]`, ...,
`pool[max_size - 1]` are scanned in order. -/
def Organism.get_heading_to_nearest_resource (m : LibmFns) (o : Organism)
    (pool : ConsumableResourcePool) : ℚ :=
  (nearest_resource_scan m o.get_position (pool.pool.take pool.get_max_size) (float_max, 0)).2

/-- `Organism::search_for_food(food)`. -/
def Organism.search_for_food (m : LibmFns) (o : Organism) (food : ConsumableResourcePool) :
    Organism :=
  if !o.get_exists then o
  else
    let s := o.sensory_data.set_food_heading (o.get_heading_to_nearest_resource m food)
    { o with sensory_data := s.set_hunger (toUnsigned o.nutrition) }

/-- `Organism::search_for_water(water)`. -/
def Organism.search_for_water (m : LibmFns) (o : Organism) (water : ConsumableResourcePool) :
    Organism :=
  if !o.get_exists then o
  else
    let s := o.sensory_data.set_water_heading (o.get_heading_to_nearest_resource m water)
    { o with sensory_data := s.set_thirst (toUnsigned o.hydration) }

/-- `Organism::think`. -/
def Organism.think (m : LibmFns) (o : Organism) : Organism :=
  if !o.get_exists then o
  else
    let r := o.genotype.express_behaviour m o.sensory_data.get_data
    let decision := r.1
    let o : Organism := { o with genotype := r.2 }
    let o : Organism := { o with toSimulationObject :=
      o.toSimulationObject.set_velocity m (decision.getD 0 0 * pi) o.phenotype.get_speed }
    { o with sensory_data := o.sensory_data.set_memory (decision.getD 1 0) }

/-- `Organism::move`. -/
def Organism.move (o : Organism) : Organism :=
  if !o.get_exists then o
  else { o with toSimulationObject := o.toSimulationObject.update_position_wrap }

/-- `Organism::update_sprite(fps)`; the sprite colours are not represented. -/
def Organism.update_sprite (o : Organism) (fps : Nat) : Organism :=
  if !o.get_exists then o
  else if o.transfer_effect_time ≥ 0 then
    let o : Organism := { o with transfer_effect_time := o.transfer_effect_time + 1 }
    if (o.transfer_effect_time : ℚ) > (fps : ℚ) * 1.5 then
      { o with transfer_effect_time := -1 }
    else o
  else o

/-! ## Population.h: the two resource pools -/

/-- The enumeration `resource_pool_type`. -/
inductive resource_pool_type where
  | food_pool
  | water_pool
deriving DecidableEq

/-! ## Simulation.cpp: the index ranges of the worker threads -/

/-- The values `organisms_per_thread`, `food_items_per_thread` and `water_items_per_thread`
of `Simulation::run_threaded`: `pool_size / num_simulation_threads + 1` in `unsigned`
arithmetic. -/
def Simulation.items_per_thread (pool_size num_simulation_threads : Nat) : Nat :=
  u32 (pool_size / num_simulation_threads + 1)

/-- The start index `i * items_per_thread` of worker `i`. -/
def Simulation.range_start (i items_per_thread : Nat) : Nat := u32 (i * items_per_thread)

/-- The end index `(i + 1) * items_per_thread` of worker `i`. -/
def Simulation.range_end (i items_per_thread : Nat) : Nat := u32 ((i + 1) * items_per_thread)

/-- The indices that worker `i` visits in one phase over a pool of `pool_size` items: the
phase functions of `Population` cap the end (`end = min(get_max_size(), end)`) and run
`for (i = start; i < end; i++)`. -/
def Simulation.worker_indices (pool_size num_simulation_threads i : Nat) : List Nat :=
  let items_per_thread := Simulation.items_per_thread pool_size num_simulation_threads
  index_loop (Simulation.range_start i items_per_thread)
    (min pool_size (Simulation.range_end i items_per_thread))

/-! ## Ranges handed to the workers and to the position distributions -/

/-- The arguments `(i * timesteps_per_thread, (i + 1) * timesteps_per_thread)` that
`Planet::precompute_temperatures_cpu` passes to worker `i`, with
`timesteps_per_thread = timesteps / worker_threads + 1`, in `unsigned` arithmetic. -/
def Planet.worker_range (timesteps worker_threads i : Nat) : Nat × Nat :=
  let timesteps_per_thread := u32 (timesteps / worker_threads + 1)
  (u32 (i * timesteps_per_thread), u32 ((i + 1) * timesteps_per_thread))

/-- The bounds `(margin, area_size.x - margin - 1)` given to `dist_x` in
`ConsumableResourcePool::reset_item`, after their conversion to `int`. -/
def ConsumableResourcePool.dist_x_bounds (p : ConsumableResourcePool) : Int × Int :=
  (truncToInt p.margin, truncToInt ((p.area.get_size.x : ℚ) - p.margin - 1))

/-- The bounds `(margin, area_size.y - margin - 1)` given to `dist_y` in
`ConsumableResourcePool::reset_item`, after their conversion to `int`. -/
def ConsumableResourcePool.dist_y_bounds (p : ConsumableResourcePool) : Int × Int :=
  (truncToInt p.margin, truncToInt ((p.area.get_size.y : ℚ) - p.margin - 1))

/-! ## Machine arithmetic: binary32 rounding and 32-bit wrap

The definitions from here to the end of the source model translate functions of the source
with every `float` operation rounded to binary32 (`f32`) and with the additions on the
`std::atomic<int>` counters wrapped to 32 bits (`i32`). Where the function also has a
translation over the exact rationals above, the one given here carries its name with the
suffix `_f32` or `_i32`. -/

/-- The power `2 ^ e` for an integer exponent. -/
def pow2 (e : Int) : ℚ :=
  if 0 ≤ e then ((2 ^ e.toNat : Nat) : ℚ) else 1 / ((2 ^ (-e).toNat : Nat) : ℚ)

/-- Rounding to the nearest integer, ties to the even one. -/
def round_half_even (q : ℚ) : Int :=
  let f : Int := q.num / (q.den : Int)
  let r : ℚ := q - (f : ℚ)
  if r < 1 / 2 then f
  else if 1 / 2 < r then f + 1
  else if f % 2 = 0 then f else f + 1

/-- The number of halvings that bring `n` below 2, at most `fuel` of them: `⌊log₂ n⌋` when
`n ≤ fuel`. -/
def log2_fuel : Nat → Nat → Nat
  | 0, _ => 0
  | fuel + 1, n => if n < 2 then 0 else log2_fuel fuel (n / 2) + 1

/-- The exponent `⌊log₂ q⌋` of a positive rational. -/
def floor_log2 (q : ℚ) : Int :=
  let e0 : Int := (log2_fuel q.num.natAbs q.num.natAbs : Int) - (log2_fuel q.den q.den : Int)
  if pow2 e0 ≤ q then e0 else e0 - 1

/-- Rounding to IEEE 754 binary32 (round to nearest, ties to even): 24 significant bits,
hence the spacing `2 ^ (e - 23)` in the binade of exponent `e`, and the subnormal spacing
`2 ^ (-149)` below `2 ^ (-126)`. Overflow to infinity is not represented: the results of
the operations modelled with it stay far below `numeric_limits<float>::max()`. -/
def f32 (q : ℚ) : ℚ :=
  if q = 0 then 0
  else
    let e := max (floor_log2 |q|) (-126)
    let ulp := pow2 (e - 23)
    (round_half_even (q / ulp) : ℚ) * ulp

/-- Result of arithmetic on a `std::atomic<int>`: the value wrapped into
`[-2^31, 2^31)` (two's complement, as `fetch_add` is specified). -/
def i32 (i : Int) : Int := (i + 2147483648) % 4294967296 - 2147483648

/-- `combine(child, parent1, parent2, parent1_weighting)` in binary32 arithmetic. -/
def combine_f32 (child parent1 parent2 : List ℚ) (parent1_weighting : ℚ) : List ℚ :=
  (List.range child.length).map fun i =>
    f32 (f32 (parent1_weighting * parent1.getD i 0)
      + f32 (f32 (1 - parent1_weighting) * parent2.getD i 0))

/-- `BehaviourNetLayer::transfer_from` in binary32 arithmetic. -/
def BehaviourNetLayer.transfer_from_f32 (l donor : BehaviourNetLayer) (donor_weighting : ℚ) :
    BehaviourNetLayer :=
  { l with weights := combine_f32 l.weights donor.weights l.weights donor_weighting }

/-- `BehaviourNet::transfer_from` in binary32 arithmetic. -/
def BehaviourNet.transfer_from_f32 (n donor : BehaviourNet) (donor_weighting : ℚ) :
    BehaviourNet :=
  { layer1 := n.layer1.transfer_from_f32 donor.layer1 donor_weighting,
    layer2 := n.layer2.transfer_from_f32 donor.layer2 donor_weighting,
    output_layer := n.output_layer.transfer_from_f32 donor.output_layer donor_weighting }

/-- `Genotype::transfer_from(donor, donor_weighting)` in binary32 arithmetic: the pair
(recipient, donor) after the call. -/
def Genotype.transfer_from_f32 (g donor : Genotype) (donor_weighting : ℚ) :
    Genotype × Genotype :=
  ({ behaviour_net := g.behaviour_net.transfer_from_f32 donor.behaviour_net donor_weighting,
     trait_genes := combine_f32 g.trait_genes donor.trait_genes g.trait_genes donor_weighting },
   donor)

/-- `SensoryData::set_hunger(unsigned int nutrition)` in binary32 arithmetic:
`((1 - static_cast<float>(nutrition) / 1e6f) - 0.5f) * 2.f`. -/
def SensoryData.set_hunger_f32 (s : SensoryData) (nutrition : Nat) : SensoryData :=
  { data := s.data.set 0
      (f32 (f32 (f32 (1 - f32 (f32 (nutrition : ℚ) / 1000000)) - 1 / 2) * 2)) }

/-- `SensoryData::set_thirst(unsigned int hydration)` in binary32 arithmetic. -/
def SensoryData.set_thirst_f32 (s : SensoryData) (hydration : Nat) : SensoryData :=
  { data := s.data.set 1
      (f32 (f32 (f32 (1 - f32 (f32 (hydration : ℚ) / 1000000)) - 1 / 2) * 2)) }

/-- `SensoryData::set_temperature_damage(unsigned int integrity)` in binary32 arithmetic. -/
def SensoryData.set_temperature_damage_f32 (s : SensoryData) (integrity : Nat) : SensoryData :=
  { data := s.data.set 2
      (f32 (f32 (f32 (1 - f32 (f32 (integrity : ℚ) / 1000000)) - 1 / 2) * 2)) }

/-- `SensoryData::set_food_heading(heading)` in binary32 arithmetic: the quotient
`heading / pi` rounded to the `float` element `data[3]`. -/
def SensoryData.set_food_heading_f32 (s : SensoryData) (heading : ℚ) : SensoryData :=
  { data := s.data.set 3 (f32 (heading / pi)) }

/-- `SensoryData::set_water_heading(heading)` in binary32 arithmetic, writing `data[4]`. -/
def SensoryData.set_water_heading_f32 (s : SensoryData) (heading : ℚ) : SensoryData :=
  { data := s.data.set 4 (f32 (heading / pi)) }

/-- `SensoryData::set_temperature_heading(heading)` in binary32 arithmetic, writing
`data[5]`. -/
def SensoryData.set_temperature_heading_f32 (s : SensoryData) (heading : ℚ) : SensoryData :=
  { data := s.data.set 5 (f32 (heading / pi)) }

/-- `Organism::check_in_range(item, center)` in binary32 arithmetic: the two differences,
the two squares, their sum, the product with the `int` factor `center ? 0 : 1`, the range
and its square are each rounded. -/
def Organism.check_in_range_f32 (o : Organism) (item : SimulationObject) (center : Bool) :
    Bool :=
  let item_pos := item.get_position
  let pos := o.get_position
  let size := o.get_size
  let d_x := f32 (pos.x - item_pos.x)
  let d_y := f32 (pos.y - item_pos.y)
  let d_2 := f32 (f32 (d_x * d_x) + f32 (d_y * d_y))
  let range := f32 (size + f32 ((if center then 0 else 1) * item.get_size))
  decide (d_2 < f32 (range * range))

/-- `Organism::interact_with(other, rng)` in binary32 arithmetic; `0.35f` and `0.65f` are
the binary32 values nearest to 0.35 and 0.65. The state of both organisms and of the engine
after the call is returned. -/
def Organism.interact_with_f32 (self other : Organism) (rng : Rng) :
    Organism × Organism × Rng :=
  if !self.get_exists then (self, other, rng)
  else if !other.get_exists then
    ({ self with collisions := self.collisions.set other.index 0 }, other, rng)
  else
    let collision := self.check_in_range_f32 other.toSimulationObject true
    let r : Organism × Organism × Rng :=
      if collision && self.collisions.getD other.index 0 == 0 && decide (other.age > 250) then
        let d := uniform_real 0 1 rng
        let chance_of_transfer :=
          f32 (f32 (f32 (self.fitness * f32 0.35) + f32 (other.fitness * f32 0.65)) / 10)
        if d.1 < chance_of_transfer then
          let weighting := f32 (f32 (f32 (f32 (other.fitness - self.fitness) / 2) + 0.5) / 5)
          let g := self.genotype.transfer_from_f32 other.genotype weighting
          ({ self with genotype := g.1, genes_transferred := true, transfer_effect_time := 0 },
           { other with genotype := g.2 }, d.2)
        else (self, other, d.2)
      else (self, other, rng)
    ({ r.1 with collisions := r.1.collisions.set other.index (if collision then 1 else 0) },
     r.2.1, r.2.2)

/-- `Organism::react_to_temperature(planet, time)` in binary32 arithmetic. The `int`
integrity is converted to `float` for the sum or difference, whose rounded value is
converted back to `int`. With `health_rate = 0` the quotient `120 / (health_rate / 2)` is
infinite in IEEE arithmetic and the loss is 0; the model yields the same loss, division by
zero being 0. -/
def Organism.react_to_temperature_f32 (o : Organism) (planet : Planet ℚ) (time : Nat) :
    Organism :=
  if !o.get_exists then o
  else
    let position := o.get_position
    let current_temp := planet.get_temperature (truncToNat position.y) time
    let temp_d := |f32 (current_temp - o.phenotype.get_ideal_temp)|
    let integrity : Int := truncToInt (if temp_d < o.phenotype.get_temp_range then
        min 1000000 (f32 (f32 (o.integrity : ℚ)
          + f32 (o.phenotype.get_health_rate / max 1 temp_d)))
      else
        max 0 (f32 (f32 (o.integrity : ℚ)
          - f32 (temp_d / f32 (120 / f32 (o.phenotype.get_health_rate / 2))))))
    let sensory_data := o.sensory_data.set_temperature_damage_f32 (toUnsigned integrity)
    let north_temperature := planet.get_temperature
      (toUnsigned (max 0 (truncToInt position.y - 5))) time
    let south_temperature := planet.get_temperature
      (toUnsigned (min ((o.get_area_size.y : Int) - 1) (truncToInt position.y + 5))) time
    let north_d := |f32 (north_temperature - o.phenotype.get_ideal_temp)|
    let south_d := |f32 (south_temperature - o.phenotype.get_ideal_temp)|
    let temperature_heading := if north_d < south_d then pi / 2 else -pi / 2
    { o with integrity := integrity,
             sensory_data := sensory_data.set_temperature_heading_f32 temperature_heading }

/-- `Organism::nourish(amount)`: the atomic `fetch_add` on the 32-bit counter. -/
def Organism.nourish_i32 (o : Organism) (amount : Nat) : Organism :=
  { o with nutrition := i32 (o.nutrition + amount) }

/-- `Organism::hydrate(amount)`: the atomic `fetch_add` on the 32-bit counter. -/
def Organism.hydrate_i32 (o : Organism) (amount : Nat) : Organism :=
  { o with hydration := i32 (o.hydration + amount) }

/-- `SimulationObject::update_position_wrap` in binary32 arithmetic: the sum
`position + velocity`, the bound `area_size - 1.f` (the `unsigned` size converted to
`float`) and the wrapped coordinates are each rounded. -/
def SimulationObject.update_position_wrap_f32 (o : SimulationObject) : SimulationObject :=
  if !o.exists_ then o
  else
    let position : Vector2f :=
      ⟨f32 (o.position.x + o.velocity.x), f32 (o.position.y + o.velocity.y)⟩
    let area_size := o.area.get_size
    let bounds_max : Vector2f :=
      ⟨f32 (f32 (area_size.x : ℚ) - 1), f32 (f32 (area_size.y : ℚ) - 1)⟩
    let bounds_min : Vector2f := ⟨0, 0⟩
    let x := if position.x > bounds_max.x then
        f32 (bounds_min.x + f32 (position.x - bounds_max.x))
      else if position.x < bounds_min.x then
        f32 (bounds_max.x - f32 (bounds_min.x - position.x))
      else position.x
    let y := if position.y > bounds_max.y then
        f32 (bounds_min.y + f32 (position.y - bounds_max.y))
      else if position.y < bounds_min.y then
        f32 (bounds_max.y - f32 (bounds_min.y - position.y))
      else position.y
    { o with position := ⟨x, y⟩, wrap := true }

/-- `Organism::move` in binary32 arithmetic. -/
def Organism.move_f32 (o : Organism) : Organism :=
  if !o.get_exists then o
  else { o with toSimulationObject := o.toSimulationObject.update_position_wrap_f32 }

/-- `ConsumableResource::init(val, max_val, pos)` in binary32 arithmetic:
`(static_cast<float>(value) / static_cast<float>(max_val)) * 6.f`. -/
def ConsumableResource.init_f32 (c : ConsumableResource) (val max_val : Nat) (pos : Vector2f) :
    ConsumableResource :=
  { c with value := val, position := pos,
           size := f32 (f32 (f32 (val : ℚ) / f32 (max_val : ℚ)) * 6),
           exists_ := true }

/-- `ConsumableResourcePool::reset_item(i, rng)` in binary32 arithmetic: the upper bounds
`area_size - margin - 1` are computed in `float` and converted to `int`, the drawn `int`
coordinates are converted to `float`. The three draws are taken in the order value, x, y. -/
def ConsumableResourcePool.reset_item_f32 (p : ConsumableResourcePool) (i : Nat) (rng : Rng) :
    ConsumableResourcePool × Rng :=
  let area_size := p.area.get_size
  let lo_x := truncToInt p.margin
  let hi_x := truncToInt (f32 (f32 (f32 (area_size.x : ℚ) - p.margin) - 1))
  let lo_y := truncToInt p.margin
  let hi_y := truncToInt (f32 (f32 (f32 (area_size.y : ℚ) - p.margin) - 1))
  let v := uniform_int 10000 (p.max_val : Int) rng
  let x := uniform_int lo_x hi_x v.2
  let y := uniform_int lo_y hi_y x.2
  let pool := update_at p.pool i
    (fun c => c.init_f32 (toUnsigned v.1) p.max_val ⟨f32 (x.1 : ℚ), f32 (y.1 : ℚ)⟩);
  ({ p with pool := pool }, y.2)

/-- `ConsumableResourcePool::consume_and_reset_item(i, rng)` with the binary32 reset: the
returned value, the pool and the engine after the call. For an index beyond the pool
(undefined in C++) the value is 0. -/
def ConsumableResourcePool.consume_and_reset_item_f32 (p : ConsumableResourcePool) (i : Nat)
    (rng : Rng) : Nat × ConsumableResourcePool × Rng :=
  let value := match p.pool[i]? with
    | some c => (c.consume).1
    | none => 0
  let p : ConsumableResourcePool := { p with pool := update_at p.pool i (fun c => (c.consume).2) }
  let r := p.reset_item_f32 i rng
  (value, r.1, r.2)

/-- Inner loop of `Population::distribute_resources` for item `i` over the organisms `j`,
with the binary32 range test and the 32-bit `fetch_add`: the first living organism in range
consumes the item, and `break` ends the scan. -/
def Population.distribute_scan (which_pool : resource_pool_type) (i : Nat) :
    List Nat → List Organism × ConsumableResourcePool × Rng →
      List Organism × ConsumableResourcePool × Rng
  | [], s => s
  | j :: rest, (organisms, pool, rng) =>
    match organisms[j]?, pool.pool[i]? with
    | some o, some item =>
      if o.get_exists && o.check_in_range_f32 item.toSimulationObject false then
        let r := pool.consume_and_reset_item_f32 i rng
        match which_pool with
        | .food_pool => (update_at organisms j (fun o => o.nourish_i32 r.1), r.2.1, r.2.2)
        | .water_pool => (update_at organisms j (fun o => o.hydrate_i32 r.1), r.2.1, r.2.2)
      else Population.distribute_scan which_pool i rest (organisms, pool, rng)
    | _, _ => Population.distribute_scan which_pool i rest (organisms, pool, rng)

/-- Outer loop of `Population::distribute_resources` over the items `i` of the range, with
the binary32 range test and the 32-bit `fetch_add`. -/
def Population.distribute_loop (which_pool : resource_pool_type) (max_size : Nat) :
    List Nat → List Organism × ConsumableResourcePool × Rng →
      List Organism × ConsumableResourcePool × Rng
  | [], s => s
  | i :: rest, (organisms, pool, rng) =>
    match pool.pool[i]? with
    | some item =>
      if item.get_exists then
        Population.distribute_loop which_pool max_size rest
          (Population.distribute_scan which_pool i (List.range max_size)
            (organisms, pool, rng))
      else Population.distribute_loop which_pool max_size rest (organisms, pool, rng)
    | none => Population.distribute_loop which_pool max_size rest (organisms, pool, rng)

/-- `Population::distribute_resources(pool_start, pool_end, which_pool, rng)` with the
binary32 range test and the 32-bit `fetch_add`; `pool` is the pool selected by `which_pool`:
the population, that pool and the engine after the call are returned. -/
def Population.distribute_resources (p : Population) (pool_start pool_end : Nat)
    (which_pool : resource_pool_type) (pool : ConsumableResourcePool) (rng : Rng) :
    Population × ConsumableResourcePool × Rng :=
  let pool_end := min pool.get_max_size pool_end
  let r := Population.distribute_loop which_pool p.get_max_size
    (index_loop pool_start pool_end) (p.pool, pool, rng)
  ({ p with pool := r.1 }, r.2.1, r.2.2)

/-- `Population::nourish(pool_start, pool_end, rng)` on the food pool. -/
def Population.nourish (p : Population) (pool_start pool_end : Nat)
    (food : ConsumableResourcePool) (rng : Rng) : Population × ConsumableResourcePool × Rng :=
  p.distribute_resources pool_start pool_end .food_pool food rng

/-- `Population::hydrate(pool_start, pool_end, rng)` on the water pool. -/
def Population.hydrate (p : Population) (pool_start pool_end : Nat)
    (water : ConsumableResourcePool) (rng : Rng) : Population × ConsumableResourcePool × Rng :=
  p.distribute_resources pool_start pool_end .water_pool water rng

/-- Loop of `Organism::get_heading_to_nearest_resource` over the items in binary32
arithmetic: the pair (shortest squared distance, heading) after the scan. The differences,
their squares and the sum are each rounded; `atan2` receives the rounded differences. -/
def nearest_resource_scan_f32 (m : LibmFns) (pos : Vector2f) :
    List ConsumableResource → ℚ × ℚ → ℚ × ℚ
  | [], s => s
  | item :: rest, (shortest_distance, heading) =>
    if item.get_exists then
      let resource_pos := item.get_position
      let d_x := f32 (pos.x - resource_pos.x)
      let d_y := f32 (pos.y - resource_pos.y)
      let d_2 := f32 (f32 (d_x * d_x) + f32 (d_y * d_y))
      if d_2 < shortest_distance then
        nearest_resource_scan_f32 m pos rest (d_2, m.atan2 d_y d_x)
      else nearest_resource_scan_f32 m pos rest (shortest_distance, heading)
    else nearest_resource_scan_f32 m pos rest (shortest_distance, heading)

/-- `Organism::get_heading_to_nearest_resource(pool)` in binary32 arithmetic: the items
`pool[0]`, ..., `pool[max_size - 1]` are scanned in order. -/
def Organism.get_heading_to_nearest_resource_f32 (m : LibmFns) (o : Organism)
    (pool : ConsumableResourcePool) : ℚ :=
  (nearest_resource_scan_f32 m o.get_position (pool.pool.take pool.get_max_size)
    (float_max, 0)).2

/-- `Organism::search_for_food(food)` in binary32 arithmetic. -/
def Organism.search_for_food_f32 (m : LibmFns) (o : Organism) (food : ConsumableResourcePool) :
    Organism :=
  if !o.get_exists then o
  else
    let s := o.sensory_data.set_food_heading_f32 (o.get_heading_to_nearest_resource_f32 m food)
    { o with sensory_data := s.set_hunger_f32 (toUnsigned o.nutrition) }

/-- `Organism::search_for_water(water)` in binary32 arithmetic. -/
def Organism.search_for_water_f32 (m : LibmFns) (o : Organism)
    (water : ConsumableResourcePool) : Organism :=
  if !o.get_exists then o
  else
    let s := o.sensory_data.set_water_heading_f32
      (o.get_heading_to_nearest_resource_f32 m water)
    { o with sensory_data := s.set_thirst_f32 (toUnsigned o.hydration) }

/-! ## Worker threads on the nutrition counter of one organism -/

/-- One memory action of a worker thread on the `nutrition` counter of an organism.
`fetch_add` is the indivisible read-modify-write `std::atomic<int>::fetch_add`, the body of
`Organism::nourish`. `load` and `store_sum` are the two halves of `nutrition = nutrition +
amount` on a plain `int`: a read into a register of the thread and a later write, between
which other threads can act. -/
inductive CounterAction where
  | fetch_add (amount : Nat)
  | load
  | store_sum (amount : Nat)
deriving DecidableEq

/-- A worker thread: the actions it still has to take and the value it last loaded. -/
structure Worker where
  actions : List CounterAction
  loaded : Int
deriving DecidableEq

/-- One organism shared by two worker threads. -/
structure AwardState where
  organism : Organism
  first : Worker
  second : Worker
deriving DecidableEq

/-- The actions of one call `Organism::nourish(amount)`: a single `fetch_add`. -/
def nourish_actions (amount : Nat) : List CounterAction := [CounterAction.fetch_add amount]

/-- The actions of an award written without the atomic operation, `nutrition = nutrition +
amount` on a plain `int`: a load, then the store of the sum. -/
def plain_add_actions (amount : Nat) : List CounterAction :=
  [CounterAction.load, CounterAction.store_sum amount]

/-- The effect of one action of a worker on its register and on the organism. -/
def CounterAction.apply (a : CounterAction) (loaded : Int) (o : Organism) : Int × Organism :=
  match a with
  | .fetch_add amount => (loaded, o.nourish_i32 amount)
  | .load => (o.nutrition, o)
  | .store_sum amount => (loaded, { o with nutrition := i32 (loaded + amount) })

/-- The next action of a worker, if it has one left: the worker and the organism after it. -/
def Worker.step (w : Worker) (o : Organism) : Option (Worker × Organism) :=
  match w.actions with
  | [] => none
  | a :: rest => some (⟨rest, (a.apply w.loaded o).1⟩, (a.apply w.loaded o).2)

/-- One step of the scheduler: the second worker (`true`) or the first (`false`) takes its
next action; a worker that has finished cannot be scheduled. -/
def AwardState.step (s : AwardState) (second : Bool) : Option AwardState :=
  if second then
    match s.second.step s.organism with
    | some (w, o) => some { s with organism := o, second := w }
    | none => none
  else
    match s.first.step s.organism with
    | some (w, o) => some { s with organism := o, first := w }
    | none => none

/-- A schedule: the order in which the two workers take their actions. -/
def AwardState.run : List Bool → AwardState → Option AwardState
  | [], s => some s
  | t :: rest, s =>
    match s.step t with
    | some s2 => AwardState.run rest s2
    | none => none

/-! ## Sample values used to instantiate the statements -/

/-- A small configuration: a 300 x 300 world, orbital period 1000, population of 3. -/
def sample_config : Config :=
  { precompute_temperatures_cpu_threads := 8, planet_benchmark_samples := 2,
    standard_framerate := 90, area_width := 300, area_height := 300, latitude_range := 90,
    orbital_period := 1000, orbit_center_offset_x := 0, orbit_center_offset_y := 0,
    orbit_radius_x := 172000000000, orbit_radius_y := 138000000000, orbit_rotation := 0,
    star_luminosity := 384600000000000000000000000, albedo := 29 / 100, axial_tilt := 23,
    radius := 6371000, atmosphere_optical_thickness := 13 / 10,
    temperature_moderation_factor := 4, temperature_moderation_bias := 8 / 10,
    population_size := 3, population_pos_margin := 20,
    area_of_influence_mean := 8, area_of_influence_sigma := 2, speed_mean := 1,
    speed_sigma := 1 / 10, health_rate_mean := 220, health_rate_sigma := 30,
    ideal_temp_mean := 260, ideal_temp_sigma := 30, temp_range_mean := 10,
    temp_range_sigma := 2, behaviour_net_weight_range := 2,
    behaviour_net_weight_range_bias := 1, behaviour_net_layer_1_units := 2,
    behaviour_net_layer_2_units := 2, population_init := 2, replication_rate := 1,
    behaviour_net_mutation_prob := 1 / 10, behaviour_net_mutation_sigma := 2 / 10,
    trait_genes_mutation_prob := 1 / 10, trait_genes_mutation_sigma := 1 / 100 }

/-- The area of `sample_config`. -/
def sample_area : SimulationArea := { area_size := ⟨300, 300⟩ }

/-- A living organism in slot 0 with all-zero genes, hence with the mean traits of
`sample_config` (health rate 220, ideal temperature 260, temperature range 10). -/
def sample_organism : Organism :=
  let o := Organism.new 0 sample_area sample_config
  let o : Organism := { o with phenotype := o.genotype.express_traits o.phenotype }
  { o with exists_ := true, size := 8, position := ⟨100, 100⟩ }

/-- A built planet table with 300 rows and a single timestep, 260 K everywhere. -/
def sample_planet : Planet ℚ :=
  { initialized := true, temperatures := List.replicate 300 260, timesteps := 1 }

/-- `sample_organism` with a negative health rate (trait value -220). -/
def negative_rate_organism : Organism :=
  { sample_organism with
    phenotype := { sample_organism.phenotype with
                   health_rate := ⟨-220, sample_organism.phenotype.health_rate.params⟩ } }

/-- The free-slot queue `q` holds exactly the indices of `pool` whose organism does not
exist, each exactly once. -/
def queue_exact (pool : List Organism) (q : List Nat) : Prop :=
  q.Nodup ∧ ∀ i, i ∈ q ↔ ∃ o, pool[i]? = some o ∧ o.exists_ = false

/-- The population holds `max_size` organisms and its free-slot queue is exact. -/
def Population.free_queue_exact (p : Population) : Prop :=
  p.pool.length = p.max_size ∧ queue_exact p.pool p.available_slots.q

/-- A population of three slots after `init_random` with `n = 2`: slots 0 and 1 live,
slot 2 is free. The engine returns 0 at every draw. -/
def sample_population : Population :=
  ((Population.new sample_area sample_config).init_random 2 ⟨fun _ => 0, 0⟩).1

/-- `sample_population` with every organism aged 500, so that replication is possible. -/
def mature_population : Population :=
  { sample_population with pool := sample_population.pool.map (fun o => { o with age := 500 }) }

/-- A genotype of the architecture 7-2-2-2 whose weights and trait genes all equal `c`. -/
def constant_genotype (c : ℚ) : Genotype :=
  { behaviour_net :=
      { layer1 := { BehaviourNetLayer.new 7 2 false with weights := List.replicate 14 c },
        layer2 := { BehaviourNetLayer.new 2 2 false with weights := List.replicate 4 c },
        output_layer := { BehaviourNetLayer.new 2 2 false with weights := List.replicate 4 c } },
    trait_genes := List.replicate 15 c }

/-- A second living organism, in slot 1, 300 timesteps old, at the position of
`sample_organism`. -/
def sample_neighbour : Organism := { sample_organism with index := 1, age := 300 }

/-- A built planet table with 300 rows and a single timestep, 360 K everywhere. -/
def hot_planet : Planet ℚ :=
  { initialized := true, temperatures := List.replicate 300 360, timesteps := 1 }

/-- `sample_organism` with only 10 units of integrity left. -/
def frail_organism : Organism := { sample_organism with integrity := 10 }

/-! ## Planet table: reference description -/

section PlanetReference

variable {α : Type} [FloatOps α]

/-- The table entry for row `y` and timestep `t` as a function of `y`, `t` and the
configuration only: the final temperature computed from the equatorial temperature of
`t` and the latitude of `y`, narrowed to `float`. -/
def temperature_entry (config : Config) (y t : Nat) : α :=
  FloatOps.narrow (final_temperature config (latitude_of_row config y) t
    (equatorial_black_body_temperature config t))

/-- The table of `area_height * orbital_period` entries in which position
`y * orbital_period + t` holds `temperature_entry config y t`. -/
def temperature_table (config : Config) : List α :=
  (List.range (config.area_height * config.orbital_period)).map
    (fun j => temperature_entry config (j / config.orbital_period) (j % config.orbital_period))

end PlanetReference

/-- The table transformer `f` keeps the length, stores `g j` at every position `j`
satisfying `W` and leaves every other position as it is. -/
def Writes {α : Type} (f : List α → List α) (W : Nat → Prop) (g : Nat → α) : Prop :=
  ∀ tb : List α, (f tb).length = tb.length ∧
    (∀ j, W j → j < tb.length → (f tb)[j]? = some (g j)) ∧
    (∀ j, ¬ W j → (f tb)[j]? = tb[j]?)

/-- An interpretation of the floating-point operations over `ℚ`, with polynomial
stand-ins for the libm functions; it serves to instantiate statements that hold for
every interpretation. -/
def sampleOps : FloatOps ℚ :=
  { lit := id,
    isZero := fun x => decide (x = 0),
    cos := fun x => 1 - x * x / 2,
    sin := fun x => x - x * x * x / 6,
    tan := fun x => x + x * x * x / 3,
    asin := fun x => x + x * x * x / 6,
    pow := fun x _ => x,
    sign := fun x => if x < 0 then -1 else if 0 < x then 1 else 0,
    narrow := id }

/-- A configuration within the admitted ranges (`Area.height` at most 10,000,
`Planet.orbital_period` at most 1,000,000) whose table has 5,000,000,000 entries. -/
def large_config : Config :=
  { sample_config with area_height := 5000, orbital_period := 1000000 }

/-- The planet built for `large_config` with four worker threads, over `sampleOps`. -/
def large_planet : Planet ℚ :=
  @Planet.precompute_temperatures ℚ sampleOps Planet.new large_config false 4

/-- A configuration whose `Area.latitude_range` is 45 degrees (admitted: the option is
parsed with the bounds 1 and 90). -/
def half_range_config : Config := { sample_config with latitude_range := 45 }

/-- The two steps of the state machine of a `SignalLink`: a call of `notify` and a call of
`wait` that passes. -/
inductive SignalStep where
  | notify
  | wait
deriving DecidableEq

/-- One step of a `SignalLink`; a `wait` on a link that is not ready blocks (`none`). -/
def SignalLink.step (s : SignalLink) : SignalStep → Option SignalLink
  | .notify => some s.notify
  | .wait => s.wait

/-- The steps of `tr` taken one after the other; `none` if one of the waits blocks. -/
def SignalLink.run : List SignalStep → SignalLink → Option SignalLink
  | [], s => some s
  | a :: tr, s => (s.step a).bind (SignalLink.run tr)

/-- An interpretation of the libm functions by rational stand-ins that agree with the
true functions at 0 (`tanh 0 = 0`, `exp 0 = 1`, `atan2 0 0 = 0`, `cos 0 = 1`,
`sin 0 = 0`); it serves to instantiate statements that hold for every interpretation. -/
def sample_libm : LibmFns :=
  { tanh := fun x => x - x * x * x / 3,
    exp := fun x => 1 + x + x * x / 2,
    atan2 := fun y x => y - x,
    cos := fun x => 1 - x * x / 2,
    sin := fun x => x - x * x * x / 6 }

/-- A tanh layer with two inputs and two units, the weight matrix `[[1, 2], [3, 4]]` and
the activations `[7, 7]` left by an earlier pass. -/
def sample_layer : BehaviourNetLayer :=
  { inputs := 2, units := 2, sigmoid := false, weights := [1, 2, 3, 4], activations := [7, 7] }

/-- A layer built by `BehaviourNetLayer(1, 1, true)`, with the weight 1. -/
def sigmoid_layer : BehaviourNetLayer :=
  { BehaviourNetLayer.new 1 1 true with weights := [1] }

/-- `sample_organism` at the left edge of the 300 x 300 area, with a velocity of 299.5 to
the left. -/
def fast_organism : Organism :=
  { sample_organism with position := ⟨0, 100⟩, velocity := ⟨-299.5, 0⟩ }

/-- `sample_organism` after its death. -/
def dead_organism : Organism := { sample_organism with exists_ := false }

/-- A dead organism whose `genes_transferred` flag is set, with a genotype whose trait
genes all equal 1. -/
def dead_transferred_organism : Organism :=
  { sample_organism with exists_ := false, genes_transferred := true,
                         genotype := constant_genotype 1 }

/-- `sample_organism` at the right edge `(W − 1, H / 2) = (299, 150)` of the 300 x 300
area, with the velocity `(2, 0)`. -/
def edge_organism : Organism :=
  { sample_organism with position := ⟨299, 150⟩, velocity := ⟨2, 0⟩ }

/-- `sample_organism` with fitness 0.5. -/
def half_fit_organism : Organism := { sample_organism with fitness := 1 / 2 }

/-- `sample_neighbour` (slot 1, age 300, at the position of `sample_organism`) with
fitness 0.5. -/
def half_fit_neighbour : Organism := { sample_neighbour with fitness := 1 / 2 }

/-- `half_fit_neighbour` at the age of exactly 250 timesteps. -/
def boundary_neighbour : Organism := { half_fit_neighbour with age := 250 }

/-- The configuration `sample_config` (orbital period 1000) with 256 worker threads for
the temperature precomputation, the largest admitted number. -/
def many_threads_config : Config :=
  { sample_config with precompute_temperatures_cpu_threads := 256 }

/-- A food pool built for the 300 x 300 area with the position margin 150, the largest
admitted margin. -/
def wide_margin_pool : ConsumableResourcePool :=
  ConsumableResourcePool.new 1 100000 150 sample_area

/-- Every organism of `pool` carries the index of its slot and a collision vector of
`size` entries. -/
def pool_indexed (pool : List Organism) (size : Nat) : Prop :=
  ∀ (i : Nat) (o : Organism), pool[i]? = some o → o.index = i ∧ o.collisions.length = size

/-- The population holds `max_size = population_size` organisms, each with the index of
its slot and a collision vector with one entry per slot. -/
def Population.slots_indexed (p : Population) : Prop :=
  p.pool.length = p.max_size ∧ p.max_size = p.config.population_size ∧
  pool_indexed p.pool p.max_size

/-- The squared distance between two positions. -/
def squared_distance (pos resource_pos : Vector2f) : ℚ :=
  (pos.x - resource_pos.x) * (pos.x - resource_pos.x)
    + (pos.y - resource_pos.y) * (pos.y - resource_pos.y)

/-- `sample_organism` with the health rate 220.5. -/
def fractional_rate_organism : Organism :=
  { sample_organism with
    phenotype := { sample_organism.phenotype with
                   health_rate := ⟨441 / 2, sample_organism.phenotype.health_rate.params⟩ } }

/-- `sample_organism` with size 5 at `(3 - 2^(-22), 4)`, a binary32 position whose exact
squared distance to the origin is just below 25. -/
def near_boundary_organism : Organism :=
  { sample_organism with size := 5, position := ⟨3 - 1 / 4194304, 4⟩ }

/-- `sample_neighbour` moved to the origin. -/
def origin_neighbour : Organism := { sample_neighbour with position := ⟨0, 0⟩ }

/-- `sample_organism` with the health rate `7235961 / 32768`, the binary32 value nearest
to 220.824. -/
def rounded_rate_organism : Organism :=
  { sample_organism with
    phenotype := { sample_organism.phenotype with
                   health_rate := ⟨7235961 / 32768, sample_organism.phenotype.health_rate.params⟩ } }

/-- The squared distance between two positions as `d_x * d_x + d_y * d_y` evaluates in
binary32 arithmetic. -/
def squared_distance_f32 (pos resource_pos : Vector2f) : ℚ :=
  f32 (f32 (f32 (pos.x - resource_pos.x) * f32 (pos.x - resource_pos.x))
    + f32 (f32 (pos.y - resource_pos.y) * f32 (pos.y - resource_pos.y)))

/-- An area of 2000 x 2000. -/
def wide_area : SimulationArea := { area_size := ⟨2000, 2000⟩ }

/-- `sample_organism` at the binary32 position `(1000 + 2^(-14), 1190)` of `wide_area`. -/
def far_organism : Organism :=
  { sample_organism with area := wide_area, position := ⟨1000 + 1 / 16384, 1190⟩ }

/-- A food pool of `wide_area` with two existing items of value 20000, at `(600, 0)` and
at `(1400, 0)`. -/
def two_item_pool : ConsumableResourcePool :=
  { toSimulationObjectPool :=
      { initialized := true, max_size := 2,
        pool := [(ConsumableResource.new wide_area).init_f32 20000 100000 ⟨600, 0⟩,
                 (ConsumableResource.new wide_area).init_f32 20000 100000 ⟨1400, 0⟩],
        available_slots := ⟨[]⟩ },
    max_val := 100000, margin := 20, area := wide_area }

/-- `sample_food` with the size of its item computed in binary32 arithmetic. -/
def sample_food_f32 : ConsumableResourcePool :=
  { toSimulationObjectPool :=
      { initialized := true, max_size := 1,
        pool := [(ConsumableResource.new sample_area).init_f32 20000 100000 ⟨103, 104⟩],
        available_slots := ⟨[]⟩ },
    max_val := 100000, margin := 20, area := sample_area }

/-- `sample_organism` at the binary32 position `(300 - 2^(-15), 100)`, the last `float`
below the width of the 300 x 300 area, with the velocity `(299, 0)`. -/
def brink_organism : Organism :=
  { sample_organism with position := ⟨300 - 1 / 32768, 100⟩, velocity := ⟨299, 0⟩ }

/-- The item of `sample_food_f32`: value 20000, size `6 * 0.2f`, at `(103, 104)`. -/
def sample_item_f32 : ConsumableResource :=
  (ConsumableResource.new sample_area).init_f32 20000 100000 ⟨103, 104⟩

/-- `sample_organism` (size 8) at `(9.2f, 100)`, where `9.2f = 9646899 / 1048576` is the
binary32 value nearest to 9.2. -/
def grazing_organism : Organism :=
  { sample_organism with position := ⟨9646899 / 1048576, 100⟩ }

/-- A food pool of the 300 x 300 area with one item of value 20000, hence of size
`6 * 0.2f`, at `(0, 100)`. -/
def grazing_food : ConsumableResourcePool :=
  { toSimulationObjectPool :=
      { initialized := true, max_size := 1,
        pool := [(ConsumableResource.new sample_area).init_f32 20000 100000 ⟨0, 100⟩],
        available_slots := ⟨[]⟩ },
    max_val := 100000, margin := 20, area := sample_area }

/-- `sample_organism` with a nutrition counter of 2147000000, the state of the counter
after 2146 awards of 1000000 within one distribute phase. -/
def sated_organism : Organism := { sample_organism with nutrition := 2147000000 }

/-- A food pool of the 300 x 300 area with one item of the value 1000000 at `(103, 104)`. -/
def rich_food : ConsumableResourcePool :=
  { toSimulationObjectPool :=
      { initialized := true, max_size := 1,
        pool := [(ConsumableResource.new sample_area).init_f32 1000000 1000000 ⟨103, 104⟩],
        available_slots := ⟨[]⟩ },
    max_val := 1000000, margin := 20, area := sample_area }

/-- Two workers about to act on the organism `o`, with the given actions. -/
def award_start (o : Organism) (first second : List CounterAction) : AwardState :=
  { organism := o, first := ⟨first, 0⟩, second := ⟨second, 0⟩ }

/-- Both workers have taken all their actions. -/
def AwardState.finished (s : AwardState) : Prop :=
  s.first.actions = [] ∧ s.second.actions = []

/-- Closed form of `update_fitness` on a living organism. -/
theorem update_fitness_alive (o : Organism) (h : o.exists_ = true) :
    o.update_fitness =
      if min 1000000 o.nutrition - truncToInt o.phenotype.get_health_rate ≤ 0 ∨
          min 1000000 o.hydration - truncToInt o.phenotype.get_health_rate ≤ 0 ∨
          o.integrity ≤ 0 then
        (false, { o with
          nutrition := min 1000000 o.nutrition - truncToInt o.phenotype.get_health_rate,
          hydration := min 1000000 o.hydration - truncToInt o.phenotype.get_health_rate,
          exists_ := false })
      else
        (true, { o with
          nutrition := min 1000000 o.nutrition - truncToInt o.phenotype.get_health_rate,
          hydration := min 1000000 o.hydration - truncToInt o.phenotype.get_health_rate,
          fitness := ((min 1000000 o.nutrition - truncToInt o.phenotype.get_health_rate
            + (min 1000000 o.hydration - truncToInt o.phenotype.get_health_rate)
            + o.integrity : Int) : ℚ) / 3000000,
          age := o.age + 1 }) := by
  have hex : o.get_exists = true := h
  unfold Organism.update_fitness
  simp only [hex, Bool.not_true, Bool.false_eq_true, if_false, one_million]
  split
  · rfl
  · simp only [SimulationObject.get_exists, h]

/-- C1, amended: for a living organism, `update_fitness` replaces nutrition and hydration
by `min(1000000, value)` minus the health rate converted to `int` (truncated toward zero,
as the subtraction of a `float` from an `int` counter does); if one of nutrition,
hydration, integrity is then `<= 0` it clears `exists`, returns false and changes nothing
else (fitness and age included);
otherwise it sets fitness to `(nutrition + hydration + integrity) / 3000000`, adds
exactly 1 to age, returns true and changes nothing else. -/
theorem update_fitness_contract (o : Organism) (h : o.exists_ = true) :
    let n := min 1000000 o.nutrition - truncToInt o.phenotype.get_health_rate
    let hy := min 1000000 o.hydration - truncToInt o.phenotype.get_health_rate
    (n ≤ 0 ∨ hy ≤ 0 ∨ o.integrity ≤ 0 →
      o.update_fitness = (false, { o with nutrition := n, hydration := hy, exists_ := false })) ∧
    (¬ (n ≤ 0 ∨ hy ≤ 0 ∨ o.integrity ≤ 0) →
      o.update_fitness = (true, { o with nutrition := n, hydration := hy,
                                         fitness := ((n + hy + o.integrity : Int) : ℚ) / 3000000,
                                         age := o.age + 1 })) := by
  intro n hy
  constructor
  · intro hc
    rw [update_fitness_alive o h, if_pos hc]
  · intro hc
    rw [update_fitness_alive o h, if_neg hc]

/-- C1 at `sample_organism` (nutrition, hydration, integrity 1000000, health rate 220):
the organism survives with nutrition and hydration 999780 and age 1. -/
theorem update_fitness_contract_witness :
    sample_organism.exists_ = true ∧
    sample_organism.update_fitness =
      (true, { sample_organism with nutrition := 999780, hydration := 999780,
                                    fitness := 2999560 / 3000000, age := 1 }) := by
  refine ⟨by decide!, ?_⟩
  have h := (update_fitness_contract sample_organism (by decide!)).2 (by decide!)
  rw [h]
  decide!

/-- C1 at a failing input: the living `fractional_rate_organism` has the health rate 220.5
and nutrition and hydration 1000000; `update_fitness` leaves both at
`1000000 − 220 = 999780`, whereas `min(1000000, value)` minus the health rate is
999779.5. -/
theorem update_fitness_contract_counterexample :
    fractional_rate_organism.exists_ = true ∧
    fractional_rate_organism.phenotype.get_health_rate = 441 / 2 ∧
    fractional_rate_organism.nutrition = 1000000 ∧
    fractional_rate_organism.hydration = 1000000 ∧
    (fractional_rate_organism.update_fitness).2.nutrition = 999780 ∧
    (fractional_rate_organism.update_fitness).2.hydration = 999780 ∧
    (((fractional_rate_organism.update_fitness).2.nutrition : Int) : ℚ)
      ≠ min 1000000 ((fractional_rate_organism.nutrition : Int) : ℚ)
          - fractional_rate_organism.phenotype.get_health_rate := by
  decide!

/-! ### Conversions -/

theorem truncToInt_of_nonneg {q : ℚ} (h : 0 ≤ q) : truncToInt q = ⌊q⌋ := by
  unfold truncToInt
  rw [Int.tdiv_eq_ediv (Rat.num_nonneg.mpr h) (Int.ofNat_nonneg _), Rat.floor_def]

theorem truncToInt_neg (q : ℚ) : truncToInt (-q) = - truncToInt q := by
  unfold truncToInt
  simp [Rat.neg_num, Rat.neg_den]

theorem truncToInt_of_nonpos {q : ℚ} (h : q ≤ 0) : truncToInt q = ⌈q⌉ := by
  have h1 : truncToInt (-q) = ⌊-q⌋ := truncToInt_of_nonneg (by linarith)
  rw [truncToInt_neg] at h1
  have h2 : ⌊-q⌋ = -⌈q⌉ := Int.floor_neg
  omega

theorem truncToInt_nonneg {q : ℚ} (h : 0 ≤ q) : 0 ≤ truncToInt q := by
  rw [truncToInt_of_nonneg h]; exact Int.floor_nonneg.mpr h

theorem truncToInt_le {q : ℚ} {z : Int} (h : q ≤ z) : truncToInt q ≤ z := by
  rcases le_total 0 q with h0 | h0
  · rw [truncToInt_of_nonneg h0]
    exact Int.floor_le_iff.mpr (by linarith)
  · rw [truncToInt_of_nonpos h0]
    exact Int.ceil_le.mpr h

theorem queue_exact_set_same {pool : List Organism} {q : List Nat} {i : Nat} {o o' : Organism}
    (h : queue_exact pool q) (hp : pool[i]? = some o) (he : o'.exists_ = o.exists_) :
    queue_exact (pool.set i o') q := by
  refine ⟨h.1, fun j => ?_⟩
  rw [h.2 j]
  by_cases hji : i = j
  · subst hji
    have hlt : i < pool.length := by
      rcases Nat.lt_or_ge i pool.length with hl | hl
      · exact hl
      · rw [List.getElem?_eq_none hl] at hp; simp at hp
    rw [List.getElem?_set_self hlt, hp]
    constructor
    · rintro ⟨x, hx, hx'⟩
      exact ⟨o', rfl, by rw [he]; cases hx; exact hx'⟩
    · rintro ⟨x, hx, hx'⟩
      exact ⟨o, rfl, by rw [← he]; cases hx; exact hx'⟩
  · rw [List.getElem?_set_ne hji]

theorem queue_exact_kill {pool : List Organism} {q : List Nat} {i : Nat} {o o' : Organism}
    (h : queue_exact pool q) (hp : pool[i]? = some o) (ho : o.exists_ = true)
    (ho' : o'.exists_ = false) : queue_exact (pool.set i o') (q ++ [i]) := by
  have hlt : i < pool.length := by
    rcases Nat.lt_or_ge i pool.length with hl | hl
    · exact hl
    · rw [List.getElem?_eq_none hl] at hp; simp at hp
  have hni : i ∉ q := by
    intro hi
    obtain ⟨x, hx, hx'⟩ := (h.2 i).mp hi
    rw [hp] at hx
    cases hx
    rw [ho] at hx'
    exact Bool.noConfusion hx'
  refine ⟨?_, fun j => ?_⟩
  · rw [List.nodup_append]
    refine ⟨h.1, List.nodup_singleton i, ?_⟩
    intro a ha hb
    rw [List.mem_singleton] at hb
    subst hb
    exact hni ha
  · rw [List.mem_append, List.mem_singleton]
    by_cases hji : i = j
    · subst hji
      rw [List.getElem?_set_self hlt]
      constructor
      · intro _; exact ⟨o', rfl, ho'⟩
      · intro _; exact Or.inr rfl
    · rw [List.getElem?_set_ne hji, ← h.2 j]
      constructor
      · rintro (hq | hq)
        · exact hq
        · exact absurd hq.symm hji
      · intro hq; exact Or.inl hq

theorem queue_exact_revive {pool : List Organism} {q : List Nat} {slot : Nat} {o' : Organism}
    (h : queue_exact pool (slot :: q)) (ho' : o'.exists_ = true) :
    queue_exact (pool.set slot o') q := by
  have hnd := List.nodup_cons.mp h.1
  refine ⟨hnd.2, fun j => ?_⟩
  by_cases hji : slot = j
  · subst hji
    constructor
    · intro hq; exact absurd hq hnd.1
    · rintro ⟨x, hx, hx'⟩
      rcases Nat.lt_or_ge slot pool.length with hl | hl
      · rw [List.getElem?_set_self hl] at hx
        cases hx
        rw [ho'] at hx'
        exact Bool.noConfusion hx'
      · rw [List.getElem?_eq_none (by rw [List.length_set]; exact hl)] at hx
        simp at hx
  · rw [List.getElem?_set_ne hji, ← h.2 j, List.mem_cons]
    constructor
    · intro hq; exact Or.inr hq
    · rintro (hq | hq)
      · exact absurd hq.symm hji
      · exact hq

theorem queue_exact_update_at {pool : List Organism} {q : List Nat} (i : Nat)
    (f : Organism → Organism) (h : queue_exact pool q) (hf : ∀ o, (f o).exists_ = o.exists_) :
    queue_exact (update_at pool i f) q := by
  unfold update_at
  split
  · next item hitem => exact queue_exact_set_same h hitem (hf item)
  · exact h

theorem update_at_length {T : Type} (pool : List T) (i : Nat) (f : T → T) :
    (update_at pool i f).length = pool.length := by
  unfold update_at
  split <;> simp

/-- The flag returned by `update_fitness` is the existence status after the call. -/
theorem update_fitness_flag (o : Organism) : (o.update_fitness).1 = (o.update_fitness).2.exists_ := by
  unfold Organism.update_fitness
  split
  · next h =>
    simp only [SimulationObject.get_exists] at h
    simp only [Bool.not_eq_true'] at h
    simp [h]
  · rfl

theorem init_from_exists (o parent : Organism) (config : Config) (rng : Rng) :
    (o.init_from parent config rng).1.exists_ = true := by
  simp [Organism.init_from]

theorem init_exists (o : Organism) (pos : Vector2f) (config : Config) (rng : Rng) :
    (o.init pos config rng).1.exists_ = true := by
  simp [Organism.init]

theorem update_fitness_loop_exact (l : List Nat) (p : Population) (h : p.free_queue_exact) :
    (Population.update_fitness_loop l p).free_queue_exact := by
  induction l generalizing p with
  | nil => exact h
  | cons i rest ih =>
    rw [Population.update_fitness_loop]
    split
    · exact ih p h
    · next o ho =>
      split
      · next hex =>
        have hex' : o.exists_ = true := hex
        dsimp only
        split
        · next hr =>
          apply ih
          have hdead : (o.update_fitness).2.exists_ = false := by
            rw [← update_fitness_flag]
            simpa using hr
          refine ⟨?_, ?_⟩
          · show (p.pool.set i (o.update_fitness).2).length = p.max_size
            rw [List.length_set]; exact h.1
          · exact queue_exact_kill h.2 ho hex' hdead
        · next hr =>
          apply ih
          have halive : (o.update_fitness).2.exists_ = true := by
            rw [← update_fitness_flag]
            simpa using hr
          refine ⟨?_, ?_⟩
          · show (p.pool.set i (o.update_fitness).2).length = p.max_size
            rw [List.length_set]; exact h.1
          · exact queue_exact_set_same h.2 ho (by rw [halive, hex'])
      · exact ih p h

theorem replicate_callback_exact (config : Config) (i slot : Nat) (pool : List Organism)
    (q : List Nat) (rng : Rng) (parent : Organism) (hp : pool[i]? = some parent)
    (h : queue_exact pool (slot :: q)) :
    queue_exact (Population.replicate_callback config i slot (pool, rng)).1 q ∧
    (Population.replicate_callback config i slot (pool, rng)).1.length = pool.length := by
  obtain ⟨c, hc, _⟩ := (h.2 slot).mp (List.mem_cons_self slot q)
  simp only [Population.replicate_callback, hc, hp]
  constructor
  · apply queue_exact_update_at
    · apply queue_exact_update_at
      · exact queue_exact_revive h (init_from_exists c parent config rng)
      · intro o; rfl
    · intro o; rfl
  · rw [update_at_length, update_at_length, List.length_set]

theorem replicate_loop_exact (l : List Nat) (p : Population) (rng : Rng)
    (h : p.free_queue_exact) :
    (Population.replicate_loop l (p, rng)).1.free_queue_exact := by
  induction l generalizing p rng with
  | nil => exact h
  | cons i rest ih =>
    rw [Population.replicate_loop]
    split
    · exact ih p rng h
    · next o ho =>
      split
      · -- whenever a slot is requested, the queue stays exact
        have key : ∀ (r : Rng),
            (Population.mk (p.toSimulationObjectPool.get_available_slot r
              (Population.replicate_callback p.config i)).2.1 p.area p.config).free_queue_exact := by
          intro r
          unfold SimulationObjectPool.get_available_slot ConcurrentQueue.safe_pop
          cases hq : p.available_slots.q with
          | nil =>
            simp only
            refine ⟨h.1, ?_⟩
            show queue_exact p.pool p.available_slots.q
            exact h.2
          | cons slot q' =>
            simp only
            have hx := h.2
            rw [hq] at hx
            obtain ⟨h1, h2⟩ := replicate_callback_exact p.config i slot p.pool q' r o ho hx
            exact ⟨by show _ = p.max_size; rw [h2]; exact h.1, h1⟩
        dsimp only
        split_ifs <;> first | exact key _ | exact ih _ _ (key _) | exact ih p _ h
      · exact ih p rng h

theorem queue_exact_append_alive {pool : List Organism} {q : List Nat} {x : Organism}
    (h : queue_exact pool q) (hx : x.exists_ = true) : queue_exact (pool ++ [x]) q := by
  refine ⟨h.1, fun j => ?_⟩
  rw [h.2 j]
  rcases Nat.lt_trichotomy j pool.length with hj | hj | hj
  · rw [List.getElem?_append_left hj]
  · subst hj
    rw [List.getElem?_eq_none (le_refl _)]
    simp [hx]
  · rw [List.getElem?_eq_none (le_of_lt hj), List.getElem?_eq_none (by simp; omega)]

theorem queue_exact_append_dead {pool : List Organism} {q : List Nat} {x : Organism}
    (h : queue_exact pool q) (hx : x.exists_ = false) :
    queue_exact (pool ++ [x]) (q ++ [pool.length]) := by
  have hni : pool.length ∉ q := by
    intro hi
    obtain ⟨o, ho, _⟩ := (h.2 _).mp hi
    rw [List.getElem?_eq_none (le_refl _)] at ho
    simp at ho
  refine ⟨?_, fun j => ?_⟩
  · rw [List.nodup_append]
    refine ⟨h.1, List.nodup_singleton _, ?_⟩
    intro a ha hb
    rw [List.mem_singleton] at hb
    subst hb
    exact hni ha
  · rw [List.mem_append, List.mem_singleton]
    rcases Nat.lt_trichotomy j pool.length with hj | hj | hj
    · rw [List.getElem?_append_left hj, ← h.2 j]
      constructor
      · rintro (hq | hq)
        · exact hq
        · omega
      · intro hq; exact Or.inl hq
    · subst hj
      constructor
      · intro _; exact ⟨x, by simp, hx⟩
      · intro _; exact Or.inr rfl
    · rw [List.getElem?_eq_none (by simp; omega)]
      constructor
      · rintro (hq | hq)
        · obtain ⟨o, ho, _⟩ := (h.2 _).mp hq
          rw [List.getElem?_eq_none (le_of_lt hj)] at ho
          simp at ho
        · omega
      · rintro ⟨o, ho, _⟩; simp at ho

theorem init_random_loop_exact (n : Nat) (lo_x hi_x lo_y hi_y : ℚ) (m k : Nat)
    (p : Population) (rng : Rng) (hlen : p.pool.length = k)
    (hq : queue_exact p.pool p.available_slots.q) :
    (Population.init_random_loop n lo_x hi_x lo_y hi_y (List.range' k m) (p, rng)).1.pool.length
      = k + m ∧
    queue_exact
      (Population.init_random_loop n lo_x hi_x lo_y hi_y (List.range' k m) (p, rng)).1.pool
      (Population.init_random_loop n lo_x hi_x lo_y hi_y
        (List.range' k m) (p, rng)).1.available_slots.q ∧
    (Population.init_random_loop n lo_x hi_x lo_y hi_y (List.range' k m) (p, rng)).1.max_size
      = p.max_size := by
  induction m generalizing k p rng with
  | zero => exact ⟨hlen, hq, rfl⟩
  | succ m ih =>
    rw [List.range'_succ, Population.init_random_loop]
    dsimp only
    have hget : (p.pool ++ [Organism.new k p.area p.config])[k]?
        = some (Organism.new k p.area p.config) := by
      rw [← hlen]; simp
    split
    · -- the slot is initialised
      simp only [SimulationObjectPool.add_item, hget]
      have hset : (p.pool ++ [Organism.new k p.area p.config]).set k
          ((Organism.new k p.area p.config).init
            ⟨(uniform_real lo_x hi_x rng).1, (uniform_real lo_y hi_y (uniform_real lo_x hi_x rng).2).1⟩
            p.config (uniform_real lo_y hi_y (uniform_real lo_x hi_x rng).2).2).1
          = p.pool ++ [((Organism.new k p.area p.config).init
            ⟨(uniform_real lo_x hi_x rng).1, (uniform_real lo_y hi_y (uniform_real lo_x hi_x rng).2).1⟩
            p.config (uniform_real lo_y hi_y (uniform_real lo_x hi_x rng).2).2).1] := by
        rw [← hlen]; simp
      rw [hset]
      have := ih (k + 1)
        { p with pool := p.pool ++ [((Organism.new k p.area p.config).init
            ⟨(uniform_real lo_x hi_x rng).1, (uniform_real lo_y hi_y (uniform_real lo_x hi_x rng).2).1⟩
            p.config (uniform_real lo_y hi_y (uniform_real lo_x hi_x rng).2).2).1] }
        ((Organism.new k p.area p.config).init
            ⟨(uniform_real lo_x hi_x rng).1, (uniform_real lo_y hi_y (uniform_real lo_x hi_x rng).2).1⟩
            p.config (uniform_real lo_y hi_y (uniform_real lo_x hi_x rng).2).2).2
        (by simp [hlen])
        (queue_exact_append_alive hq (init_exists _ _ _ _))
      refine ⟨by rw [this.1]; omega, this.2.1, this.2.2⟩
    · -- the slot is set available
      have := ih (k + 1)
        { p with pool := p.pool ++ [Organism.new k p.area p.config],
                 available_slots := ⟨p.available_slots.q ++ [k]⟩ }
        rng (by simp [hlen])
        (by
          have h2 := queue_exact_append_dead (x := Organism.new k p.area p.config) hq rfl
          rw [hlen] at h2
          exact h2)
      exact ⟨this.1.trans (by omega), this.2.1, this.2.2⟩

/-- C3: in a sequential execution the free-slot queue holds exactly the indices of the
slots whose organism has `exists == false`, each exactly once (and the pool holds
`max_size` organisms): this holds after `init_random` on a newly constructed population,
and every call of `replicate` and of `update_fitness` keeps it. -/
theorem free_slot_queue_exact :
    (∀ (area : SimulationArea) (config : Config) (n : Nat) (rng : Rng),
      ((Population.new area config).init_random n rng).1.free_queue_exact) ∧
    (∀ (p : Population) (start end_ : Nat) (rng : Rng), p.free_queue_exact →
      (p.replicate start end_ rng).1.free_queue_exact) ∧
    (∀ (p : Population) (start end_ : Nat), p.free_queue_exact →
      (p.update_fitness start end_).free_queue_exact) := by
  refine ⟨?_, ?_, ?_⟩
  · intro area config n rng
    unfold Population.init_random
    have hinit : (Population.new area config).get_initialized = false := rfl
    simp only [hinit, Bool.false_eq_true, if_false]
    rw [List.range_eq_range']
    have h := init_random_loop_exact
      (min (Population.new area config).get_max_size n)
      (Population.new area config).config.population_pos_margin
      ((((Population.new area config).area.get_size).x : ℚ)
        - (Population.new area config).config.population_pos_margin - 1)
      (Population.new area config).config.population_pos_margin
      ((((Population.new area config).area.get_size).y : ℚ)
        - (Population.new area config).config.population_pos_margin - 1)
      (Population.new area config).get_max_size 0 (Population.new area config) rng rfl
      ⟨List.nodup_nil, fun i => by simp [Population.new, SimulationObjectPool.new]⟩
    refine ⟨?_, h.2.1⟩
    show _ = _
    rw [SimulationObjectPool.set_initialized]
    simp only
    rw [h.1, h.2.2]
    simp [SimulationObjectPool.get_max_size]
  · intro p start end_ rng h
    unfold Population.replicate
    split
    · exact h
    · exact replicate_loop_exact _ p rng h
  · intro p start end_ h
    unfold Population.update_fitness
    split
    · exact h
    · exact update_fitness_loop_exact _ p h

theorem queue_exact_map {pool : List Organism} {q : List Nat} (f : Organism → Organism)
    (h : queue_exact pool q) (hf : ∀ o, (f o).exists_ = o.exists_) :
    queue_exact (pool.map f) q := by
  refine ⟨h.1, fun j => ?_⟩
  rw [h.2 j, List.getElem?_map]
  cases pool[j]? with
  | none => simp
  | some o => simp [hf]

/-- C3 at `sample_population` (three slots, two initialised): the queue is `[2]` after
`init_random` and stays exact through `update_fitness`; once both organisms are 500
timesteps old, `replicate` moves slot 2 from the queue to the living slots, and the queue,
now empty, is exact again. -/
theorem free_slot_queue_exact_witness :
    sample_population.free_queue_exact ∧
    sample_population.available_slots.q = [2] ∧
    sample_population.pool.map (fun o => o.exists_) = [true, true, false] ∧
    (sample_population.update_fitness 0 3).free_queue_exact ∧
    mature_population.free_queue_exact ∧
    (mature_population.replicate 0 3 ⟨fun _ => 0, 0⟩).1.available_slots.q = [] ∧
    (mature_population.replicate 0 3 ⟨fun _ => 0, 0⟩).1.pool.map (fun o => o.exists_)
      = [true, true, true] ∧
    (mature_population.replicate 0 3 ⟨fun _ => 0, 0⟩).1.free_queue_exact :=
  have h0 := free_slot_queue_exact.1 sample_area sample_config 2 ⟨fun _ => 0, 0⟩
  have hm : mature_population.free_queue_exact :=
    ⟨by decide!, queue_exact_map _ h0.2 (fun _ => rfl)⟩
  ⟨h0, by decide!, by decide!,
   free_slot_queue_exact.2.2 sample_population 0 3 h0,
   hm, by decide!, by decide!,
   free_slot_queue_exact.2.1 mature_population 0 3 ⟨fun _ => 0, 0⟩ hm⟩

/-! ### Gene transfer -/

/-- `combine(own, donor, own, w)` on vectors of equal length: position by position
`w * donor + (1 - w) * own`. -/
theorem combine_transfer (own donor : List ℚ) (w : ℚ) (h : donor.length = own.length) :
    combine own donor own w = List.zipWith (fun o d => w * d + (1 - w) * o) own donor := by
  apply List.ext_getElem
  · simp [combine, h]
  · intro i h1 h2
    have hi : i < own.length := by simpa [combine] using h1
    have hd : i < donor.length := by omega
    simp [combine, List.getD_eq_getElem?_getD, List.getElem?_eq_getElem hi,
      List.getElem?_eq_getElem hd]

/-- C4 (as amended): after `g.transfer_from(d, w)` every behaviour-network weight of `g`,
in each of the three layers, and every trait gene of `g` equals
`w * (d's value at the same position) + (1 - w) * (g's own previous value)`: the weighting
`w` is applied to the donor. The donor `d` is unchanged. -/
theorem transfer_from_weights (g d : Genotype) (w : ℚ)
    (h1 : d.behaviour_net.layer1.weights.length = g.behaviour_net.layer1.weights.length)
    (h2 : d.behaviour_net.layer2.weights.length = g.behaviour_net.layer2.weights.length)
    (h3 : d.behaviour_net.output_layer.weights.length
      = g.behaviour_net.output_layer.weights.length)
    (h4 : d.trait_genes.length = g.trait_genes.length) :
    (g.transfer_from d w).1.behaviour_net.layer1.weights
      = List.zipWith (fun own donor => w * donor + (1 - w) * own)
          g.behaviour_net.layer1.weights d.behaviour_net.layer1.weights ∧
    (g.transfer_from d w).1.behaviour_net.layer2.weights
      = List.zipWith (fun own donor => w * donor + (1 - w) * own)
          g.behaviour_net.layer2.weights d.behaviour_net.layer2.weights ∧
    (g.transfer_from d w).1.behaviour_net.output_layer.weights
      = List.zipWith (fun own donor => w * donor + (1 - w) * own)
          g.behaviour_net.output_layer.weights d.behaviour_net.output_layer.weights ∧
    (g.transfer_from d w).1.trait_genes
      = List.zipWith (fun own donor => w * donor + (1 - w) * own) g.trait_genes d.trait_genes ∧
    (g.transfer_from d w).2 = d := by
  refine ⟨?_, ?_, ?_, ?_, rfl⟩
  · exact combine_transfer _ _ w h1
  · exact combine_transfer _ _ w h2
  · exact combine_transfer _ _ w h3
  · exact combine_transfer _ _ w h4

/-- C4 (as amended) for a recipient of all-one values, a donor of all-zero values and
`w = 1/4`: every weight and gene of the recipient becomes `1/4 * 0 + 3/4 * 1 = 3/4`. -/
theorem transfer_from_weights_witness :
    ((constant_genotype 1).transfer_from (constant_genotype 0) (1 / 4)).1.trait_genes
      = List.zipWith (fun own donor => 1 / 4 * donor + (1 - 1 / 4) * own)
          (constant_genotype 1).trait_genes (constant_genotype 0).trait_genes ∧
    ((constant_genotype 1).transfer_from (constant_genotype 0) (1 / 4)).1.trait_genes
      = List.replicate 15 (3 / 4) :=
  ⟨(transfer_from_weights (constant_genotype 1) (constant_genotype 0) (1 / 4)
      (by decide!) (by decide!) (by decide!) (by decide!)).2.2.2.1, by decide!⟩

/-- C4 fails as stated: with a recipient of all-one values, a donor of all-zero values
and `w = 1/4`, the first trait gene and the first weight of every layer become `3/4`,
whereas `w * own + (1 - w) * donor` is `1/4`. -/
theorem transfer_from_weights_counterexample :
    ((constant_genotype 1).transfer_from (constant_genotype 0) (1 / 4)).1.trait_genes.getD 0 0
      = 3 / 4 ∧
    ((constant_genotype 1).transfer_from (constant_genotype 0)
      (1 / 4)).1.behaviour_net.layer1.weights.getD 0 0 = 3 / 4 ∧
    ((constant_genotype 1).transfer_from (constant_genotype 0)
      (1 / 4)).1.behaviour_net.layer2.weights.getD 0 0 = 3 / 4 ∧
    ((constant_genotype 1).transfer_from (constant_genotype 0)
      (1 / 4)).1.behaviour_net.output_layer.weights.getD 0 0 = 3 / 4 ∧
    ((constant_genotype 1).transfer_from (constant_genotype 0) (1 / 4)).1.trait_genes.getD 0 0
      ≠ 1 / 4 * (constant_genotype 1).trait_genes.getD 0 0
        + (1 - 1 / 4) * (constant_genotype 0).trait_genes.getD 0 0 := by
  decide!

/-! ### Interaction -/

/-- Closed form of `interact_with` for two living organisms. -/
theorem interact_with_alive (self other : Organism) (rng : Rng)
    (hs : self.exists_ = true) (ho : other.exists_ = true) :
    self.interact_with other rng =
      if self.check_in_range other.toSimulationObject true = true
          ∧ self.collisions.getD other.index 0 = 0 ∧ other.age > 250 then
        if (uniform_real 0 1 rng).1 < (0.35 * self.fitness + 0.65 * other.fitness) / 10 then
          ({ self with
              genotype := (self.genotype.transfer_from other.genotype
                (((other.fitness - self.fitness) / 2 + 0.5) / 5)).1,
              genes_transferred := true, transfer_effect_time := 0,
              collisions := self.collisions.set other.index 1 },
           other, (uniform_real 0 1 rng).2)
        else
          ({ self with collisions := self.collisions.set other.index 1 },
           other, (uniform_real 0 1 rng).2)
      else
        ({ self with
            collisions := self.collisions.set other.index
                            (if self.check_in_range other.toSimulationObject true then 1 else 0) },
         other, rng) := by
  have hs' : self.get_exists = true := hs
  have ho' : other.get_exists = true := ho
  have hchance : (self.fitness * 0.35 + other.fitness * 0.65) / 10
      = (0.35 * self.fitness + 0.65 * other.fitness) / 10 := by ring
  unfold Organism.interact_with
  simp only [hs', ho', Bool.not_true, Bool.false_eq_true, if_false, hchance]
  by_cases hc : (self.check_in_range other.toSimulationObject true = true
      ∧ self.collisions.getD other.index 0 = 0 ∧ other.age > 250)
  · have hb : (self.check_in_range other.toSimulationObject true
        && self.collisions.getD other.index 0 == 0 && decide (other.age > 250)) = true := by
      rw [hc.1, hc.2.1]
      simpa using hc.2.2
    rw [if_pos hc, if_pos hb]
    by_cases hd : (uniform_real 0 1 rng).1 < (0.35 * self.fitness + 0.65 * other.fitness) / 10
    · rw [if_pos hd, if_pos hd]
      simp [hc.1, Genotype.transfer_from]
    · rw [if_neg hd, if_neg hd]
      simp [hc.1]
  · have hb : ¬ (self.check_in_range other.toSimulationObject true
        && self.collisions.getD other.index 0 == 0 && decide (other.age > 250)) = true := by
      intro hb
      apply hc
      simpa [and_assoc] using hb
    rw [if_neg hc, if_neg hb]

/-! ### Trait expression -/

/-- C6: for a genotype with the 15 trait genes `g0 .. g14`, `express_traits` sets
area of influence to `mean(g0,g1,g2,g3) * σ + μ`, speed to `-mean(g3,g4,g5,g6) * σ + μ`,
health rate to `-mean(g6,g7,g8) * σ + μ`, ideal temperature to `mean(g9,g10,g11) * σ + μ`
and temperature range to `mean(g12,g13,g14) * σ + μ`, each with the `μ` and `σ` of its own
trait, which stay as they are. -/
theorem express_traits_values (bn : BehaviourNet) (ph : Phenotype)
    (g0 g1 g2 g3 g4 g5 g6 g7 g8 g9 g10 g11 g12 g13 g14 : ℚ) :
    let g : Genotype :=
      { behaviour_net := bn,
        trait_genes := [g0, g1, g2, g3, g4, g5, g6, g7, g8, g9, g10, g11, g12, g13, g14] }
    (g.express_traits ph).get_area_of_influence
      = (g0 + g1 + g2 + g3) / 4 * ph.area_of_influence.params.sigma
        + ph.area_of_influence.params.mean ∧
    (g.express_traits ph).get_speed
      = -((g3 + g4 + g5 + g6) / 4) * ph.speed.params.sigma + ph.speed.params.mean ∧
    (g.express_traits ph).get_health_rate
      = -((g6 + g7 + g8) / 3) * ph.health_rate.params.sigma + ph.health_rate.params.mean ∧
    (g.express_traits ph).get_ideal_temp
      = (g9 + g10 + g11) / 3 * ph.ideal_temp.params.sigma + ph.ideal_temp.params.mean ∧
    (g.express_traits ph).get_temp_range
      = (g12 + g13 + g14) / 3 * ph.temp_range.params.sigma + ph.temp_range.params.mean ∧
    (g.express_traits ph).area_of_influence.params = ph.area_of_influence.params ∧
    (g.express_traits ph).speed.params = ph.speed.params ∧
    (g.express_traits ph).health_rate.params = ph.health_rate.params ∧
    (g.express_traits ph).ideal_temp.params = ph.ideal_temp.params ∧
    (g.express_traits ph).temp_range.params = ph.temp_range.params := by
  intro g
  refine ⟨?_, ?_, ?_, ?_, ?_, rfl, rfl, rfl, rfl, rfl⟩
  · simp only [g, Genotype.express_traits, Phenotype.set_temp_range, Phenotype.set_ideal_temp,
      Phenotype.set_health_rate, Phenotype.set_speed, Phenotype.set_area_of_influence,
      Phenotype.get_area_of_influence, PhysicalTrait.get_value,
      PhysicalTrait.set_value_from_standardized, Genotype.calculate_trait,
      calculate_trait_sum]
    simp
  · simp only [g, Genotype.express_traits, Phenotype.set_temp_range, Phenotype.set_ideal_temp,
      Phenotype.set_health_rate, Phenotype.set_speed, Phenotype.set_area_of_influence,
      Phenotype.get_speed, PhysicalTrait.get_value,
      PhysicalTrait.set_value_from_standardized, Genotype.calculate_trait,
      calculate_trait_sum]
    simp
    ring
  · simp only [g, Genotype.express_traits, Phenotype.set_temp_range, Phenotype.set_ideal_temp,
      Phenotype.set_health_rate, Phenotype.set_speed, Phenotype.set_area_of_influence,
      Phenotype.get_health_rate, PhysicalTrait.get_value,
      PhysicalTrait.set_value_from_standardized, Genotype.calculate_trait,
      calculate_trait_sum]
    simp
    ring
  · simp only [g, Genotype.express_traits, Phenotype.set_temp_range, Phenotype.set_ideal_temp,
      Phenotype.set_health_rate, Phenotype.set_speed, Phenotype.set_area_of_influence,
      Phenotype.get_ideal_temp, PhysicalTrait.get_value,
      PhysicalTrait.set_value_from_standardized, Genotype.calculate_trait,
      calculate_trait_sum]
    simp
  · simp only [g, Genotype.express_traits, Phenotype.set_temp_range, Phenotype.set_ideal_temp,
      Phenotype.set_health_rate, Phenotype.set_speed, Phenotype.set_area_of_influence,
      Phenotype.get_temp_range, PhysicalTrait.get_value,
      PhysicalTrait.set_value_from_standardized, Genotype.calculate_trait,
      calculate_trait_sum]
    simp

/-! ### Reaction to temperature -/

theorem writes_set {α : Type} (i : Nat) (v : α) (g : Nat → α) (hv : v = g i) :
    Writes (fun tb : List α => tb.set i v) (fun j => i = j) g := by
  intro tb
  refine ⟨List.length_set _ _ _, ?_, ?_⟩
  · intro j hj hlt
    subst hj
    rw [List.getElem?_set_self hlt, hv]
  · intro j hj
    rw [List.getElem?_set_ne hj]

theorem writes_foldl {α β : Type} (f : List α → β → List α) (W : β → Nat → Prop) (g : Nat → α)
    (l : List β) (h : ∀ b ∈ l, Writes (fun tb => f tb b) (W b) g) :
    Writes (fun tb => l.foldl f tb) (fun j => ∃ b ∈ l, W b j) g := by
  induction l with
  | nil =>
    intro tb
    refine ⟨rfl, ?_, ?_⟩
    · rintro j ⟨b, hb, _⟩ _
      simp at hb
    · intro j _
      rfl
  | cons b rest ih =>
    have hb := h b (List.mem_cons_self b rest)
    have ih' := ih (fun b' hb' => h b' (List.mem_cons_of_mem b hb'))
    intro tb
    obtain ⟨hl1, ha1, hb1⟩ := hb tb
    obtain ⟨hl2, ha2, hb2⟩ := ih' (f tb b)
    simp only [List.foldl_cons]
    refine ⟨?_, ?_, ?_⟩
    · exact hl2.trans hl1
    · rintro j ⟨b', hb', hw⟩ hlt
      by_cases hr : ∃ b'' ∈ rest, W b'' j
      · exact ha2 j hr (by rw [hl1]; exact hlt)
      · have hne := hb2 j hr
        simp only at hne
        rw [hne]
        rcases List.mem_cons.mp hb' with heq | hmem
        · subst heq
          exact ha1 j hw hlt
        · exact absurd ⟨b', hmem, hw⟩ hr
    · intro j hj
      have h1 : ¬ W b j := fun hw => hj ⟨b, List.mem_cons_self b rest, hw⟩
      have h2 : ¬ ∃ b'' ∈ rest, W b'' j := by
        rintro ⟨b'', hm, hw⟩
        exact hj ⟨b'', List.mem_cons_of_mem b hm, hw⟩
      have hne := hb2 j h2
      simp only at hne
      rw [hne]
      exact hb1 j h1

theorem writes_total {α : Type} (f : List α → List α) (W : Nat → Prop) (g : Nat → α) (tb : List α)
    (h : Writes f W g) (hall : ∀ j, j < tb.length → W j) :
    f tb = (List.range tb.length).map g := by
  obtain ⟨hl, ha, _⟩ := h tb
  apply List.ext_getElem?
  intro j
  rcases Nat.lt_or_ge j tb.length with hj | hj
  · rw [ha j (hall j hj) hj, List.getElem?_map, List.getElem?_range hj]
    rfl
  · rw [List.getElem?_eq_none (by rw [hl]; exact hj),
      List.getElem?_eq_none (by simp; exact hj)]

section PlanetTheorems

variable {α : Type} [FloatOps α]

theorem mem_timestep_loop (start_t end_t t : Nat) :
    t ∈ timestep_loop start_t end_t ↔ start_t ≤ t ∧ t < end_t := by
  unfold timestep_loop
  rw [List.mem_range'_1]
  omega

/-- The buffer of a worker holds, at `t - start_t`, the equatorial temperature of `t`. -/
theorem equatorial_buffer_getD (config : Config) (start_t end_t t : Nat)
    (hs : start_t ≤ t) (he : t < end_t) (hlt : end_t < 4294967296) :
    (equatorial_buffer config start_t end_t : List α).getD (t - start_t) (lit 0)
      = equatorial_black_body_temperature config t := by
  unfold equatorial_buffer
  have hw := writes_foldl
    (fun (buf : List α) t' => buf.set (t' - start_t) (equatorial_black_body_temperature config t'))
    (fun t' j => t' - start_t = j)
    (fun k => equatorial_black_body_temperature config (start_t + k))
    (timestep_loop start_t end_t)
    (by
      intro t' ht'
      have := (mem_timestep_loop start_t end_t t').mp ht'
      exact writes_set _ _ _ (by
        show equatorial_black_body_temperature config t'
          = equatorial_black_body_temperature config (start_t + (t' - start_t))
        congr 1
        omega))
  obtain ⟨_, ha, _⟩ := hw (List.replicate (u32 (end_t + 4294967296 - start_t)) (lit 0))
  have hlen : u32 (end_t + 4294967296 - start_t) = end_t - start_t := by
    unfold u32; omega
  have := ha (t - start_t) ⟨t, (mem_timestep_loop start_t end_t t).mpr ⟨hs, he⟩, rfl⟩
    (by rw [List.length_replicate, hlen]; omega)
  rw [List.getD_eq_getElem?_getD, this]
  simp only [Option.getD_some]
  congr 1
  omega

/-- One worker stores `temperature_entry config y t` at position `y * T + t` for every row
`y` and every timestep `t` of its range, and nothing else. -/
theorem range_cpu_writes (config : Config) (start_t end_t : Nat)
    (hT : 0 < config.orbital_period)
    (hov : config.area_height * config.orbital_period < 4294967296) :
    Writes
      (fun tb : List α => precompute_temperatures_for_timestep_range_cpu tb start_t end_t config)
      (fun j => ∃ y ∈ List.range config.area_height,
        ∃ t ∈ timestep_loop start_t (min end_t config.orbital_period),
          y * config.orbital_period + t = j)
      (fun j => temperature_entry config (j / config.orbital_period)
        (j % config.orbital_period)) := by
  unfold precompute_temperatures_for_timestep_range_cpu
  apply writes_foldl
  intro y hy
  have hyH : y < config.area_height := List.mem_range.mp hy
  apply writes_foldl
  intro t ht
  obtain ⟨hst, hte⟩ := (mem_timestep_loop _ _ t).mp ht
  have htT : t < config.orbital_period := lt_of_lt_of_le hte (min_le_right _ _)
  have hlt : y * config.orbital_period + t < config.area_height * config.orbital_period := by
    calc y * config.orbital_period + t < y * config.orbital_period + config.orbital_period := by
          omega
      _ = (y + 1) * config.orbital_period := by ring
      _ ≤ config.area_height * config.orbital_period := Nat.mul_le_mul_right _ hyH
  have hidx : u32 (u32 (y * config.orbital_period) + t) = y * config.orbital_period + t := by
    unfold u32
    omega
  rw [hidx]
  apply writes_set
  have hdiv : (y * config.orbital_period + t) / config.orbital_period = y := by
    rw [Nat.mul_comm, Nat.mul_add_div hT, Nat.div_eq_of_lt htT, Nat.add_zero]
  have hmod : (y * config.orbital_period + t) % config.orbital_period = t := by
    rw [Nat.mul_comm, Nat.mul_add_mod, Nat.mod_eq_of_lt htT]
  have hE : min end_t config.orbital_period < 4294967296 := by
    have h1 : config.orbital_period ≤ config.area_height * config.orbital_period := by
      have : 1 ≤ config.area_height := by omega
      calc config.orbital_period = 1 * config.orbital_period := by ring
        _ ≤ config.area_height * config.orbital_period := Nat.mul_le_mul_right _ this
    have := min_le_right end_t config.orbital_period
    omega
  show FloatOps.narrow _ = _
  rw [hdiv, hmod, equatorial_buffer_getD config start_t _ t hst hte hE]
  rfl

end PlanetTheorems

section PlanetTable

variable {α : Type} [FloatOps α]

/-- Every position of the table lies in the range of one of the `N` workers. -/
theorem worker_ranges_cover (T N j H : Nat) (hN : 0 < N) (hT : 0 < T)
    (hj : j < H * T) (hNT : T + N < 4294967296) :
    ∃ i ∈ List.range N, ∃ y ∈ List.range H,
      ∃ t ∈ timestep_loop (u32 (i * u32 (T / N + 1))) (min (u32 ((i + 1) * u32 (T / N + 1))) T),
        y * T + t = j := by
  have hdle : T / N ≤ T := Nat.div_le_self T N
  have hTlt : T < N * (T / N + 1) := Nat.lt_mul_div_succ T hN
  have hNper : N * (T / N + 1) ≤ T + N := by
    have := Nat.mul_div_le T N
    rw [Nat.mul_add, Nat.mul_one]
    omega
  generalize T / N = q at *
  have hper : u32 (q + 1) = q + 1 := by unfold u32; omega
  rw [hper]
  have hpos : 0 < q + 1 := Nat.succ_pos _
  have htT : j % T < T := Nat.mod_lt j hT
  have hi1 : j % T / (q + 1) * (q + 1) ≤ j % T := Nat.div_mul_le_self _ _
  have hi2 : j % T < (j % T / (q + 1) + 1) * (q + 1) := by
    have := Nat.lt_mul_div_succ (j % T) hpos
    rw [Nat.mul_comm] at this
    exact this
  have hiN : j % T / (q + 1) < N := by
    rw [Nat.div_lt_iff_lt_mul hpos]
    omega
  have hle : (j % T / (q + 1) + 1) * (q + 1) ≤ N * (q + 1) :=
    Nat.mul_le_mul_right _ hiN
  have hu1 : u32 (j % T / (q + 1) * (q + 1)) = j % T / (q + 1) * (q + 1) := by
    unfold u32; omega
  have hu2 : u32 ((j % T / (q + 1) + 1) * (q + 1))
      = (j % T / (q + 1) + 1) * (q + 1) := by
    unfold u32; omega
  refine ⟨j % T / (q + 1), List.mem_range.mpr hiN, j / T, ?_, j % T, ?_, ?_⟩
  · rw [List.mem_range]
    exact Nat.div_lt_of_lt_mul (by rw [Nat.mul_comm]; exact hj)
  · rw [mem_timestep_loop, hu1, hu2]
    exact ⟨hi1, lt_min hi2 htT⟩
  · rw [Nat.mul_comm]
    exact Nat.div_add_mod j T

/-- Whatever the number of workers, the CPU precomputation leaves the table in which
position `y * T + t` holds `temperature_entry config y t`. -/
theorem precompute_temperatures_cpu_table (config : Config) (p : Planet α) (N : Nat)
    (hN : 0 < N) (hT : 0 < config.orbital_period) (hts : p.timesteps = config.orbital_period)
    (hlen : p.temperatures.length = config.area_height * config.orbital_period)
    (hov : config.area_height * config.orbital_period < 4294967296)
    (hNT : config.orbital_period + N < 4294967296) :
    (p.precompute_temperatures_cpu N config).temperatures = temperature_table config := by
  unfold Planet.precompute_temperatures_cpu
  simp only [hts]
  have hw := writes_foldl
    (fun (temperatures : List α) i =>
      precompute_temperatures_for_timestep_range_cpu temperatures
        (u32 (i * u32 (config.orbital_period / N + 1)))
        (u32 ((i + 1) * u32 (config.orbital_period / N + 1))) config)
    (fun i j => ∃ y ∈ List.range config.area_height,
      ∃ t ∈ timestep_loop (u32 (i * u32 (config.orbital_period / N + 1)))
        (min (u32 ((i + 1) * u32 (config.orbital_period / N + 1))) config.orbital_period),
        y * config.orbital_period + t = j)
    (fun j => temperature_entry config (j / config.orbital_period) (j % config.orbital_period))
    (List.range N)
    (fun i _ => range_cpu_writes config _ _ hT hov)
  have := writes_total _ _ _ p.temperatures hw (by
    intro j hj
    rw [hlen] at hj
    exact worker_ranges_cover _ N j _ hN hT hj hNT)
  rw [this, hlen]
  rfl

end PlanetTable

section PlanetPublic

variable {α : Type} [FloatOps α]

theorem temperature_table_length (config : Config) :
    (temperature_table config : List α).length = config.area_height * config.orbital_period := by
  simp [temperature_table]

theorem precompute_temperatures_cpu_timesteps (config : Config) (p : Planet α) (N : Nat) :
    (p.precompute_temperatures_cpu N config).timesteps = p.timesteps ∧
    (p.precompute_temperatures_cpu N config).initialized = p.initialized := ⟨rfl, rfl⟩

omit [FloatOps α] in
theorem foldl_length_of_step {β : Type} (f : List α → β → List α)
    (h : ∀ tb b, (f tb b).length = tb.length) (l : List β) (tb : List α) :
    (l.foldl f tb).length = tb.length := by
  induction l generalizing tb with
  | nil => rfl
  | cons b rest ih => rw [List.foldl_cons, ih, h]

/-- The CPU precomputation never changes the length of the table. -/
theorem precompute_temperatures_cpu_length (config : Config) (p : Planet α) (N : Nat) :
    (p.precompute_temperatures_cpu N config).temperatures.length = p.temperatures.length := by
  unfold Planet.precompute_temperatures_cpu
  apply foldl_length_of_step
  intro tb i
  unfold precompute_temperatures_for_timestep_range_cpu
  apply foldl_length_of_step
  intro tb y
  apply foldl_length_of_step
  intro tb t
  exact List.length_set _ _ _

theorem resize_length (v : List α) (n : Nat) : (resize v n).length = n := by
  unfold resize
  simp
  omega

/-- Repeating the CPU precomputation at least once yields the same table. -/
theorem repeated_precompute_table (config : Config) (N : Nat) (l : List Nat) (p : Planet α)
    (hl : l ≠ []) (hN : 0 < N) (hT : 0 < config.orbital_period)
    (hts : p.timesteps = config.orbital_period)
    (hlen : p.temperatures.length = config.area_height * config.orbital_period)
    (hov : config.area_height * config.orbital_period < 4294967296)
    (hNT : config.orbital_period + N < 4294967296) :
    (l.foldl (fun (p : Planet α) _ => p.precompute_temperatures_cpu N config) p).temperatures
      = temperature_table config := by
  induction l generalizing p with
  | nil => exact absurd rfl hl
  | cons a rest ih =>
    rw [List.foldl_cons]
    have h1 := precompute_temperatures_cpu_table config p N hN hT hts hlen hov hNT
    cases rest with
    | nil => exact h1
    | cons b rest' =>
      apply ih _ (List.cons_ne_nil _ _)
      · exact hts
      · rw [h1, temperature_table_length]

/-- The public precomputation, from any previous state of the planet and in either mode,
leaves the table `temperature_table config`. -/
theorem precompute_temperatures_table (config : Config) (p : Planet α) (benchmark : Bool)
    (hardware_concurrency : Nat) (hT : 0 < config.orbital_period)
    (hov : config.area_height * config.orbital_period < 4294967296)
    (hN : 0 < (if config.precompute_temperatures_cpu_threads = 0 then hardware_concurrency
      else config.precompute_temperatures_cpu_threads))
    (hNT : config.orbital_period + (if config.precompute_temperatures_cpu_threads = 0 then
      hardware_concurrency else config.precompute_temperatures_cpu_threads) < 4294967296)
    (hS : benchmark = true → 0 < config.planet_benchmark_samples) :
    (p.precompute_temperatures config benchmark hardware_concurrency).temperatures
      = temperature_table config := by
  have hu : u32 (config.area_height * config.orbital_period)
      = config.area_height * config.orbital_period := by unfold u32; omega
  unfold Planet.precompute_temperatures
  simp only [hu]
  cases benchmark with
  | false =>
    simp only [Bool.false_eq_true, if_false]
    exact precompute_temperatures_cpu_table config _ _ hN hT rfl (resize_length _ _) hov hNT
  | true =>
    simp only [if_true]
    unfold Planet.benchmark_temperature_computation_cpu
    apply repeated_precompute_table config _ _ _ _ hN hT rfl (resize_length _ _) hov hNT
    have := hS rfl
    intro h0
    have hlen : (List.range config.planet_benchmark_samples).length = 0 := by rw [h0]; rfl
    rw [List.length_range] at hlen
    omega

/-- C10: for a configuration with `H = 300` rows and orbital period 1000, every entry
`(y, t)` written by a worker of the CPU precomputation is `temperature_entry config y t`,
a function of `y`, `t` and the configuration only, whatever the worker's `start_t` and
`end_t`; hence the table built with one worker thread equals, entry for entry, the table
built with eight worker threads, a second precomputation over a built table leaves it as
it is, and the public `precompute_temperatures`, from any previous state of the planet,
in single or benchmark mode, yields the same table for one and for eight threads. The
statement holds for every interpretation of the floating-point operations. -/
theorem temperature_table_deterministic (config : Config)
    (hH : config.area_height = 300) (hT : config.orbital_period = 1000)
    (hS : 0 < config.planet_benchmark_samples) :
    (∀ (tbl : List α) (start_t end_t y t : Nat), tbl.length = 300000 → y < 300 →
      start_t ≤ t → t < end_t → t < 1000 →
      (precompute_temperatures_for_timestep_range_cpu tbl start_t end_t config)[y * 1000 + t]?
        = some (temperature_entry config y t)) ∧
    (∀ (p : Planet α), p.timesteps = 1000 → p.temperatures.length = 300000 →
      (p.precompute_temperatures_cpu 1 config).temperatures = temperature_table config ∧
      (p.precompute_temperatures_cpu 8 config).temperatures = temperature_table config ∧
      (p.precompute_temperatures_cpu 1 config).temperatures
        = (p.precompute_temperatures_cpu 8 config).temperatures ∧
      ((p.precompute_temperatures_cpu 8 config).precompute_temperatures_cpu 8 config).temperatures
        = (p.precompute_temperatures_cpu 8 config).temperatures) ∧
    (∀ (p p' : Planet α) (benchmark benchmark' : Bool) (hw hw' : Nat),
      (p.precompute_temperatures
          { config with precompute_temperatures_cpu_threads := 1 } benchmark hw).temperatures
        = (p'.precompute_temperatures
          { config with precompute_temperatures_cpu_threads := 8 } benchmark' hw').temperatures) := by
  have hT0 : 0 < config.orbital_period := by omega
  have hov : config.area_height * config.orbital_period < 4294967296 := by
    rw [hH, hT]; norm_num
  refine ⟨?_, ?_, ?_⟩
  · intro tbl start_t end_t y t hlen hy hs he ht
    obtain ⟨_, ha, _⟩ := range_cpu_writes (α := α) config start_t end_t hT0 hov tbl
    have hmem : y ∈ List.range config.area_height := List.mem_range.mpr (by omega)
    have hmem2 : t ∈ timestep_loop start_t (min end_t config.orbital_period) :=
      (mem_timestep_loop _ _ t).mpr ⟨hs, lt_min he (by omega)⟩
    have hj : y * 1000 + t < tbl.length := by omega
    have heq : y * config.orbital_period + t = y * 1000 + t := by rw [hT]
    have hd : (y * 1000 + t) / config.orbital_period = y := by rw [hT]; omega
    have hm : (y * 1000 + t) % config.orbital_period = t := by rw [hT]; omega
    have hw : (precompute_temperatures_for_timestep_range_cpu tbl start_t end_t config)[y * 1000 + t]?
        = some (temperature_entry config ((y * 1000 + t) / config.orbital_period)
            ((y * 1000 + t) % config.orbital_period)) :=
      ha (y * 1000 + t) ⟨y, hmem, t, hmem2, heq⟩ hj
    rw [hw, hd, hm]
  · intro p hts hlen
    have hts' : p.timesteps = config.orbital_period := by rw [hts, hT]
    have hlen' : p.temperatures.length = config.area_height * config.orbital_period := by
      rw [hlen, hH, hT]
    have hN1 : config.orbital_period + 1 < 4294967296 := by omega
    have hN8 : config.orbital_period + 8 < 4294967296 := by omega
    have h1 := precompute_temperatures_cpu_table config p 1 Nat.one_pos hT0 hts' hlen' hov hN1
    have h8 := precompute_temperatures_cpu_table config p 8 (Nat.succ_pos 7) hT0 hts' hlen'
      hov hN8
    refine ⟨h1, h8, h1.trans h8.symm, ?_⟩
    rw [h8]
    exact precompute_temperatures_cpu_table config _ 8 (Nat.succ_pos 7) hT0
      ((precompute_temperatures_cpu_timesteps config p 8).1.trans hts')
      (by rw [h8, temperature_table_length]) hov hN8
  · intro p p' benchmark benchmark' hw hw'
    have e1 := precompute_temperatures_table (α := α)
      { config with precompute_temperatures_cpu_threads := 1 } p benchmark hw hT0 hov
      (by simp) (by simp; omega) (fun _ => hS)
    have e8 := precompute_temperatures_table (α := α)
      { config with precompute_temperatures_cpu_threads := 8 } p' benchmark' hw' hT0 hov
      (by simp) (by simp; omega) (fun _ => hS)
    rw [e1, e8]
    rfl

end PlanetPublic

section PlanetLookup

variable {α : Type} [FloatOps α]

/-- State of the planet after the public precomputation: the table has
`area_height * orbital_period` entries in `unsigned int` arithmetic, `timesteps` is the
orbital period and the planet is initialised. -/
theorem precompute_temperatures_state (config : Config) (p : Planet α) (benchmark : Bool)
    (hardware_concurrency : Nat) :
    (p.precompute_temperatures config benchmark hardware_concurrency).temperatures.length
      = u32 (config.area_height * config.orbital_period) ∧
    (p.precompute_temperatures config benchmark hardware_concurrency).timesteps
      = config.orbital_period ∧
    (p.precompute_temperatures config benchmark hardware_concurrency).initialized = true := by
  have hb : ∀ (l : List Nat) (N : Nat) (q : Planet α),
      (l.foldl (fun (p : Planet α) _ => p.precompute_temperatures_cpu N config) q).temperatures.length
        = q.temperatures.length ∧
      (l.foldl (fun (p : Planet α) _ => p.precompute_temperatures_cpu N config) q).timesteps
        = q.timesteps := by
    intro l N
    induction l with
    | nil => intro q; exact ⟨rfl, rfl⟩
    | cons a rest ih =>
      intro q
      rw [List.foldl_cons]
      obtain ⟨h1, h2⟩ := ih (q.precompute_temperatures_cpu N config)
      exact ⟨h1.trans (precompute_temperatures_cpu_length config q N), h2⟩
  unfold Planet.precompute_temperatures
  cases benchmark with
  | false =>
    refine ⟨?_, rfl, rfl⟩
    simp only [Bool.false_eq_true, if_false]
    rw [precompute_temperatures_cpu_length]
    exact resize_length _ _
  | true =>
    refine ⟨?_, ?_, rfl⟩
    · simp only [if_true]
      unfold Planet.benchmark_temperature_computation_cpu
      rw [(hb _ _ _).1]
      exact resize_length _ _
    · simp only [if_true]
      unfold Planet.benchmark_temperature_computation_cpu
      rw [(hb _ _ _).2]

/-- The lookup contract where the table size does not overflow: before the table is
built `get_temperature` returns -1; once `precompute_temperatures` has run with
`H * T < 2^32`, for every row `y < H` and every timestep `t` the index is
`y * T + (t mod T)`, it lies within the `H * T` entries of the table, and the value read
is the entry of row `y` and timestep `t mod T`. -/
theorem get_temperature_contract :
    (∀ (p : Planet α) (y t : Nat), p.initialized = false → p.get_temperature y t = lit (-1)) ∧
    (∀ (config : Config) (p : Planet α) (benchmark : Bool) (hardware_concurrency y t : Nat),
      0 < config.orbital_period →
      config.area_height * config.orbital_period < 4294967296 →
      0 < (if config.precompute_temperatures_cpu_threads = 0 then hardware_concurrency
        else config.precompute_temperatures_cpu_threads) →
      config.orbital_period + (if config.precompute_temperatures_cpu_threads = 0 then
        hardware_concurrency else config.precompute_temperatures_cpu_threads) < 4294967296 →
      (benchmark = true → 0 < config.planet_benchmark_samples) →
      y < config.area_height →
      (p.precompute_temperatures config benchmark hardware_concurrency).index y t
        = y * config.orbital_period + t % config.orbital_period ∧
      (p.precompute_temperatures config benchmark hardware_concurrency).index y t
        < (p.precompute_temperatures config benchmark hardware_concurrency).temperatures.length ∧
      (p.precompute_temperatures config benchmark hardware_concurrency).temperatures.length
        = config.area_height * config.orbital_period ∧
      (p.precompute_temperatures config benchmark hardware_concurrency).get_temperature y t
        = temperature_entry config y (t % config.orbital_period)) := by
  constructor
  · intro p y t h
    unfold Planet.get_temperature
    simp [h]
  · intro config p benchmark hw y t hT hov hN hNT hS hy
    obtain ⟨hlen, hts, hinit⟩ := precompute_temperatures_state config p benchmark hw
    have htab := precompute_temperatures_table config p benchmark hw hT hov hN hNT hS
    have hmod : t % config.orbital_period < config.orbital_period := Nat.mod_lt _ hT
    have hlt : y * config.orbital_period + t % config.orbital_period
        < config.area_height * config.orbital_period := by
      calc y * config.orbital_period + t % config.orbital_period
          < y * config.orbital_period + config.orbital_period := by omega
        _ = (y + 1) * config.orbital_period := by ring
        _ ≤ config.area_height * config.orbital_period := Nat.mul_le_mul_right _ hy
    have hidx : (p.precompute_temperatures config benchmark hw).index y t
        = y * config.orbital_period + t % config.orbital_period := by
      unfold Planet.index
      rw [hts]
      unfold u32
      omega
    have hu : u32 (config.area_height * config.orbital_period)
        = config.area_height * config.orbital_period := by unfold u32; omega
    refine ⟨hidx, by rw [hidx, hlen, hu]; exact hlt, by rw [hlen, hu], ?_⟩
    unfold Planet.get_temperature
    rw [hinit, if_pos rfl, hidx, htab, List.getD_eq_getElem?_getD]
    unfold temperature_table
    rw [List.getElem?_map, List.getElem?_range hlt]
    simp only [Option.map_some', Option.getD_some]
    congr 1
    · rw [Nat.mul_comm, Nat.mul_add_div hT, Nat.div_eq_of_lt hmod, Nat.add_zero]
    · rw [Nat.mul_comm, Nat.mul_add_mod, Nat.mod_mod]

end PlanetLookup

/-- C9 at a failing input: for the admitted configuration `Area.height = 5000`,
`Planet.orbital_period = 1000000` the table built by `precompute_temperatures` has
`5000000000 mod 2^32 = 705032704` entries, and the lookup for row 1000 (a row of the
world) at timestep 0 uses index 1000000000, which is not within the table. -/
theorem get_temperature_index_overflow :
    1000 < large_config.area_height ∧
    large_planet.initialized = true ∧
    large_planet.temperatures.length = 705032704 ∧
    large_planet.index 1000 0 = 1000000000 ∧
    ¬ (large_planet.index 1000 0 < large_planet.temperatures.length) := by
  obtain ⟨hlen, hts, hinit⟩ :=
    @precompute_temperatures_state ℚ sampleOps large_config Planet.new false 4
  have hl : large_planet.temperatures.length = 705032704 := by
    unfold large_planet
    rw [hlen]
    decide
  have hi : large_planet.index 1000 0 = 1000000000 := by
    unfold Planet.index large_planet
    rw [hts]
    decide
  refine ⟨by decide, hinit, hl, hi, ?_⟩
  rw [hl, hi]
  decide

/-- C10 for `sample_config` (300 rows, orbital period 1000) over `sampleOps`: the table
built with one worker thread equals the table built with eight. -/
theorem temperature_table_deterministic_witness :
    (sample_config.area_height = 300 ∧ sample_config.orbital_period = 1000 ∧
      0 < sample_config.planet_benchmark_samples) ∧
    (@Planet.precompute_temperatures ℚ sampleOps Planet.new
        { sample_config with precompute_temperatures_cpu_threads := 1 } false 4).temperatures
      = (@Planet.precompute_temperatures ℚ sampleOps Planet.new
        { sample_config with precompute_temperatures_cpu_threads := 8 } false 4).temperatures :=
  ⟨⟨rfl, rfl, by decide⟩,
   (@temperature_table_deterministic ℚ sampleOps sample_config rfl rfl (by decide)).2.2
     Planet.new Planet.new false false 4 4⟩

/-! ### Latitude of a row -/

/-- Over `ℚ` the latitude computed for row `y` is `90 − 180·y/(H − 1)`, whatever the
configured `latitude_range`. -/
theorem latitude_of_row_formula (config : Config) (y : Nat)
    (h0 : 0 < config.area_height) (h1 : config.area_height < 4294967296) :
    @latitude_of_row ℚ sampleOps config y
      = 90 - 180 * (y : ℚ) / ((config.area_height : ℚ) - 1) := by
  have hu : u32 (config.area_height + 4294967295) = config.area_height - 1 := by
    unfold u32
    omega
  have hc : ((config.area_height - 1 : Nat) : ℚ) = (config.area_height : ℚ) - 1 := by
    rw [Nat.cast_sub h0]
    simp
  unfold latitude_of_row
  rw [hu, hc]
  show -(((y : ℚ) / ((config.area_height : ℚ) - 1)) * ((90 : ℚ) - -(90 : ℚ)) - (90 : ℚ)) = _
  ring

/-- The configured `latitude_range` does not enter the latitude of a row. -/
theorem latitude_of_row_latitude_range {α : Type} [FloatOps α] (config : Config) (L : ℚ)
    (y : Nat) :
    (latitude_of_row { config with latitude_range := L } y : α) = latitude_of_row config y :=
  rfl

/-- C11 at a failing input: with `Area.latitude_range = 45` and 300 rows the latitude
used for row 0 is 90 and for row 299 is −90 (and 30 for row 100), while the linear map
onto `[+L, −L]` with `L = 45` gives 45, −45 and `45 − 90·100/299`. -/
theorem latitude_ignores_latitude_range :
    half_range_config.latitude_range = 45 ∧
    half_range_config.area_height = 300 ∧
    @latitude_of_row ℚ sampleOps half_range_config 0 = 90 ∧
    @latitude_of_row ℚ sampleOps half_range_config 299 = -90 ∧
    @latitude_of_row ℚ sampleOps half_range_config 0
      ≠ half_range_config.latitude_range
        - 2 * half_range_config.latitude_range * 0 / ((300 : ℚ) - 1) ∧
    @latitude_of_row ℚ sampleOps half_range_config 299
      ≠ half_range_config.latitude_range
        - 2 * half_range_config.latitude_range * 299 / ((300 : ℚ) - 1) ∧
    @latitude_of_row ℚ sampleOps half_range_config 100
      ≠ half_range_config.latitude_range
        - 2 * half_range_config.latitude_range * 100 / ((300 : ℚ) - 1) := by
  decide!

/-! ### The queue of free slots -/

/-- C18: `safe_pop` on an empty queue returns false, leaves the queue empty and the state
captured by the callback untouched (the callback is not invoked); on a queue with front
`x` it returns true, removes exactly `x`, leaves the remaining elements in their order and
applies the callback once, to `x`; `safe_push` appends at the back, so the front is the
oldest element still queued. -/
theorem safe_pop_contract {σ : Type} (s : σ) (pop_callback : Nat → σ → σ) (x item : Nat)
    (rest : List Nat) (cq : ConcurrentQueue) :
    ConcurrentQueue.safe_pop ⟨[]⟩ s pop_callback = (false, ⟨[]⟩, s) ∧
    ConcurrentQueue.safe_pop ⟨x :: rest⟩ s pop_callback = (true, ⟨rest⟩, pop_callback x s) ∧
    (cq.safe_push item).q = cq.q ++ [item] ∧
    ConcurrentQueue.safe_pop (ConcurrentQueue.safe_push ⟨x :: rest⟩ item) s pop_callback
      = (true, ⟨rest ++ [item]⟩, pop_callback x s) ∧
    ConcurrentQueue.safe_pop (ConcurrentQueue.safe_push ⟨[]⟩ item) s pop_callback
      = (true, ⟨[]⟩, pop_callback item s) :=
  ⟨rfl, rfl, rfl, rfl, rfl⟩

/-! ### Initialisation of an organism -/

/-- C14: after `init`, `init_from` with two parents and `init_from` with one parent,
whatever the previous state `o` of the slot, the three health counters are 1,000,000,
fitness is 1, age is 0, the collision vector keeps its length and holds only zeros,
`genes_transferred` is false, `transfer_effect_time` is −1, `exists` is true, and the size
is the area of influence of the phenotype expressed from the new genotype. -/
theorem init_variants_reset (o parent1 parent2 : Organism) (pos : Vector2f) (config : Config)
    (rng : Rng) :
    let fresh := fun (r : Organism) =>
      r.nutrition = 1000000 ∧ r.hydration = 1000000 ∧ r.integrity = 1000000 ∧
      r.fitness = 1 ∧ r.age = 0 ∧
      r.collisions = List.replicate o.collisions.length 0 ∧
      r.genes_transferred = false ∧ r.transfer_effect_time = -1 ∧
      r.exists_ = true ∧
      r.phenotype = r.genotype.express_traits o.phenotype ∧
      r.size = (r.genotype.express_traits o.phenotype).get_area_of_influence
    fresh (o.init pos config rng).1 ∧
    fresh (o.init_from2 parent1 parent2 config rng).1 ∧
    fresh (o.init_from parent1 config rng).1 := by
  have hz : o.collisions.map (fun _ => (0 : Nat)) = List.replicate o.collisions.length 0 := by
    induction o.collisions with
    | nil => rfl
    | cons a l ih => simp [List.replicate_succ, ih]
  intro fresh
  refine ⟨?_, ?_, ?_⟩
  · simp [fresh, Organism.init, Organism.reset, one_million, hz]
  · simp [fresh, Organism.init_from2, Organism.reset, one_million, hz]
  · simp [fresh, Organism.init_from, Organism.reset, one_million, hz]

/-! ### Replication -/

/-- `notify` on a link whose counter is below the threshold. -/
theorem notify_step (s : SignalLink) (h : s.current_notify < s.notify_threads)
    (h2 : s.notify_threads < 4294967296) :
    s.notify = if s.current_notify + 1 = s.notify_threads
      then { s with current_notify := 0, ready := true }
      else { s with current_notify := s.current_notify + 1 } := by
  have hu : u32 (s.current_notify + 1) = s.current_notify + 1 := by
    unfold u32
    omega
  unfold SignalLink.notify
  simp only [hu]

/-- `wait` on a ready link whose counter is below the threshold. -/
theorem wait_step (s : SignalLink) (hr : s.ready = true) (h : s.current_wait < s.wait_threads)
    (h2 : s.wait_threads < 4294967296) :
    s.wait = some (if s.current_wait + 1 = s.wait_threads
      then { s with current_wait := 0, ready := false }
      else { s with current_wait := s.current_wait + 1 }) := by
  have hu : u32 (s.current_wait + 1) = s.current_wait + 1 := by
    unfold u32
    omega
  unfold SignalLink.wait
  simp only [hr, hu, Bool.not_true, Bool.false_eq_true, if_false]
  split <;> rfl

/-- From a link that is not ready, a run with fewer notifies than are still missing
consists of notifies only, counts them and leaves the link not ready. -/
theorem run_not_ready (n : Nat) (hn2 : n < 4294967296) (tr : List SignalStep) :
    ∀ (s s' : SignalLink), s.notify_threads = n → s.ready = false →
      s.current_notify + tr.count SignalStep.notify < n → s.run tr = some s' →
      s' = { s with current_notify := s.current_notify + tr.count SignalStep.notify } ∧
      tr.count SignalStep.wait = 0 := by
  induction tr with
  | nil =>
    intro s s' _ _ _ hrun
    simp only [SignalLink.run, Option.some.injEq] at hrun
    subst hrun
    exact ⟨rfl, rfl⟩
  | cons a tr ih =>
    intro s s' hn hr hc hrun
    cases a with
    | notify =>
      simp only [List.count_cons_self] at hc
      have hlt : s.current_notify < s.notify_threads := by omega
      have hne : ¬ s.current_notify + 1 = s.notify_threads := by omega
      have hstep := notify_step s hlt (by omega)
      rw [if_neg hne] at hstep
      simp only [SignalLink.run, SignalLink.step, Option.some_bind, hstep] at hrun
      have := ih { s with current_notify := s.current_notify + 1 } s' hn hr
        (by simp only; omega) hrun
      refine ⟨?_, ?_⟩
      · rw [this.1]
        simp only [List.count_cons_self]
        congr 1
        omega
      · simpa using this.2
    | wait =>
      have hw : s.wait = none := by
        unfold SignalLink.wait
        simp [hr]
      simp [SignalLink.run, SignalLink.step, hw] at hrun

/-- From a ready link, a run with fewer waits than are still missing never blocks, counts
the waits and leaves the link ready. -/
theorem run_ready (w : Nat) (hw2 : w < 4294967296) (tr : List SignalStep) :
    ∀ (s : SignalLink), s.wait_threads = w → s.ready = true →
      s.current_wait + tr.count SignalStep.wait < w →
      ∃ s', s.run tr = some s' ∧ s'.ready = true ∧ s'.wait_threads = w ∧
        s'.current_wait = s.current_wait + tr.count SignalStep.wait := by
  induction tr with
  | nil =>
    intro s hw hr _
    exact ⟨s, rfl, hr, hw, rfl⟩
  | cons a tr ih =>
    intro s hw hr hc
    cases a with
    | notify =>
      have hc2 : s.current_wait + tr.count SignalStep.wait < w := by
        simpa using hc
      have hready : s.notify.ready = true := by
        unfold SignalLink.notify
        simp only
        split
        · rfl
        · exact hr
      have hwt : s.notify.wait_threads = w := by
        unfold SignalLink.notify
        simp only
        split <;> exact hw
      have hcw : s.notify.current_wait = s.current_wait := by
        unfold SignalLink.notify
        simp only
        split <;> rfl
      obtain ⟨s', h1, h2, h3, h4⟩ := ih s.notify hwt hready (by rw [hcw]; exact hc2)
      refine ⟨s', ?_, h2, h3, ?_⟩
      · simpa [SignalLink.run, SignalLink.step] using h1
      · rw [h4, hcw]
        simp
    | wait =>
      simp only [List.count_cons_self] at hc
      have hlt : s.current_wait < s.wait_threads := by omega
      have hne : ¬ s.current_wait + 1 = s.wait_threads := by omega
      have hstep := wait_step s hr hlt (by omega)
      rw [if_neg hne] at hstep
      obtain ⟨s', h1, h2, h3, h4⟩ := ih { s with current_wait := s.current_wait + 1 } hw hr
        (by simp only; omega)
      refine ⟨s', ?_, h2, h3, ?_⟩
      · simpa [SignalLink.run, SignalLink.step, hstep] using h1
      · rw [h4]
        simp only [List.count_cons_self]
        omega

/-- Every run keeps the thresholds and keeps both counters below them. -/
theorem run_counters (n w : Nat) (hn2 : n < 4294967296) (hw2 : w < 4294967296)
    (tr : List SignalStep) :
    ∀ (s s' : SignalLink), s.notify_threads = n → s.wait_threads = w →
      s.current_notify < n → s.current_wait < w → s.run tr = some s' →
      s'.notify_threads = n ∧ s'.wait_threads = w ∧
      s'.current_notify < n ∧ s'.current_wait < w := by
  induction tr with
  | nil =>
    intro s s' hn hw h1 h2 hrun
    simp only [SignalLink.run, Option.some.injEq] at hrun
    subst hrun
    exact ⟨hn, hw, h1, h2⟩
  | cons a tr ih =>
    intro s s' hn hw h1 h2 hrun
    cases a with
    | notify =>
      have hstep := notify_step s (by omega) (by omega)
      simp only [SignalLink.run, SignalLink.step, Option.some_bind] at hrun
      refine ih s.notify s' ?_ ?_ ?_ ?_ hrun
      · rw [hstep]; split <;> exact hn
      · rw [hstep]; split <;> exact hw
      · rw [hstep]; split
        · simp only; omega
        · simp only; omega
      · rw [hstep]; split <;> exact h2
    | wait =>
      cases hr : s.ready with
      | false =>
        have hwn : s.wait = none := by
          unfold SignalLink.wait
          simp [hr]
        simp [SignalLink.run, SignalLink.step, hwn] at hrun
      | true =>
        have hstep := wait_step s hr (by omega) (by omega)
        simp only [SignalLink.run, SignalLink.step, hstep, Option.some_bind] at hrun
        refine ih _ s' ?_ ?_ ?_ ?_ hrun
        · split <;> exact hn
        · split <;> exact hw
        · split <;> exact h1
        · split
          · simp only; omega
          · simp only; omega

/-- C19: for a link with `notify_threads` and `wait_threads` between 1 and the `unsigned`
range, taking `notify` and passing `wait` as steps. (1) From `ready = false` with the
notify counter at 0, any run with fewer than `notify_threads` notifies contains no passing
wait, leaves the link not ready and counts the notifies; the `notify_threads`-th notify
makes it ready and puts the counter back to 0. (2) From `ready = true` with the wait
counter at 0, any run with fewer than `wait_threads` waits never blocks, leaves the link
ready and counts the waits; the `wait_threads`-th wait clears `ready` and puts the counter
back to 0. (3) A wait on a link that is not ready blocks. (4) Counters below their
thresholds stay below them after every step of every run, and the constructor starts both
at 0, below the thresholds. -/
theorem signal_link_state_machine (s : SignalLink)
    (hn : 0 < s.notify_threads) (hn2 : s.notify_threads < 4294967296)
    (hw : 0 < s.wait_threads) (hw2 : s.wait_threads < 4294967296) :
    (s.ready = false → s.current_notify = 0 → ∀ (tr : List SignalStep) (s' : SignalLink),
      s.run tr = some s' → tr.count SignalStep.notify < s.notify_threads →
        s'.ready = false ∧ s'.current_notify = tr.count SignalStep.notify ∧
        s'.current_wait = s.current_wait ∧ tr.count SignalStep.wait = 0 ∧
        (tr.count SignalStep.notify + 1 = s.notify_threads →
          s'.notify.ready = true ∧ s'.notify.current_notify = 0 ∧
          s'.notify.current_wait = s.current_wait)) ∧
    (s.ready = true → s.current_wait = 0 → ∀ (tr : List SignalStep),
      tr.count SignalStep.wait < s.wait_threads →
        ∃ s', s.run tr = some s' ∧ s'.ready = true ∧
          s'.current_wait = tr.count SignalStep.wait ∧
          (tr.count SignalStep.wait + 1 = s.wait_threads →
            ∃ s'', s'.wait = some s'' ∧ s''.ready = false ∧ s''.current_wait = 0 ∧
              s''.current_notify = s'.current_notify)) ∧
    (s.ready = false → s.wait = none) ∧
    (s.current_notify < s.notify_threads → s.current_wait < s.wait_threads →
      ∀ (tr : List SignalStep) (s' : SignalLink), s.run tr = some s' →
        s'.current_notify < s.notify_threads ∧ s'.current_wait < s.wait_threads) ∧
    (∀ b : Bool,
      (SignalLink.new s.notify_threads s.wait_threads b).current_notify = 0 ∧
      (SignalLink.new s.notify_threads s.wait_threads b).current_wait = 0 ∧
      (SignalLink.new s.notify_threads s.wait_threads b).ready = b ∧
      (SignalLink.new s.notify_threads s.wait_threads b).current_notify < s.notify_threads ∧
      (SignalLink.new s.notify_threads s.wait_threads b).current_wait < s.wait_threads) := by
  refine ⟨?_, ?_, ?_, ?_, fun b => ⟨rfl, rfl, rfl, hn, hw⟩⟩
  · intro hr h0 tr s' hrun hc
    obtain ⟨h1, h2⟩ := run_not_ready s.notify_threads hn2 tr s s' rfl hr
      (by rw [h0]; omega) hrun
    rw [h0, Nat.zero_add] at h1
    subst h1
    refine ⟨hr, rfl, rfl, h2, ?_⟩
    intro hlast
    have hstep := notify_step { s with current_notify := tr.count SignalStep.notify }
      hc hn2
    rw [if_pos hlast] at hstep
    rw [hstep]
    exact ⟨rfl, rfl, rfl⟩
  · intro hr h0 tr hc
    obtain ⟨s', h1, h2, h3, h4⟩ := run_ready s.wait_threads hw2 tr s rfl hr
      (by rw [h0]; omega)
    rw [h0, Nat.zero_add] at h4
    refine ⟨s', h1, h2, h4, ?_⟩
    intro hlast
    have hstep := wait_step s' h2 (by rw [h3, h4]; exact hc) (by rw [h3]; exact hw2)
    rw [if_pos (by rw [h3, h4]; exact hlast)] at hstep
    exact ⟨_, hstep, rfl, rfl, rfl⟩
  · intro hr
    unfold SignalLink.wait
    simp [hr]
  · intro h1 h2 tr s' hrun
    exact (run_counters s.notify_threads s.wait_threads hn2 hw2 tr s s' rfl rfl h1 h2 hrun).2.2

/-- C19 for the link `SignalLink(3, 2)`: two notifies leave it not ready, the third makes
it ready with the counter back at 0. -/
theorem signal_link_state_machine_witness :
    (0 < (SignalLink.new 3 2 false).notify_threads ∧
      0 < (SignalLink.new 3 2 false).wait_threads) ∧
    ((SignalLink.new 3 2 false).notify.notify.ready = false ∧
      (SignalLink.new 3 2 false).notify.notify.current_notify = 2 ∧
      (SignalLink.new 3 2 false).notify.notify.current_wait = 0 ∧
      [SignalStep.notify, SignalStep.notify].count SignalStep.wait = 0 ∧
      (2 + 1 = 3 →
        (SignalLink.new 3 2 false).notify.notify.notify.ready = true ∧
        (SignalLink.new 3 2 false).notify.notify.notify.current_notify = 0 ∧
        (SignalLink.new 3 2 false).notify.notify.notify.current_wait = 0)) :=
  ⟨⟨by decide, by decide⟩,
   (signal_link_state_machine (SignalLink.new 3 2 false) (by decide) (by decide) (by decide)
      (by decide)).1 rfl rfl [SignalStep.notify, SignalStep.notify]
      (SignalLink.new 3 2 false).notify.notify rfl (by decide)⟩

/-! ### Forward pass of the behaviour network -/

/-- A loop `activations[j] += f j` over distinct indices `js` keeps the length and adds
`f j` at exactly the positions of `js`. -/
theorem accumulate_row (f : Nat → ℚ) (js : List Nat) (hnd : js.Nodup) :
    ∀ a : List ℚ, (js.foldl (fun a j => a.set j (a.getD j 0 + f j)) a).length = a.length ∧
      ∀ j, j < a.length → (js.foldl (fun a j => a.set j (a.getD j 0 + f j)) a).getD j 0
        = if j ∈ js then a.getD j 0 + f j else a.getD j 0 := by
  induction js with
  | nil =>
    intro a
    simp
  | cons j0 js ih =>
    intro a
    have hnd2 := List.nodup_cons.mp hnd
    obtain ⟨hl, hv⟩ := ih hnd2.2 (a.set j0 (a.getD j0 0 + f j0))
    simp only [List.foldl_cons]
    refine ⟨by rw [hl]; simp, fun j hj => ?_⟩
    rw [hv j (by simpa using hj)]
    by_cases hj0 : j = j0
    · subst hj0
      have h1 : (a.set j (a.getD j 0 + f j)).getD j 0 = a.getD j 0 + f j := by
        simp [List.getD_eq_getElem?_getD, hj]
      rw [h1]
      simp [hnd2.1]
    · have h1 : (a.set j0 (a.getD j0 0 + f j0)).getD j 0 = a.getD j 0 := by
        simp [List.getD_eq_getElem?_getD, List.getElem?_set_ne (Ne.symm hj0)]
      rw [h1]
      simp [hj0]

/-- The product loops add to every activation `j < units` the sum over `k < inputs` of
`input[k] * weights[k * units + j]` and keep the length. -/
theorem accumulate_products_values (inputs units : Nat) (weights input : List ℚ) :
    ∀ a : List ℚ, a.length = units →
      (accumulate_products inputs units weights input a).length = units ∧
      ∀ j, j < units → (accumulate_products inputs units weights input a).getD j 0
        = a.getD j 0 + ((List.range inputs).map
            (fun k => input.getD k 0 * weights.getD (k * units + j) 0)).sum := by
  induction inputs with
  | zero =>
    intro a ha
    simp [accumulate_products, ha]
  | succ n ih =>
    intro a ha
    obtain ⟨hl, hv⟩ := ih a ha
    have hstep : accumulate_products (n + 1) units weights input a
        = (List.range units).foldl
            (fun a j => a.set j (a.getD j 0 + input.getD n 0 * weights.getD (n * units + j) 0))
            (accumulate_products n units weights input a) := by
      simp only [accumulate_products, List.range_succ, List.foldl_append, List.foldl_cons,
        List.foldl_nil]
    obtain ⟨hl2, hv2⟩ := accumulate_row
      (fun j => input.getD n 0 * weights.getD (n * units + j) 0) (List.range units)
      (List.nodup_range units) (accumulate_products n units weights input a)
    rw [hstep]
    refine ⟨by rw [hl2, hl], fun j hj => ?_⟩
    rw [hv2 j (by rw [hl]; exact hj), if_pos (List.mem_range.mpr hj), hv j hj]
    simp only [List.range_succ, List.map_append, List.sum_append, List.map_cons, List.map_nil,
      List.sum_cons, List.sum_nil]
    ring

/-- C20 at a layer with the sigmoid flag set: for the input `[0]` the forward pass of
`sigmoid_layer` returns `[1/2]`, the sigmoid of the weighted sum 0, and not
`[tanh 0] = [0]`. -/
theorem forward_values_counterexample :
    sigmoid_layer.weights.length = sigmoid_layer.inputs * sigmoid_layer.units ∧
    (sigmoid_layer.forward sample_libm [0]).1 = [1 / 2] ∧
    sample_libm.tanh (([0] : List ℚ).getD 0 0 * sigmoid_layer.weights.getD (0 * 1 + 0) 0) = 0 ∧
    (sigmoid_layer.forward sample_libm [0]).1[0]?
      ≠ some (sample_libm.tanh
          (([0] : List ℚ).getD 0 0 * sigmoid_layer.weights.getD (0 * 1 + 0) 0)) := by
  decide!

/-- C20, amended: for a layer with `inputs` inputs and `units` units (its activation
vector has `units` entries), a weight vector of length `inputs * units` and an input of
length `inputs`, every read of the forward pass is within its vector, the pass returns a
vector of length `units` whose element `j` is `tanh` of the sum over `k < inputs` of
`input[k] * weights[k * units + j]` if the sigmoid flag is not set and
`1 / (1 + exp (-sum))` if it is set, regardless of the activations left by a previous
pass, and the layer keeps that vector as its activations. The layers of a `BehaviourNet`
are built without the sigmoid flag, and the network returns
`output_layer(layer2(layer1(input)))`. -/
theorem forward_values (m : LibmFns) (l : BehaviourNetLayer) (input : List ℚ)
    (hA : l.activations.length = l.units) (hW : l.weights.length = l.inputs * l.units)
    (hI : input.length = l.inputs) :
    (∀ k j, k < l.inputs → j < l.units →
      k < input.length ∧ k * l.units + j < l.weights.length) ∧
    (l.forward m input).1.length = l.units ∧
    (∀ j, j < l.units → (l.forward m input).1[j]? = some
      (if l.sigmoid then
        1 / (1 + m.exp (-((List.range l.inputs).map
          (fun k => input.getD k 0 * l.weights.getD (k * l.units + j) 0)).sum))
       else
        m.tanh ((List.range l.inputs).map
          (fun k => input.getD k 0 * l.weights.getD (k * l.units + j) 0)).sum)) ∧
    (l.forward m input).2 = { l with activations := (l.forward m input).1 } ∧
    (∀ ni nh1 nh2 no : Nat,
      (BehaviourNet.new ni nh1 nh2 no).layer1.sigmoid = false ∧
      (BehaviourNet.new ni nh1 nh2 no).layer2.sigmoid = false ∧
      (BehaviourNet.new ni nh1 nh2 no).output_layer.sigmoid = false) ∧
    (∀ n : BehaviourNet, (n.forward m input).1
      = (n.output_layer.forward m (n.layer2.forward m (n.layer1.forward m input).1).1).1) := by
  obtain ⟨hl, hv⟩ := accumulate_products_values l.inputs l.units l.weights input
    (l.activations.map (fun _ => (0 : ℚ))) (by simpa using hA)
  have hz : ∀ j, (l.activations.map (fun _ => (0 : ℚ))).getD j 0 = 0 := by
    intro j
    rw [List.getD_eq_getElem?_getD, List.getElem?_map]
    cases l.activations[j]? <;> rfl
  refine ⟨?_, ?_, ?_, rfl, fun _ _ _ _ => ⟨rfl, rfl, rfl⟩, fun _ => rfl⟩
  · intro k j hk hj
    refine ⟨by omega, ?_⟩
    rw [hW]
    calc k * l.units + j < k * l.units + l.units := by omega
      _ = (k + 1) * l.units := by ring
      _ ≤ l.inputs * l.units := Nat.mul_le_mul_right _ hk
  · unfold BehaviourNetLayer.forward
    simp only
    split
    · simp only [sigmoid_activation, List.length_map]
      exact hl
    · simp only [tanh_activation, List.length_map]
      exact hl
  · intro j hj
    have hget : (accumulate_products l.inputs l.units l.weights input
        (l.activations.map (fun _ => (0 : ℚ))))[j]?
        = some ((List.range l.inputs).map
          (fun k => input.getD k 0 * l.weights.getD (k * l.units + j) 0)).sum := by
      have h1 := hv j hj
      rw [hz j, zero_add, List.getD_eq_getElem?_getD,
        List.getElem?_eq_getElem (by rw [hl]; exact hj)] at h1
      rw [List.getElem?_eq_getElem (by rw [hl]; exact hj)]
      exact congrArg some h1
    unfold BehaviourNetLayer.forward
    simp only
    split
    · simp only [sigmoid_activation, List.getElem?_map, hget, Option.map_some']
    · simp only [tanh_activation, List.getElem?_map, hget, Option.map_some']

/-- C20 at `sample_layer` (weights `[[1, 2], [3, 4]]`, old activations `[7, 7]`) with the
input `[1, 1]`: the pass returns `[tanh 4, tanh 6]`. -/
theorem forward_values_witness :
    (sample_layer.activations.length = sample_layer.units ∧
      sample_layer.weights.length = sample_layer.inputs * sample_layer.units) ∧
    (sample_layer.forward sample_libm [1, 1]).1.length = 2 ∧
    (sample_layer.forward sample_libm [1, 1]).1
      = [sample_libm.tanh 4, sample_libm.tanh 6] :=
  ⟨⟨by decide, by decide⟩,
   (forward_values sample_libm sample_layer [1, 1] (by decide) (by decide) (by decide)).2.1,
   by decide!⟩

/-! ### Operations on a dead organism -/

/-- C15 at failing inputs: `nourish(5)` and `hydrate(5)` on the dead `dead_organism` add 5
to its nutrition and hydration, and `update_phenotype` on the dead
`dead_transferred_organism`, whose `genes_transferred` flag is set, clears the flag and
expresses the phenotype anew. -/
theorem dead_operations_counterexample :
    dead_organism.exists_ = false ∧
    (dead_organism.nourish 5).nutrition = dead_organism.nutrition + 5 ∧
    dead_organism.nourish 5 ≠ dead_organism ∧
    (dead_organism.hydrate 5).hydration = dead_organism.hydration + 5 ∧
    dead_organism.hydrate 5 ≠ dead_organism ∧
    dead_transferred_organism.exists_ = false ∧
    dead_transferred_organism.update_phenotype.genes_transferred = false ∧
    dead_transferred_organism.update_phenotype.size ≠ dead_transferred_organism.size ∧
    dead_transferred_organism.update_phenotype ≠ dead_transferred_organism := by
  decide!

/-- C15, amended: for an organism with `exists == false`, each of `interact_with`,
`react_to_temperature`, `update_fitness` (which returns false), `search_for_food`,
`search_for_water`, `think`, `move` and `update_sprite` leaves the entire state of the
organism unchanged (`interact_with` also leaves the other organism and the engine as they
are). `nourish` and `hydrate` test nothing: they add the amount to nutrition and hydration
and change nothing else. `update_phenotype` tests only `genes_transferred`: with the flag
clear the state is unchanged, with the flag set the phenotype is expressed anew, the size
follows it and the flag is cleared. -/
theorem dead_operations (m : LibmFns) (o : Organism) (h : o.exists_ = false) :
    (∀ (other : Organism) (rng : Rng), o.interact_with other rng = (o, other, rng)) ∧
    (∀ (planet : Planet ℚ) (time : Nat), o.react_to_temperature planet time = o) ∧
    o.update_fitness = (false, o) ∧
    (∀ food : ConsumableResourcePool, o.search_for_food m food = o) ∧
    (∀ water : ConsumableResourcePool, o.search_for_water m water = o) ∧
    o.think m = o ∧
    o.move = o ∧
    (∀ fps : Nat, o.update_sprite fps = o) ∧
    (∀ amount : Nat, o.nourish amount = { o with nutrition := o.nutrition + amount }) ∧
    (∀ amount : Nat, o.hydrate amount = { o with hydration := o.hydration + amount }) ∧
    (o.genes_transferred = false → o.update_phenotype = o) ∧
    (o.genes_transferred = true → o.update_phenotype =
      { o with phenotype := o.genotype.express_traits o.phenotype,
               size := (o.genotype.express_traits o.phenotype).get_area_of_influence,
               genes_transferred := false }) := by
  have h2 : o.get_exists = false := h
  refine ⟨?_, ?_, ?_, ?_, ?_, ?_, ?_, ?_, fun _ => rfl, fun _ => rfl, ?_, ?_⟩
  · intro other rng
    simp [Organism.interact_with, h2]
  · intro planet time
    simp [Organism.react_to_temperature, h2]
  · simp [Organism.update_fitness, h2]
  · intro food
    simp [Organism.search_for_food, h2]
  · intro water
    simp [Organism.search_for_water, h2]
  · simp [Organism.think, h2]
  · simp [Organism.move, h2]
  · intro fps
    simp [Organism.update_sprite, h2]
  · intro hg
    simp [Organism.update_phenotype, hg]
  · intro hg
    simp [Organism.update_phenotype, hg]

/-- C15 at `dead_organism`: `update_fitness` returns false and `think`, `move` and
`update_sprite` return the organism as it was. -/
theorem dead_operations_witness :
    dead_organism.exists_ = false ∧
    dead_organism.update_fitness = (false, dead_organism) ∧
    dead_organism.think sample_libm = dead_organism ∧
    dead_organism.move = dead_organism :=
  ⟨by decide!,
   (dead_operations sample_libm dead_organism (by decide!)).2.2.1,
   (dead_operations sample_libm dead_organism (by decide!)).2.2.2.2.2.1,
   (dead_operations sample_libm dead_organism (by decide!)).2.2.2.2.2.2.1⟩

/-! ### Index lists -/

/-- The indices below `n` are those below `j`, then `j`, then the ones above. -/
theorem range_split (j n : Nat) (h : j < n) :
    List.range n = List.range j ++ (j :: List.range' (j + 1) (n - j - 1)) := by
  have h1 : n = ((n - j - 1) + 1) + j := by omega
  have h2 : List.range' 0 j ++ List.range' (0 + j) ((n - j - 1) + 1)
      = List.range' 0 (((n - j - 1) + 1) + j) := List.range'_append_1 0 j ((n - j - 1) + 1)
  rw [List.range_eq_range', List.range_eq_range']
  conv_lhs => rw [h1]
  rw [← h2, Nat.zero_add, List.range'_succ]

/-! ### Sensory data -/

/-- The model constant `pi` is positive. -/
theorem pi_pos : 0 < pi := by
  unfold pi
  norm_num

/-- A health counter in `[0, 1000000]` is scaled into `[−1, 1]`. -/
theorem scaled_counter_bounds (n : Nat) (h : n ≤ 1000000) :
    -1 ≤ ((1 - (n : ℚ) / 1000000) - 1 / 2) * 2 ∧ ((1 - (n : ℚ) / 1000000) - 1 / 2) * 2 ≤ 1 := by
  have h1 : (n : ℚ) ≤ 1000000 := by exact_mod_cast h
  have h0 : (0 : ℚ) ≤ (n : ℚ) := Nat.cast_nonneg n
  constructor
  · have : (n : ℚ) / 1000000 ≤ 1 := by
      rw [div_le_one (by norm_num)]
      exact h1
    linarith
  · have : 0 ≤ (n : ℚ) / 1000000 := div_nonneg h0 (by norm_num)
    linarith

/-- A heading in `[−pi, pi]` is scaled into `[−1, 1]`. -/
theorem scaled_heading_bounds (heading : ℚ) (h1 : -pi ≤ heading) (h2 : heading ≤ pi) :
    -1 ≤ heading / pi ∧ heading / pi ≤ 1 := by
  constructor
  · rw [le_div_iff₀ pi_pos]
    linarith
  · rw [div_le_one pi_pos]
    exact h2

/-- C21: for a sensory vector of seven elements, nutrition, hydration and integrity in
`[0, 1000000]`, a heading in `[−pi, pi]` and a memory value in `[−1, 1]`, each setter
(`set_hunger`, `set_thirst`, `set_temperature_damage`, `set_food_heading`,
`set_water_heading`, `set_temperature_heading`, `set_memory`) writes its own element
(0 to 6 in this order) with a value in `[−1, 1]`: `1 − 2·counter/1000000` for the three
counters, `heading / pi` for the three headings and the memory value itself. -/
theorem sensory_values_scaled (s : SensoryData) (nutrition hydration integrity : Nat)
    (heading memory_item : ℚ) (hl : s.data.length = 7)
    (hn : nutrition ≤ 1000000) (hh : hydration ≤ 1000000) (hi : integrity ≤ 1000000)
    (hd : -pi ≤ heading ∧ heading ≤ pi) (hm : -1 ≤ memory_item ∧ memory_item ≤ 1) :
    let written := fun (data : List ℚ) (k : Nat) (v : ℚ) =>
      data[k]? = some v ∧ -1 ≤ v ∧ v ≤ 1
    written (s.set_hunger nutrition).data 0 (1 - 2 * (nutrition : ℚ) / 1000000) ∧
    written (s.set_thirst hydration).data 1 (1 - 2 * (hydration : ℚ) / 1000000) ∧
    written (s.set_temperature_damage integrity).data 2 (1 - 2 * (integrity : ℚ) / 1000000) ∧
    written (s.set_food_heading heading).data 3 (heading / pi) ∧
    written (s.set_water_heading heading).data 4 (heading / pi) ∧
    written (s.set_temperature_heading heading).data 5 (heading / pi) ∧
    written (s.set_memory memory_item).data 6 memory_item := by
  intro written
  have hc : ∀ n : Nat, ((1 - (n : ℚ) / 1000000) - 1 / 2) * 2 = 1 - 2 * (n : ℚ) / 1000000 := by
    intro n
    ring
  have hn2 := scaled_counter_bounds nutrition hn
  have hh2 := scaled_counter_bounds hydration hh
  have hi2 := scaled_counter_bounds integrity hi
  have hd2 := scaled_heading_bounds heading hd.1 hd.2
  rw [hc] at hn2 hh2 hi2
  refine ⟨⟨?_, hn2⟩, ⟨?_, hh2⟩, ⟨?_, hi2⟩, ⟨?_, hd2⟩, ⟨?_, hd2⟩, ⟨?_, hd2⟩, ⟨?_, hm⟩⟩
  · simp only [SensoryData.set_hunger, hc]
    rw [List.getElem?_set_self (by omega)]
  · simp only [SensoryData.set_thirst, hc]
    rw [List.getElem?_set_self (by omega)]
  · simp only [SensoryData.set_temperature_damage, hc]
    rw [List.getElem?_set_self (by omega)]
  · simp only [SensoryData.set_food_heading]
    rw [List.getElem?_set_self (by omega)]
  · simp only [SensoryData.set_water_heading]
    rw [List.getElem?_set_self (by omega)]
  · simp only [SensoryData.set_temperature_heading]
    rw [List.getElem?_set_self (by omega)]
  · simp only [SensoryData.set_memory]
    rw [List.getElem?_set_self (by omega)]

/-- C21 at the sensory vector of a new organism with the counters 250000, 500000 and
1000000, the heading 3 and the memory value −1/2: the elements written are 1/2, 0, −1,
`3 / pi` (three times) and −1/2. -/
theorem sensory_values_scaled_witness :
    (SensoryData.new.data.length = 7 ∧ -pi ≤ (3 : ℚ) ∧ (3 : ℚ) ≤ pi) ∧
    ((SensoryData.new.set_hunger 250000).data[0]? = some (1 - 2 * ((250000 : Nat) : ℚ) / 1000000) ∧
      -1 ≤ 1 - 2 * ((250000 : Nat) : ℚ) / 1000000 ∧
      1 - 2 * ((250000 : Nat) : ℚ) / 1000000 ≤ 1) ∧
    (SensoryData.new.set_hunger 250000).data = [1 / 2, 0, 0, 0, 0, 0, 0] :=
  ⟨⟨by decide, by decide!, by decide!⟩,
   (sensory_values_scaled SensoryData.new 250000 500000 1000000 3 (-1 / 2) (by decide)
      (by decide) (by decide) (by decide) ⟨by decide!, by decide!⟩
      ⟨by decide!, by decide!⟩).1,
   by decide!⟩

/-! ### Wrap at the right edge -/

/-- C23 at a failing input: in the 300 x 300 area the living `edge_organism` at
`(W − 1, H / 2) = (299, 150)` with velocity `(2, 0)` is at `(2, 150)` after `move`, not at
`(1, 150)`. -/
theorem move_right_edge_counterexample :
    edge_organism.exists_ = true ∧
    (edge_organism.area.get_size.x = 300 ∧ edge_organism.area.get_size.y = 300) ∧
    edge_organism.position = ⟨300 - 1, 300 / 2⟩ ∧
    edge_organism.velocity = ⟨2, 0⟩ ∧
    edge_organism.move.position = ⟨2, 150⟩ ∧
    edge_organism.move.position ≠ ⟨1, 300 / 2⟩ := by
  decide!

/-- C23, amended: a living organism at `(W − 1, H / 2)` with velocity `(2, 0)` in a
`W × H` world (`H ≥ 1`) is at `(2, H / 2)` after one call of `move`: the coordinate
`W + 1` lies above `bounds_max = W − 1` and is reduced by `W − 1`. -/
theorem move_right_edge (o : Organism) (he : o.exists_ = true)
    (hH : 1 ≤ o.area.get_size.y)
    (hp : o.position = ⟨(o.area.get_size.x : ℚ) - 1, (o.area.get_size.y : ℚ) / 2⟩)
    (hv : o.velocity = ⟨2, 0⟩) :
    o.move.position = ⟨2, (o.area.get_size.y : ℚ) / 2⟩ := by
  have he2 : o.get_exists = true := he
  have hH2 : (1 : ℚ) ≤ (o.area.get_size.y : ℚ) := by exact_mod_cast hH
  unfold Organism.move
  simp only [he2, Bool.not_true, Bool.false_eq_true, if_false]
  unfold SimulationObject.update_position_wrap
  simp only [he, Bool.not_true, Bool.false_eq_true, if_false, hp, hv]
  have hx : (o.area.get_size.x : ℚ) - 1 + 2 > (o.area.get_size.x : ℚ) - 1 := by linarith
  rw [if_pos hx]
  congr 1
  · ring
  · split_ifs with h1 h2
    · have hle : (o.area.get_size.y : ℚ) < 2 := by linarith
      have hlt : o.area.get_size.y < 2 := by exact_mod_cast hle
      have heq : o.area.get_size.y = 1 := by omega
      rw [heq]
      norm_num
    · linarith
    · ring

/-- C23 at `edge_organism`: from `(299, 150)` with velocity `(2, 0)`, `move` leads to
`(2, 150)`. -/
theorem move_right_edge_witness :
    (edge_organism.exists_ = true ∧ edge_organism.velocity = ⟨2, 0⟩) ∧
    edge_organism.move.position = ⟨2, ((edge_organism.area.get_size.y : Nat) : ℚ) / 2⟩ :=
  ⟨⟨by decide!, by decide!⟩,
   move_right_edge edge_organism (by decide!) (by decide!) (by decide!) (by decide!)⟩

/-! ### Forced collision of two organisms -/

/-- An organism of positive size has every organism at its own position in range
(`check_in_range(other, true)`). -/
theorem check_in_range_same_position (self other : Organism)
    (hpos : self.position = other.position) (hsize : 0 < self.size) :
    self.check_in_range other.toSimulationObject true = true := by
  have h : (0 : ℚ) < self.size * self.size := mul_pos hsize hsize
  simp [Organism.check_in_range, SimulationObject.get_position, SimulationObject.get_size,
    hpos, h]

/-- C24 at failing inputs: two living organisms at the same position with size 8,
fitness 0.5 each and a clear collision record. With `other.age = 250` and the draw 0 no
transfer takes place; with `other.age = 300` and the draw exactly 0.05 no transfer takes
place either. -/
theorem interact_transfer_scenario_counterexample :
    (half_fit_organism.exists_ = true ∧ boundary_neighbour.exists_ = true ∧
      half_fit_organism.position = boundary_neighbour.position ∧ 0 < half_fit_organism.size ∧
      half_fit_organism.fitness = 1 / 2 ∧ boundary_neighbour.fitness = 1 / 2 ∧
      half_fit_organism.collisions.getD boundary_neighbour.index 0 = 0) ∧
    (boundary_neighbour.age ≥ 250 ∧ (uniform_real 0 1 ⟨fun _ => 0, 0⟩).1 ≤ 0.05 ∧
      (half_fit_organism.interact_with boundary_neighbour ⟨fun _ => 0, 0⟩).1.genes_transferred
        = false ∧
      (half_fit_organism.interact_with boundary_neighbour ⟨fun _ => 0, 0⟩).1.genotype
        = half_fit_organism.genotype) ∧
    (half_fit_neighbour.age ≥ 250 ∧ (uniform_real 0 1 ⟨fun _ => 1 / 20, 0⟩).1 ≤ 0.05 ∧
      (half_fit_organism.interact_with half_fit_neighbour
        ⟨fun _ => 1 / 20, 0⟩).1.genes_transferred = false ∧
      (half_fit_organism.interact_with half_fit_neighbour ⟨fun _ => 1 / 20, 0⟩).1.genotype
        = half_fit_organism.genotype) := by
  decide!

/-- C24, amended: for two living organisms at identical positions with positive size,
`self.fitness = other.fitness = 0.5`, `collisions[other.index]` clear and
`other.age > 250`, the chance of transfer is 0.05; whenever the uniform draw is below 0.05
the call performs the gene transfer (donor weighting 0.1) once, sets `genes_transferred`
to true and `transfer_effect_time` to 0 on the acting organism and records the collision,
and `other` is unchanged; whenever the draw is not below 0.05 only the collision is
recorded. -/
theorem interact_transfer_scenario (self other : Organism) (rng : Rng)
    (hs : self.exists_ = true) (ho : other.exists_ = true)
    (hpos : self.position = other.position) (hsize : 0 < self.size)
    (hf1 : self.fitness = 1 / 2) (hf2 : other.fitness = 1 / 2)
    (hcol : self.collisions.getD other.index 0 = 0) (hage : other.age > 250) :
    (0.35 * self.fitness + 0.65 * other.fitness) / 10 = 0.05 ∧
    ((uniform_real 0 1 rng).1 < 0.05 →
      self.interact_with other rng =
        ({ self with
            genotype := (self.genotype.transfer_from other.genotype 0.1).1,
            genes_transferred := true, transfer_effect_time := 0,
            collisions := self.collisions.set other.index 1 },
         other, (uniform_real 0 1 rng).2)) ∧
    (¬ (uniform_real 0 1 rng).1 < 0.05 →
      self.interact_with other rng =
        ({ self with collisions := self.collisions.set other.index 1 },
         other, (uniform_real 0 1 rng).2)) := by
  have hr := check_in_range_same_position self other hpos hsize
  have hchance : (0.35 * self.fitness + 0.65 * other.fitness) / 10 = (0.05 : ℚ) := by
    rw [hf1, hf2]
    norm_num
  have hw : ((other.fitness - self.fitness) / 2 + 0.5) / 5 = (0.1 : ℚ) := by
    rw [hf1, hf2]
    norm_num
  have hu := interact_with_alive self other rng hs ho
  rw [if_pos ⟨hr, hcol, hage⟩, hchance, hw] at hu
  refine ⟨hchance, ?_, ?_⟩
  · intro hd
    rw [hu, if_pos hd]
  · intro hd
    rw [hu, if_neg hd]

/-- C24 at `half_fit_organism` meeting `half_fit_neighbour` (age 300) with the draw 0:
the transfer takes place and the flag is set on the acting organism. -/
theorem interact_transfer_scenario_witness :
    (half_fit_organism.exists_ = true ∧ half_fit_neighbour.exists_ = true ∧
      half_fit_neighbour.age > 250) ∧
    (half_fit_organism.interact_with half_fit_neighbour ⟨fun _ => 0, 0⟩).1.genes_transferred
      = true ∧
    (half_fit_organism.interact_with half_fit_neighbour ⟨fun _ => 0, 0⟩).2.1
      = half_fit_neighbour :=
  ⟨⟨by decide!, by decide!, by decide!⟩,
   congrArg (fun r => r.1.genes_transferred)
     ((interact_transfer_scenario half_fit_organism half_fit_neighbour ⟨fun _ => 0, 0⟩
        (by decide!) (by decide!) (by decide!) (by decide!) (by decide!) (by decide!)
        (by decide!) (by decide!)).2.1 (by decide!)),
   congrArg (fun r => r.2.1)
     ((interact_transfer_scenario half_fit_organism half_fit_neighbour ⟨fun _ => 0, 0⟩
        (by decide!) (by decide!) (by decide!) (by decide!) (by decide!) (by decide!)
        (by decide!) (by decide!)).2.1 (by decide!))⟩

/-! ### Index ranges of the simulation workers -/

/-- Membership in the indices of a `for` loop. -/
theorem mem_index_loop (start end_ j : Nat) :
    j ∈ index_loop start end_ ↔ start ≤ j ∧ j < end_ := by
  unfold index_loop
  rw [List.mem_range'_1]
  omega

/-- Within the `unsigned` range the indices of worker `i` are those from `i * k` up to
`min ((i + 1) * k) S`, where `k = S / N + 1`. -/
theorem mem_worker_indices (S N i j : Nat) (hN : 1 ≤ N) (hb : S + N < 4294967296)
    (hi : i < N) :
    j ∈ Simulation.worker_indices S N i ↔
      i * (S / N + 1) ≤ j ∧ j < (i + 1) * (S / N + 1) ∧ j < S := by
  have hq : N * (S / N) ≤ S := Nat.mul_div_le S N
  have hNk : N * (S / N + 1) ≤ S + N := by
    rw [Nat.mul_add, Nat.mul_one]
    omega
  have h1 : (i + 1) * (S / N + 1) ≤ N * (S / N + 1) := Nat.mul_le_mul_right _ hi
  have h0 : i * (S / N + 1) ≤ (i + 1) * (S / N + 1) := Nat.mul_le_mul_right _ (Nat.le_succ i)
  have hk : S / N + 1 < 4294967296 := by
    have : S / N ≤ S := Nat.div_le_self S N
    exact lt_of_le_of_lt (Nat.succ_le_succ this) (by omega)
  have hlt1 : (i + 1) * (S / N + 1) < 4294967296 := lt_of_le_of_lt (h1.trans hNk) hb
  have hlt0 : i * (S / N + 1) < 4294967296 := lt_of_le_of_lt h0 hlt1
  have e1 : Simulation.items_per_thread S N = S / N + 1 := Nat.mod_eq_of_lt hk
  have e2 : Simulation.range_start i (S / N + 1) = i * (S / N + 1) := Nat.mod_eq_of_lt hlt0
  have e3 : Simulation.range_end i (S / N + 1) = (i + 1) * (S / N + 1) :=
    Nat.mod_eq_of_lt hlt1
  unfold Simulation.worker_indices
  simp only [e1, e2, e3, mem_index_loop]
  omega

/-- C26: for a worker count `N ≥ 1` and a pool size `S` (with `S + N` within the
`unsigned` range, as for every admitted configuration), with the chunk `S / N + 1` every
index of `[0, S)` is visited by exactly one worker `i < N`, every index a worker visits
lies in `[0, S)`, and no worker visits an index twice: the ranges
`[i·k, min((i + 1)·k, S))` are pairwise disjoint and cover `[0, S)`. -/
theorem worker_ranges_partition (S N : Nat) (hN : 1 ≤ N) (hb : S + N < 4294967296) :
    (∀ j, j < S → ∃ i, i < N ∧ j ∈ Simulation.worker_indices S N i ∧
      ∀ i2, i2 < N → j ∈ Simulation.worker_indices S N i2 → i2 = i) ∧
    (∀ i j, i < N → j ∈ Simulation.worker_indices S N i → j < S) ∧
    (∀ i, i < N → (Simulation.worker_indices S N i).Nodup) := by
  have hk : 0 < S / N + 1 := Nat.succ_pos _
  have hS : S < N * (S / N + 1) := Nat.lt_mul_div_succ S hN
  refine ⟨?_, ?_, ?_⟩
  · intro j hj
    have hi : j / (S / N + 1) < N := by
      apply Nat.div_lt_of_lt_mul
      rw [Nat.mul_comm]
      omega
    refine ⟨j / (S / N + 1), hi, ?_, ?_⟩
    · rw [mem_worker_indices S N _ j hN hb hi]
      refine ⟨Nat.div_mul_le_self j _, ?_, hj⟩
      have := Nat.lt_mul_div_succ j hk
      rw [Nat.mul_comm] at this
      exact this
    · intro i2 hi2 hmem
      rw [mem_worker_indices S N i2 j hN hb hi2] at hmem
      symm
      apply Nat.div_eq_of_lt_le
      · exact hmem.1
      · exact hmem.2.1
  · intro i j hi hmem
    rw [mem_worker_indices S N i j hN hb hi] at hmem
    exact hmem.2.2
  · intro i _
    unfold Simulation.worker_indices index_loop
    exact List.nodup_range' _ _

/-- C26 for 10 items and 4 workers: the chunk is 3, the workers visit `[0, 1, 2]`,
`[3, 4, 5]`, `[6, 7, 8]` and `[9]`, and index 9 belongs to exactly one worker. -/
theorem worker_ranges_partition_witness :
    (1 ≤ 4 ∧ 10 + 4 < 4294967296) ∧
    (List.range 4).map (Simulation.worker_indices 10 4) = [[0, 1, 2], [3, 4, 5], [6, 7, 8], [9]] ∧
    ∃ i, i < 4 ∧ 9 ∈ Simulation.worker_indices 10 4 i ∧
      ∀ i2, i2 < 4 → 9 ∈ Simulation.worker_indices 10 4 i2 → i2 = i :=
  ⟨⟨by decide, by decide⟩, by decide,
   (worker_ranges_partition 10 4 (by decide) (by decide)).1 9 (by decide)⟩

/-! ### Timestep ranges of the precomputation workers -/

/-- The workers of `precompute_temperatures_cpu` receive the ranges `Planet.worker_range`. -/
theorem precompute_temperatures_cpu_ranges {α : Type} [FloatOps α] (p : Planet α)
    (worker_threads : Nat) (config : Config) :
    (p.precompute_temperatures_cpu worker_threads config).temperatures =
      (List.range worker_threads).foldl
        (fun temperatures i =>
          precompute_temperatures_for_timestep_range_cpu temperatures
            (Planet.worker_range p.timesteps worker_threads i).1
            (Planet.worker_range p.timesteps worker_threads i).2 config)
        p.temperatures :=
  rfl

/-- Where `N * (N − 1) ≤ T` (for the admitted periods: up to 32 workers) the range of
every worker `i < N` starts at or before its capped end. -/
theorem worker_range_ordered (T N i : Nat) (hi : i < N) (hNT : N * (N - 1) ≤ T)
    (hb : T + N < 4294967296) :
    (Planet.worker_range T N i).1 ≤ min (Planet.worker_range T N i).2 T := by
  have hN : 0 < N := by omega
  have hq : N - 1 ≤ T / N := by
    rw [Nat.le_div_iff_mul_le hN, Nat.mul_comm]
    exact hNT
  have hNq : N * (T / N) ≤ T := Nat.mul_div_le T N
  have hNk : N * (T / N + 1) ≤ T + N := by
    rw [Nat.mul_add, Nat.mul_one]
    omega
  have h1 : (i + 1) * (T / N + 1) ≤ N * (T / N + 1) := Nat.mul_le_mul_right _ hi
  have h0 : i * (T / N + 1) ≤ (i + 1) * (T / N + 1) := Nat.mul_le_mul_right _ (Nat.le_succ i)
  have hi2 : i * (T / N + 1) ≤ (N - 1) * (T / N + 1) := Nat.mul_le_mul_right _ (by omega)
  have hlast : (N - 1) * (T / N + 1) ≤ T := by
    have e : (N - 1 + 1) * (T / N + 1) = (N - 1) * (T / N + 1) + (T / N + 1) :=
      Nat.succ_mul _ _
    have hN1 : N - 1 + 1 = N := by omega
    rw [hN1] at e
    omega
  have hk : T / N + 1 < 4294967296 := by
    have : T / N ≤ T := Nat.div_le_self T N
    exact lt_of_le_of_lt (Nat.succ_le_succ this) (by omega)
  have hlt1 : (i + 1) * (T / N + 1) < 4294967296 := lt_of_le_of_lt (h1.trans hNk) hb
  have hlt0 : i * (T / N + 1) < 4294967296 := lt_of_le_of_lt h0 hlt1
  have e1 : u32 (T / N + 1) = T / N + 1 := Nat.mod_eq_of_lt hk
  have e2 : u32 (i * (T / N + 1)) = i * (T / N + 1) := Nat.mod_eq_of_lt hlt0
  have e3 : u32 ((i + 1) * (T / N + 1)) = (i + 1) * (T / N + 1) := Nat.mod_eq_of_lt hlt1
  simp only [Planet.worker_range, e1, e2, e3]
  exact le_min h0 (hi2.trans hlast)

/-- C29 at a failing input: for the orbital period 1000 and 256 worker threads (both
admitted) `timesteps_per_thread` is 4 and worker 251 receives `start_t = 1004` and
`end_t = 1008`, capped to 1000: the start lies beyond the end, and the `unsigned` length
`end_t − start_t` of the buffer `equatorial_black_body_temperatures` wraps around to
4294967292. -/
theorem worker_range_inverted :
    many_threads_config.orbital_period = 1000 ∧
    many_threads_config.precompute_temperatures_cpu_threads = 256 ∧
    Planet.worker_range 1000 256 251 = (1004, 1008) ∧
    min (Planet.worker_range 1000 256 251).2 many_threads_config.orbital_period = 1000 ∧
    ¬ ((Planet.worker_range 1000 256 251).1
        ≤ min (Planet.worker_range 1000 256 251).2 many_threads_config.orbital_period) ∧
    (@equatorial_buffer ℚ sampleOps many_threads_config 1004 1000).length = 4294967292 := by
  refine ⟨rfl, rfl, by decide, by decide, by decide, ?_⟩
  have h : timestep_loop 1004 1000 = [] := by decide
  unfold equatorial_buffer
  rw [h, List.foldl_nil, List.length_replicate]
  decide

/-! ### Bounds of the position distributions -/

/-- The item that `reset_item` initialises is placed by `dist_x` and `dist_y` with the
bounds `dist_x_bounds` and `dist_y_bounds`. -/
theorem reset_item_bounds (p : ConsumableResourcePool) (i : Nat) (rng : Rng) :
    (p.reset_item i rng).1.pool =
      update_at p.pool i (fun c =>
        c.init (toUnsigned (uniform_int 10000 (p.max_val : Int) rng).1) p.max_val
          ⟨((uniform_int p.dist_x_bounds.1 p.dist_x_bounds.2
              (uniform_int 10000 (p.max_val : Int) rng).2).1 : ℚ),
           ((uniform_int p.dist_y_bounds.1 p.dist_y_bounds.2
              (uniform_int p.dist_x_bounds.1 p.dist_x_bounds.2
                (uniform_int 10000 (p.max_val : Int) rng).2).2).1 : ℚ)⟩) :=
  rfl

/-- Where `0 ≤ margin ≤ (area − 1) / 2` the bounds of both distributions are ordered. -/
theorem dist_bounds_ordered (p : ConsumableResourcePool) (h0 : 0 ≤ p.margin)
    (hx : p.margin ≤ ((p.area.get_size.x : ℚ) - 1) / 2)
    (hy : p.margin ≤ ((p.area.get_size.y : ℚ) - 1) / 2) :
    p.dist_x_bounds.1 ≤ p.dist_x_bounds.2 ∧ p.dist_y_bounds.1 ≤ p.dist_y_bounds.2 := by
  have key : ∀ a : ℚ, p.margin ≤ (a - 1) / 2 →
      truncToInt p.margin ≤ truncToInt (a - p.margin - 1) := by
    intro a ha
    have h1 : p.margin ≤ a - p.margin - 1 := by linarith
    rw [truncToInt_of_nonneg h0, truncToInt_of_nonneg (le_trans h0 h1)]
    exact Int.floor_le_floor h1
  exact ⟨key _ hx, key _ hy⟩

/-- C30 at a failing input: for the area width and height 300 and the position margin 150
(both admitted) the bounds given to `dist_x` and `dist_y` are `(150, 149)`: the lower bound
lies above the upper bound, `margin ≤ area − margin − 1` fails and the range is empty. -/
theorem dist_bounds_inverted :
    wide_margin_pool.area.get_size = ⟨300, 300⟩ ∧ wide_margin_pool.margin = 150 ∧
    wide_margin_pool.dist_x_bounds = (150, 149) ∧
    wide_margin_pool.dist_y_bounds = (150, 149) ∧
    ¬ (wide_margin_pool.margin
        ≤ (wide_margin_pool.area.get_size.x : ℚ) - wide_margin_pool.margin - 1) ∧
    ¬ (wide_margin_pool.dist_x_bounds.1 ≤ wide_margin_pool.dist_x_bounds.2) := by
  decide!

/-! ### Indices and collision vectors -/

theorem pool_indexed_set {pool : List Organism} {size i : Nat} {o x : Organism}
    (h : pool_indexed pool size) (ho : pool[i]? = some o)
    (hx : x.index = o.index ∧ x.collisions.length = o.collisions.length) :
    pool_indexed (pool.set i x) size := by
  unfold pool_indexed
  intro j o2 hj
  by_cases hji : j = i
  · subst hji
    have hlt : j < pool.length := by
      rcases Nat.lt_or_ge j pool.length with h1 | h1
      · exact h1
      · rw [List.getElem?_eq_none h1] at ho
        cases ho
    rw [List.getElem?_set_self hlt] at hj
    cases hj
    rw [hx.1, hx.2]
    exact h j o ho
  · rw [List.getElem?_set_ne (Ne.symm hji)] at hj
    exact h j o2 hj

theorem pool_indexed_update_at {pool : List Organism} {size : Nat} (i : Nat)
    (f : Organism → Organism) (h : pool_indexed pool size)
    (hf : ∀ o, (f o).index = o.index ∧ (f o).collisions.length = o.collisions.length) :
    pool_indexed (update_at pool i f) size := by
  unfold update_at
  split
  · next item hitem => exact pool_indexed_set h hitem (hf item)
  · exact h

theorem pool_indexed_append {pool : List Organism} {size : Nat} {x : Organism}
    (h : pool_indexed pool size) (hx : x.index = pool.length ∧ x.collisions.length = size) :
    pool_indexed (pool ++ [x]) size := by
  unfold pool_indexed
  intro j o hj
  rcases Nat.lt_trichotomy j pool.length with hlt | heq | hgt
  · rw [List.getElem?_append_left hlt] at hj
    exact h j o hj
  · subst heq
    have : (pool ++ [x])[pool.length]? = some x := by simp
    rw [this] at hj
    cases hj
    exact hx
  · rw [List.getElem?_eq_none (by simp; omega)] at hj
    cases hj

/-- `init` keeps the index and the length of the collision vector. -/
theorem init_index (o : Organism) (pos : Vector2f) (config : Config) (rng : Rng) :
    (o.init pos config rng).1.index = o.index ∧
    (o.init pos config rng).1.collisions.length = o.collisions.length := by
  simp [Organism.init, Organism.reset]

/-- The one-parent `init_from` keeps the index and the length of the collision vector. -/
theorem init_from_index (c parent : Organism) (config : Config) (rng : Rng) :
    (c.init_from parent config rng).1.index = c.index ∧
    (c.init_from parent config rng).1.collisions.length = c.collisions.length := by
  simp [Organism.init_from, Organism.reset]

/-- `update_fitness` keeps the index and the collision vector. -/
theorem update_fitness_index (o : Organism) :
    (o.update_fitness).2.index = o.index ∧
    (o.update_fitness).2.collisions.length = o.collisions.length := by
  unfold Organism.update_fitness
  split
  · exact ⟨rfl, rfl⟩
  · dsimp only
    split <;> exact ⟨rfl, rfl⟩

/-- `interact_with` keeps the index and the length of the collision vector of the acting
organism and leaves the other organism as it is. -/
theorem interact_with_index (self other : Organism) (rng : Rng) :
    (self.interact_with other rng).1.index = self.index ∧
    (self.interact_with other rng).1.collisions.length = self.collisions.length ∧
    (self.interact_with other rng).2.1 = other := by
  unfold Organism.interact_with
  split
  · exact ⟨rfl, rfl, rfl⟩
  · split
    · exact ⟨rfl, by simp, rfl⟩
    · dsimp only
      split
      · split
        · exact ⟨rfl, by simp, rfl⟩
        · exact ⟨rfl, by simp, rfl⟩
      · exact ⟨rfl, by simp, rfl⟩

theorem init_random_loop_indexed (n : Nat) (lo_x hi_x lo_y hi_y : ℚ) (m k : Nat)
    (p : Population) (rng : Rng) (hlen : p.pool.length = k)
    (h : pool_indexed p.pool p.config.population_size) :
    pool_indexed
      (Population.init_random_loop n lo_x hi_x lo_y hi_y (List.range' k m) (p, rng)).1.pool
      p.config.population_size := by
  induction m generalizing k p rng with
  | zero => exact h
  | succ m ih =>
    rw [List.range'_succ, Population.init_random_loop]
    dsimp only
    have hget : (p.pool ++ [Organism.new k p.area p.config])[k]?
        = some (Organism.new k p.area p.config) := by
      rw [← hlen]; simp
    have hnew : (Organism.new k p.area p.config).index = p.pool.length ∧
        (Organism.new k p.area p.config).collisions.length = p.config.population_size := by
      refine ⟨hlen.symm, ?_⟩
      simp [Organism.new]
    split
    · simp only [SimulationObjectPool.add_item, hget]
      have hset : (p.pool ++ [Organism.new k p.area p.config]).set k
          ((Organism.new k p.area p.config).init
            ⟨(uniform_real lo_x hi_x rng).1, (uniform_real lo_y hi_y (uniform_real lo_x hi_x rng).2).1⟩
            p.config (uniform_real lo_y hi_y (uniform_real lo_x hi_x rng).2).2).1
          = p.pool ++ [((Organism.new k p.area p.config).init
            ⟨(uniform_real lo_x hi_x rng).1, (uniform_real lo_y hi_y (uniform_real lo_x hi_x rng).2).1⟩
            p.config (uniform_real lo_y hi_y (uniform_real lo_x hi_x rng).2).2).1] := by
        rw [← hlen]; simp
      rw [hset]
      exact ih (k + 1)
        { p with pool := p.pool ++ [((Organism.new k p.area p.config).init
            ⟨(uniform_real lo_x hi_x rng).1, (uniform_real lo_y hi_y (uniform_real lo_x hi_x rng).2).1⟩
            p.config (uniform_real lo_y hi_y (uniform_real lo_x hi_x rng).2).2).1] }
        ((Organism.new k p.area p.config).init
            ⟨(uniform_real lo_x hi_x rng).1, (uniform_real lo_y hi_y (uniform_real lo_x hi_x rng).2).1⟩
            p.config (uniform_real lo_y hi_y (uniform_real lo_x hi_x rng).2).2).2
        (by simp [hlen])
        (pool_indexed_append h
          ⟨(init_index _ _ _ _).1.trans hnew.1, (init_index _ _ _ _).2.trans hnew.2⟩)
    · exact ih (k + 1)
        { p with pool := p.pool ++ [Organism.new k p.area p.config],
                 available_slots := ⟨p.available_slots.q ++ [k]⟩ }
        rng (by simp [hlen]) (pool_indexed_append h hnew)

theorem replicate_callback_length (config : Config) (i slot : Nat) (pool : List Organism)
    (rng : Rng) :
    (Population.replicate_callback config i slot (pool, rng)).1.length = pool.length := by
  simp only [Population.replicate_callback]
  split
  · rw [update_at_length, update_at_length, List.length_set]
  · rfl

theorem replicate_callback_indexed (config : Config) (i slot size : Nat)
    (pool : List Organism) (rng : Rng) (h : pool_indexed pool size) :
    pool_indexed (Population.replicate_callback config i slot (pool, rng)).1 size := by
  simp only [Population.replicate_callback]
  split
  · next child parent hchild hparent =>
    apply pool_indexed_update_at
    · apply pool_indexed_update_at
      · exact pool_indexed_set h hchild (init_from_index child parent config rng)
      · intro o
        exact ⟨rfl, by simp [Organism.set_collision]⟩
    · intro o
      exact ⟨rfl, by simp [Organism.set_collision]⟩
  · exact h

theorem replicate_loop_indexed (l : List Nat) (p : Population) (rng : Rng)
    (h : p.slots_indexed) :
    (Population.replicate_loop l (p, rng)).1.slots_indexed := by
  induction l generalizing p rng with
  | nil => exact h
  | cons i rest ih =>
    rw [Population.replicate_loop]
    split
    · exact ih p rng h
    · next o ho =>
      split
      · have key : ∀ (r : Rng),
            (Population.mk (p.toSimulationObjectPool.get_available_slot r
              (Population.replicate_callback p.config i)).2.1 p.area p.config).slots_indexed := by
          intro r
          unfold SimulationObjectPool.get_available_slot ConcurrentQueue.safe_pop
          cases hq : p.available_slots.q with
          | nil =>
            simp only
            exact h
          | cons slot q2 =>
            simp only
            refine ⟨?_, h.2.1, ?_⟩
            · show _ = p.max_size
              rw [replicate_callback_length]
              exact h.1
            · exact replicate_callback_indexed p.config i slot p.max_size p.pool r h.2.2
        dsimp only
        split_ifs <;> first | exact key _ | exact ih _ _ (key _) | exact ih p _ h
      · exact ih p rng h

theorem update_fitness_loop_indexed (l : List Nat) (p : Population) (h : p.slots_indexed) :
    (Population.update_fitness_loop l p).slots_indexed := by
  induction l generalizing p with
  | nil => exact h
  | cons i rest ih =>
    rw [Population.update_fitness_loop]
    split
    · exact ih p h
    · next o ho =>
      have hset : pool_indexed (p.pool.set i (o.update_fitness).2) p.max_size :=
        pool_indexed_set h.2.2 ho (update_fitness_index o)
      have hlen : (p.pool.set i (o.update_fitness).2).length = p.max_size := by
        rw [List.length_set]
        exact h.1
      split
      · dsimp only
        split
        · exact ih _ ⟨hlen, h.2.1, hset⟩
        · exact ih _ ⟨hlen, h.2.1, hset⟩
      · exact ih p h

theorem init_random_loop_config (n : Nat) (lo_x hi_x lo_y hi_y : ℚ) (l : List Nat)
    (p : Population) (rng : Rng) :
    (Population.init_random_loop n lo_x hi_x lo_y hi_y l (p, rng)).1.config = p.config := by
  induction l generalizing p rng with
  | nil => rfl
  | cons i rest ih =>
    rw [Population.init_random_loop]
    dsimp only
    split
    · split
      · rw [ih]
      · rw [ih]
    · rw [ih]

/-- After `init_random` on a newly constructed population every slot holds an organism
with the index of the slot and a collision vector of `population_size` entries. -/
theorem init_random_indexed (area : SimulationArea) (config : Config) (n : Nat) (rng : Rng) :
    ((Population.new area config).init_random n rng).1.slots_indexed := by
  unfold Population.init_random
  have hinit : (Population.new area config).get_initialized = false := rfl
  simp only [hinit, Bool.false_eq_true, if_false]
  rw [List.range_eq_range']
  have h := init_random_loop_exact
    (min (Population.new area config).get_max_size n)
    (Population.new area config).config.population_pos_margin
    ((((Population.new area config).area.get_size).x : ℚ)
      - (Population.new area config).config.population_pos_margin - 1)
    (Population.new area config).config.population_pos_margin
    ((((Population.new area config).area.get_size).y : ℚ)
      - (Population.new area config).config.population_pos_margin - 1)
    (Population.new area config).get_max_size 0 (Population.new area config) rng rfl
    ⟨List.nodup_nil, fun i => by simp [Population.new, SimulationObjectPool.new]⟩
  have h2 := init_random_loop_indexed
    (min (Population.new area config).get_max_size n)
    (Population.new area config).config.population_pos_margin
    ((((Population.new area config).area.get_size).x : ℚ)
      - (Population.new area config).config.population_pos_margin - 1)
    (Population.new area config).config.population_pos_margin
    ((((Population.new area config).area.get_size).y : ℚ)
      - (Population.new area config).config.population_pos_margin - 1)
    (Population.new area config).get_max_size 0 (Population.new area config) rng rfl
    (by
      unfold pool_indexed
      intro i o ho
      simp [Population.new, SimulationObjectPool.new] at ho)
  have h3 := init_random_loop_config
    (min (Population.new area config).get_max_size n)
    (Population.new area config).config.population_pos_margin
    ((((Population.new area config).area.get_size).x : ℚ)
      - (Population.new area config).config.population_pos_margin - 1)
    (Population.new area config).config.population_pos_margin
    ((((Population.new area config).area.get_size).y : ℚ)
      - (Population.new area config).config.population_pos_margin - 1)
    (List.range' 0 (Population.new area config).get_max_size) (Population.new area config) rng
  have hm : (Population.new area config).max_size = config.population_size := rfl
  have hc : (Population.new area config).config = config := rfl
  refine ⟨?_, ?_, ?_⟩
  · show _ = _
    rw [SimulationObjectPool.set_initialized]
    simp only
    rw [h.1, h.2.2]
    simp [SimulationObjectPool.get_max_size]
  · show _ = _
    rw [SimulationObjectPool.set_initialized]
    simp only
    rw [h.2.2, h3]
    rfl
  · show pool_indexed _ _
    rw [SimulationObjectPool.set_initialized]
    simp only
    rw [h.2.2, hm]
    rw [hc] at h2
    exact h2

/-- C27: after `init_random` on a newly constructed population the pool holds
`max_size = population_size` organisms and the organism in slot `i` has index `i` and a
collision vector of `population_size` entries. In every population with this property, for
every pair of slots `(i, j)` the accesses `collisions[other.index]` of `interact_with` and
`collisions[slot]` of `set_collision` are within the collision vector. The property is
kept by `interact_with`, by `replicate` and by `update_fitness`. -/
theorem init_random_slots_indexed :
    (∀ (area : SimulationArea) (config : Config) (n : Nat) (rng : Rng),
      ((Population.new area config).init_random n rng).1.slots_indexed ∧
      ((Population.new area config).init_random n rng).1.max_size = config.population_size ∧
      ∀ i, i < config.population_size →
        ∃ o, ((Population.new area config).init_random n rng).1.pool[i]? = some o ∧
          o.index = i ∧ o.collisions.length = config.population_size) ∧
    (∀ (p : Population), p.slots_indexed →
      ∀ (i j : Nat) (self other : Organism), p.pool[i]? = some self → p.pool[j]? = some other →
        other.index = j ∧ other.index < self.collisions.length ∧
        (∀ slot, slot < p.max_size → slot < self.collisions.length)) ∧
    (∀ (self other : Organism) (rng : Rng),
      (self.interact_with other rng).1.index = self.index ∧
      (self.interact_with other rng).1.collisions.length = self.collisions.length ∧
      (self.interact_with other rng).2.1 = other) ∧
    (∀ (p : Population) (start end_ : Nat) (rng : Rng), p.slots_indexed →
      (p.replicate start end_ rng).1.slots_indexed) ∧
    (∀ (p : Population) (start end_ : Nat), p.slots_indexed →
      (p.update_fitness start end_).slots_indexed) := by
  refine ⟨?_, ?_, interact_with_index, ?_, ?_⟩
  · intro area config n rng
    have h := init_random_indexed area config n rng
    have hm : ((Population.new area config).init_random n rng).1.max_size
        = config.population_size := by
      have h3 : ((Population.new area config).init_random n rng).1.config = config := by
        unfold Population.init_random
        have hinit : (Population.new area config).get_initialized = false := rfl
        simp only [hinit, Bool.false_eq_true, if_false]
        exact init_random_loop_config _ _ _ _ _ _ _ _
      rw [h.2.1, h3]
    refine ⟨h, hm, ?_⟩
    intro i hi
    have hlt : i < ((Population.new area config).init_random n rng).1.pool.length := by
      rw [h.1, hm]
      exact hi
    refine ⟨_, List.getElem?_eq_getElem hlt, ?_⟩
    have := h.2.2 i _ (List.getElem?_eq_getElem hlt)
    rw [hm] at this
    exact this
  · intro p h i j self other hs ho
    have h1 := h.2.2 i self hs
    have h2 := h.2.2 j other ho
    have hj : j < p.pool.length := by
      rcases Nat.lt_or_ge j p.pool.length with hlt | hge
      · exact hlt
      · rw [List.getElem?_eq_none hge] at ho
        cases ho
    refine ⟨h2.1, ?_, ?_⟩
    · rw [h2.1, h1.2, ← h.1]
      exact hj
    · intro slot hslot
      rw [h1.2]
      exact hslot
  · intro p start end_ rng h
    unfold Population.replicate
    split
    · exact h
    · exact replicate_loop_indexed _ p rng h
  · intro p start end_ h
    unfold Population.update_fitness
    split
    · exact h
    · exact update_fitness_loop_indexed _ p h

/-! ### Starvation of a single organism -/

/-- `pow2` is the power of two with an integer exponent. -/
theorem pow2_eq_zpow (e : Int) : pow2 e = (2 : ℚ) ^ e := by
  unfold pow2
  split
  · next h =>
    have h2 : (e.toNat : Int) = e := Int.toNat_of_nonneg h
    conv_rhs => rw [← h2]
    rw [zpow_natCast]
    push_cast
    rfl
  · next h =>
    have h1 : (0 : Int) ≤ -e := by omega
    have h2 : ((-e).toNat : Int) = -e := Int.toNat_of_nonneg h1
    have h3 : e = -((-e).toNat : Int) := by omega
    conv_rhs => rw [h3]
    rw [zpow_neg, zpow_natCast]
    push_cast
    rw [one_div]

/-- Powers of two are positive. -/
theorem pow2_pos (e : Int) : 0 < pow2 e := by
  rw [pow2_eq_zpow]
  positivity

/-- Powers of two add their exponents. -/
theorem pow2_add (a b : Int) : pow2 (a + b) = pow2 a * pow2 b := by
  rw [pow2_eq_zpow, pow2_eq_zpow, pow2_eq_zpow, zpow_add₀ (by norm_num)]

/-- Powers of two grow with the exponent. -/
theorem pow2_mono {a b : Int} (h : a ≤ b) : pow2 a ≤ pow2 b := by
  rw [pow2_eq_zpow, pow2_eq_zpow]
  exact zpow_le_zpow_right₀ (by norm_num) h

/-- With enough fuel `log2_fuel` is the binary logarithm rounded down. -/
theorem log2_fuel_spec (fuel : Nat) : ∀ n : Nat, 1 ≤ n → n ≤ fuel →
    2 ^ (log2_fuel fuel n) ≤ n ∧ n < 2 ^ (log2_fuel fuel n + 1) := by
  induction fuel with
  | zero =>
    intro n h1 h2
    omega
  | succ fuel ih =>
    intro n h1 h2
    rw [log2_fuel]
    split
    · next h => exact ⟨by simpa using h1, by simpa using h⟩
    · next h =>
      have h3 : 1 ≤ n / 2 := by omega
      have h4 : n / 2 ≤ fuel := by omega
      obtain ⟨i1, i2⟩ := ih (n / 2) h3 h4
      rw [pow_succ, pow_succ]
      rw [pow_succ] at i2
      constructor <;> omega

/-- The power of two of `floor_log2 q` is at most `q`. -/
theorem floor_log2_le (q : ℚ) (hq : 0 < q) : pow2 (floor_log2 q) ≤ q := by
  unfold floor_log2
  simp only
  split
  · next h => exact h
  · have hn : 0 < q.num := Rat.num_pos.mpr hq
    have hn1 : 1 ≤ q.num.natAbs := by omega
    have hd1 : 1 ≤ q.den := q.den_pos
    obtain ⟨a1, _⟩ := log2_fuel_spec q.num.natAbs q.num.natAbs hn1 (le_refl _)
    obtain ⟨_, b2⟩ := log2_fuel_spec q.den q.den hd1 (le_refl _)
    have e : ((log2_fuel q.num.natAbs q.num.natAbs : Nat) : Int) - (log2_fuel q.den q.den : Nat) - 1
        = (log2_fuel q.num.natAbs q.num.natAbs : Nat) + -(((log2_fuel q.den q.den + 1 : Nat)) : Int) := by
      push_cast
      ring
    rw [e, pow2_add, pow2_eq_zpow, pow2_eq_zpow, zpow_neg, zpow_natCast, zpow_natCast]
    have hq2 : q = (q.num.natAbs : ℚ) / (q.den : ℚ) := by
      have hz : ((q.num.natAbs : Nat) : Int) = q.num := Int.natAbs_of_nonneg (le_of_lt hn)
      have h2 : ((q.num.natAbs : Nat) : ℚ) = (q.num : ℚ) := by
        rw [← Int.cast_natCast, hz]
      rw [h2]
      exact (Rat.num_div_den q).symm
    have a1q : (2 : ℚ) ^ (log2_fuel q.num.natAbs q.num.natAbs) ≤ (q.num.natAbs : ℚ) := by
      exact_mod_cast a1
    have b2q : (q.den : ℚ) ≤ (2 : ℚ) ^ (log2_fuel q.den q.den + 1) := by
      exact_mod_cast le_of_lt b2
    have hdq : (0 : ℚ) < (q.den : ℚ) := by exact_mod_cast q.den_pos
    conv_rhs => rw [hq2]
    rw [← div_eq_mul_inv]
    exact div_le_div₀ (by positivity) a1q hdq b2q

/-- Rounding to nearest yields the floor or, above it, the floor plus one. -/
theorem round_half_even_cases (q : ℚ) :
    round_half_even q = ⌊q⌋ ∨ (round_half_even q = ⌊q⌋ + 1 ∧ (⌊q⌋ : ℚ) < q) := by
  have hf : q.num / (q.den : Int) = ⌊q⌋ := Rat.floor_def.symm
  unfold round_half_even
  simp only [hf]
  split
  · left; rfl
  · next h1 =>
    have hlt : (⌊q⌋ : ℚ) < q := by
      have : (1 : ℚ) / 2 ≤ q - ⌊q⌋ := not_lt.mp h1
      linarith
    split
    · right; exact ⟨rfl, hlt⟩
    · split
      · left; rfl
      · right; exact ⟨rfl, hlt⟩

/-- Rounding to nearest does not pass an integer above the value. -/
theorem round_half_even_le {q : ℚ} {n : Int} (h : q ≤ n) : round_half_even q ≤ n := by
  have hfl : ⌊q⌋ ≤ n := Int.floor_le_iff.mpr (by linarith)
  rcases round_half_even_cases q with h1 | ⟨h1, h2⟩
  · rw [h1]; exact hfl
  · rw [h1]
    have : (⌊q⌋ : ℚ) < (n : ℚ) := lt_of_lt_of_le h2 h
    have : ⌊q⌋ < n := by exact_mod_cast this
    omega

/-- Rounding to nearest does not pass an integer below the value. -/
theorem le_round_half_even {q : ℚ} {n : Int} (h : (n : ℚ) ≤ q) : n ≤ round_half_even q := by
  have hfl : n ≤ ⌊q⌋ := Int.le_floor.mpr h
  rcases round_half_even_cases q with h1 | ⟨h1, _⟩
  · rw [h1]; exact hfl
  · rw [h1]; omega

/-- The power of two with exponent 0. -/
theorem pow2_zero : pow2 0 = 1 := by
  rw [pow2_eq_zpow]
  simp

/-- Powers of two with a natural exponent. -/
theorem pow2_natCast (k : Nat) : pow2 (k : Int) = ((2 ^ k : Nat) : ℚ) := by
  rw [pow2_eq_zpow, zpow_natCast]
  push_cast
  rfl

/-- The binary32 rounding of a value at most an integer `c` of magnitude below `2 ^ 24`
is at most `c`. -/
theorem f32_le_int (x : ℚ) (c : Int) (hc : -16777216 < c ∧ c < 16777216) (h : x ≤ (c : ℚ)) :
    f32 x ≤ (c : ℚ) := by
  by_cases hx : x = 0
  · subst hx
    simpa [f32] using h
  · unfold f32
    simp only [hx, if_false]
    have hu : 0 < pow2 (max (floor_log2 |x|) (-126) - 23) := pow2_pos _
    by_cases he : max (floor_log2 |x|) (-126) ≤ 23
    · -- the spacing divides 1: `c` is a multiple of it
      generalize max (floor_log2 |x|) (-126) = e at *
      have hk : (((23 - e).toNat : Nat) : Int) = 23 - e := Int.toNat_of_nonneg (by omega)
      have hone : pow2 ((23 - e).toNat : Int) * pow2 (e - 23) = 1 := by
        rw [← pow2_add, hk]
        have : 23 - e + (e - 23) = 0 := by ring
        rw [this, pow2_zero]
      have hc2 : ((c * (2 ^ (23 - e).toNat : Nat) : Int) : ℚ) * pow2 (e - 23) = (c : ℚ) := by
        have hp := pow2_natCast (23 - e).toNat
        push_cast at hp ⊢
        rw [mul_assoc, ← hp, hone, mul_one]
      have hdiv : x / pow2 (e - 23) ≤ ((c * (2 ^ (23 - e).toNat : Nat) : Int) : ℚ) := by
        rw [div_le_iff₀ hu, hc2]
        exact h
      have hr := round_half_even_le hdiv
      have hr2 : (round_half_even (x / pow2 (e - 23)) : ℚ)
          ≤ ((c * (2 ^ (23 - e).toNat : Nat) : Int) : ℚ) := by exact_mod_cast hr
      calc (round_half_even (x / pow2 (e - 23)) : ℚ) * pow2 (e - 23)
          ≤ ((c * (2 ^ (23 - e).toNat : Nat) : Int) : ℚ) * pow2 (e - 23) :=
            mul_le_mul_of_nonneg_right hr2 (le_of_lt hu)
        _ = (c : ℚ) := hc2
    · -- `|x| ≥ 2 ^ 24`: `x` is negative and its rounding stays at or below `-2 ^ 24`
      have he2 : max (floor_log2 |x|) (-126) = floor_log2 |x| := by
        apply max_eq_left
        omega
      rw [he2] at he hu ⊢
      have habs : 0 < |x| := abs_pos.mpr hx
      have hlow := floor_log2_le |x| habs
      have h24 : pow2 24 ≤ pow2 (floor_log2 |x|) := pow2_mono (by omega)
      generalize floor_log2 |x| = E at *
      have h24v : pow2 24 = 16777216 := by
        rw [show (24 : Int) = ((24 : Nat) : Int) from rfl, pow2_natCast]
        norm_num
      have hc1 : (c : ℚ) < 16777216 := by exact_mod_cast hc.2
      have hc0 : (-16777216 : ℚ) < (c : ℚ) := by exact_mod_cast hc.1
      have hneg : x < 0 := by
        by_contra hn
        have hxn : 0 ≤ x := not_lt.mp hn
        rw [abs_of_nonneg hxn] at hlow
        linarith
      rw [abs_of_neg hneg] at hlow
      have hsplit : pow2 E = pow2 23 * pow2 (E - 23) := by
        rw [← pow2_add]
        congr 1
        ring
      have h23v : pow2 23 = 8388608 := by
        rw [show (23 : Int) = ((23 : Nat) : Int) from rfl, pow2_natCast]
        norm_num
      have hdiv : x / pow2 (E - 23) ≤ ((-8388608 : Int) : ℚ) := by
        rw [div_le_iff₀ hu]
        push_cast
        rw [← h23v]
        have : -(pow2 23) * pow2 (E - 23) = -(pow2 E) := by
          rw [hsplit]
          ring
        rw [this]
        linarith
      have hr := round_half_even_le hdiv
      have hr2 : (round_half_even (x / pow2 (E - 23)) : ℚ) ≤ ((-8388608 : Int) : ℚ) := by
        exact_mod_cast hr
      have hfin : (round_half_even (x / pow2 (E - 23)) : ℚ)
          * pow2 (E - 23) ≤ -(pow2 E) := by
        calc (round_half_even (x / pow2 (E - 23)) : ℚ) * pow2 (E - 23)
            ≤ ((-8388608 : Int) : ℚ) * pow2 (E - 23) :=
              mul_le_mul_of_nonneg_right hr2 (le_of_lt hu)
          _ = -(pow2 E) := by
              rw [hsplit, h23v]
              push_cast
              ring
      linarith

/-- The binary32 rounding of a value at least an integer `c` of magnitude below `2 ^ 24`
is at least `c`. -/
theorem int_le_f32 (x : ℚ) (c : Int) (hc : -16777216 < c ∧ c < 16777216) (h : (c : ℚ) ≤ x) :
    (c : ℚ) ≤ f32 x := by
  by_cases hx : x = 0
  · subst hx
    simpa [f32] using h
  · unfold f32
    simp only [hx, if_false]
    have hu : 0 < pow2 (max (floor_log2 |x|) (-126) - 23) := pow2_pos _
    by_cases he : max (floor_log2 |x|) (-126) ≤ 23
    · generalize max (floor_log2 |x|) (-126) = e at *
      have hk : (((23 - e).toNat : Nat) : Int) = 23 - e := Int.toNat_of_nonneg (by omega)
      have hone : pow2 ((23 - e).toNat : Int) * pow2 (e - 23) = 1 := by
        rw [← pow2_add, hk]
        have : 23 - e + (e - 23) = 0 := by ring
        rw [this, pow2_zero]
      have hc2 : ((c * (2 ^ (23 - e).toNat : Nat) : Int) : ℚ) * pow2 (e - 23) = (c : ℚ) := by
        have hp := pow2_natCast (23 - e).toNat
        push_cast at hp ⊢
        rw [mul_assoc, ← hp, hone, mul_one]
      have hdiv : ((c * (2 ^ (23 - e).toNat : Nat) : Int) : ℚ) ≤ x / pow2 (e - 23) := by
        rw [le_div_iff₀ hu, hc2]
        exact h
      have hr := le_round_half_even hdiv
      have hr2 : ((c * (2 ^ (23 - e).toNat : Nat) : Int) : ℚ)
          ≤ (round_half_even (x / pow2 (e - 23)) : ℚ) := by exact_mod_cast hr
      calc (c : ℚ) = ((c * (2 ^ (23 - e).toNat : Nat) : Int) : ℚ) * pow2 (e - 23) := hc2.symm
        _ ≤ (round_half_even (x / pow2 (e - 23)) : ℚ) * pow2 (e - 23) :=
            mul_le_mul_of_nonneg_right hr2 (le_of_lt hu)
    · have he2 : max (floor_log2 |x|) (-126) = floor_log2 |x| := by
        apply max_eq_left
        omega
      rw [he2] at he hu ⊢
      have habs : 0 < |x| := abs_pos.mpr hx
      have hlow := floor_log2_le |x| habs
      have h24 : pow2 24 ≤ pow2 (floor_log2 |x|) := pow2_mono (by omega)
      generalize floor_log2 |x| = E at *
      have h24v : pow2 24 = 16777216 := by
        rw [show (24 : Int) = ((24 : Nat) : Int) from rfl, pow2_natCast]
        norm_num
      have hc1 : (c : ℚ) < 16777216 := by exact_mod_cast hc.2
      have hc0 : (-16777216 : ℚ) < (c : ℚ) := by exact_mod_cast hc.1
      have hpos : 0 < x := by
        by_contra hn
        have hxn : x ≤ 0 := not_lt.mp hn
        rw [abs_of_nonpos hxn] at hlow
        linarith
      rw [abs_of_pos hpos] at hlow
      have hsplit : pow2 E = pow2 23 * pow2 (E - 23) := by
        rw [← pow2_add]
        congr 1
        ring
      have h23v : pow2 23 = 8388608 := by
        rw [show (23 : Int) = ((23 : Nat) : Int) from rfl, pow2_natCast]
        norm_num
      have hdiv : ((8388608 : Int) : ℚ) ≤ x / pow2 (E - 23) := by
        rw [le_div_iff₀ hu]
        push_cast
        rw [← h23v, ← hsplit]
        exact hlow
      have hr := le_round_half_even hdiv
      have hr2 : ((8388608 : Int) : ℚ) ≤ (round_half_even (x / pow2 (E - 23)) : ℚ) := by
        exact_mod_cast hr
      have hfin : pow2 E ≤ (round_half_even (x / pow2 (E - 23)) : ℚ) * pow2 (E - 23) := by
        calc pow2 E = ((8388608 : Int) : ℚ) * pow2 (E - 23) := by
              rw [hsplit, h23v]
              push_cast
              ring
          _ ≤ (round_half_even (x / pow2 (E - 23)) : ℚ) * pow2 (E - 23) :=
              mul_le_mul_of_nonneg_right hr2 (le_of_lt hu)
      linarith

/-- Integers of magnitude below `2 ^ 24` are binary32 values. -/
theorem f32_int (c : Int) (hc : -16777216 < c ∧ c < 16777216) : f32 (c : ℚ) = (c : ℚ) :=
  le_antisymm (f32_le_int _ c hc le_rfl) (int_le_f32 _ c hc le_rfl)

/-- Rounding to binary32 keeps a non-negative value non-negative. -/
theorem f32_nonneg (x : ℚ) (h : 0 ≤ x) : 0 ≤ f32 x := by
  have := int_le_f32 x 0 (by decide) (by simpa using h)
  simpa using this

/-- Rounding to binary32 keeps a non-positive value non-positive. -/
theorem f32_nonpos (x : ℚ) (h : x ≤ 0) : f32 x ≤ 0 := by
  have := f32_le_int x 0 (by decide) (by simpa using h)
  simpa using this

/-- Within the range of `int` the wrap changes nothing. -/
theorem i32_of_range (z : Int) (h0 : -2147483648 ≤ z) (h1 : z < 2147483648) : i32 z = z := by
  unfold i32
  omega

/-! ### Interaction in binary32 arithmetic -/

/-- Zero is a binary32 value. -/
theorem f32_zero : f32 0 = 0 := by
  simp [f32]

/-- Closed form of `interact_with_f32` for two living organisms. -/
theorem interact_with_f32_alive (self other : Organism) (rng : Rng)
    (hs : self.exists_ = true) (ho : other.exists_ = true) :
    self.interact_with_f32 other rng =
      if self.check_in_range_f32 other.toSimulationObject true = true
          ∧ self.collisions.getD other.index 0 = 0 ∧ other.age > 250 then
        if (uniform_real 0 1 rng).1
            < f32 (f32 (f32 (self.fitness * f32 0.35) + f32 (other.fitness * f32 0.65)) / 10) then
          ({ self with
              genotype := (self.genotype.transfer_from_f32 other.genotype
                (f32 (f32 (f32 (f32 (other.fitness - self.fitness) / 2) + 0.5) / 5))).1,
              genes_transferred := true, transfer_effect_time := 0,
              collisions := self.collisions.set other.index 1 },
           other, (uniform_real 0 1 rng).2)
        else
          ({ self with collisions := self.collisions.set other.index 1 },
           other, (uniform_real 0 1 rng).2)
      else
        ({ self with
            collisions := self.collisions.set other.index
              (if self.check_in_range_f32 other.toSimulationObject true then 1 else 0) },
         other, rng) := by
  have hs' : self.get_exists = true := hs
  have ho' : other.get_exists = true := ho
  unfold Organism.interact_with_f32
  simp only [hs', ho', Bool.not_true, Bool.false_eq_true, if_false]
  by_cases hc : (self.check_in_range_f32 other.toSimulationObject true = true
      ∧ self.collisions.getD other.index 0 = 0 ∧ other.age > 250)
  · have hb : (self.check_in_range_f32 other.toSimulationObject true
        && self.collisions.getD other.index 0 == 0 && decide (other.age > 250)) = true := by
      rw [hc.1, hc.2.1]
      simpa using hc.2.2
    rw [if_pos hc, if_pos hb]
    by_cases hd : (uniform_real 0 1 rng).1
        < f32 (f32 (f32 (self.fitness * f32 0.35) + f32 (other.fitness * f32 0.65)) / 10)
    · rw [if_pos hd, if_pos hd]
      simp [hc.1, Genotype.transfer_from_f32]
    · rw [if_neg hd, if_neg hd]
      simp [hc.1]
  · have hb : ¬ (self.check_in_range_f32 other.toSimulationObject true
        && self.collisions.getD other.index 0 == 0 && decide (other.age > 250)) = true := by
      intro hb
      apply hc
      simpa [and_assoc] using hb
    rw [if_neg hc, if_neg hb]

/-- C5, amended: for living `self` and `other`, `interact_with` performs the gene transfer
and sets `genes_transferred = true` and `transfer_effect_time = 0` if and only if
`check_in_range(other, true)` holds as the code evaluates it in `float` arithmetic (the
rounded sum of the rounded squares of the rounded coordinate differences is below the
rounded square of the size), `collisions[other.index]` was 0, `other.age > 250` and the
uniform draw is below the `float` value of `(fitness * 0.35f + other.fitness * 0.65f) /
10.f`; the donor weighting is the `float` value of `((other.fitness - fitness) / 2.f +
0.5f) / 5.f`; otherwise genotype and both flags are untouched. In every case
`collisions[other.index]` is set to the result of `check_in_range`, nothing else of `self`
changes and `other` is unchanged. The draw is consumed exactly when the first three
conditions hold. The transfer replaces every trait gene and every weight of the three
layers of `self` by `weighting * donor + (1.f - weighting) * own`, each operation
rounded. -/
theorem interact_with_f32_contract (self other : Organism) (rng : Rng)
    (hs : self.exists_ = true) (ho : other.exists_ = true) :
    let in_range := self.check_in_range_f32 other.toSimulationObject true
    let draw := (uniform_real 0 1 rng).1
    let chance := f32 (f32 (f32 (self.fitness * f32 0.35) + f32 (other.fitness * f32 0.65)) / 10)
    let weighting := f32 (f32 (f32 (f32 (other.fitness - self.fitness) / 2) + 0.5) / 5)
    let transfer := in_range = true ∧ self.collisions.getD other.index 0 = 0 ∧
      other.age > 250 ∧ draw < chance
    (in_range = decide
      (f32 (f32 (f32 (self.position.x - other.position.x) * f32 (self.position.x - other.position.x))
          + f32 (f32 (self.position.y - other.position.y) * f32 (self.position.y - other.position.y)))
        < f32 (f32 self.size * f32 self.size))) ∧
    (transfer →
      (self.interact_with_f32 other rng).1 =
        { self with genotype := (self.genotype.transfer_from_f32 other.genotype weighting).1,
                    genes_transferred := true, transfer_effect_time := 0,
                    collisions := self.collisions.set other.index 1 }) ∧
    (¬ transfer →
      (self.interact_with_f32 other rng).1 =
        { self with collisions := self.collisions.set other.index (if in_range then 1 else 0) }) ∧
    (other.index < self.collisions.length →
      (self.interact_with_f32 other rng).1.collisions.getD other.index 0
        = if in_range then 1 else 0) ∧
    (self.interact_with_f32 other rng).2.1 = other ∧
    (self.interact_with_f32 other rng).2.2 =
      (if in_range = true ∧ self.collisions.getD other.index 0 = 0 ∧ other.age > 250 then
        (uniform_real 0 1 rng).2 else rng) ∧
    (transfer →
      let blend := fun (own donor : List ℚ) => (List.range own.length).map (fun k =>
        f32 (f32 (weighting * donor.getD k 0) + f32 (f32 (1 - weighting) * own.getD k 0)))
      let g := (self.interact_with_f32 other rng).1.genotype
      g.trait_genes = blend self.genotype.trait_genes other.genotype.trait_genes ∧
      g.behaviour_net.layer1.weights
        = blend self.genotype.behaviour_net.layer1.weights
            other.genotype.behaviour_net.layer1.weights ∧
      g.behaviour_net.layer2.weights
        = blend self.genotype.behaviour_net.layer2.weights
            other.genotype.behaviour_net.layer2.weights ∧
      g.behaviour_net.output_layer.weights
        = blend self.genotype.behaviour_net.output_layer.weights
            other.genotype.behaviour_net.output_layer.weights) := by
  intro in_range draw chance weighting transfer
  have hu := interact_with_f32_alive self other rng hs ho
  have hset : ∀ (v : Nat), other.index < self.collisions.length →
      (self.collisions.set other.index v).getD other.index 0 = v := by
    intro v hl
    simp [List.getD_eq_getElem?_getD, hl]
  refine ⟨?_, ?_, ?_, ?_, ?_, ?_, ?_⟩
  · simp [in_range, Organism.check_in_range_f32, SimulationObject.get_position,
      SimulationObject.get_size, f32_zero]
  · rintro ⟨h1, h2, h3, h4⟩
    rw [hu, if_pos ⟨h1, h2, h3⟩, if_pos h4]
  · intro hn
    rw [hu]
    by_cases hc : (in_range = true ∧ self.collisions.getD other.index 0 = 0 ∧ other.age > 250)
    · have hd : ¬ draw < chance := fun hd => hn ⟨hc.1, hc.2.1, hc.2.2, hd⟩
      have h1 : self.check_in_range_f32 other.toSimulationObject true = true := hc.1
      rw [if_pos hc, if_neg hd]
      simp [in_range, h1]
    · rw [if_neg hc]
  · intro hlt
    rw [hu]
    split
    · next hc =>
      have h1 := hset 1 hlt
      split
      · simpa [in_range, hc.1] using h1
      · simpa [in_range, hc.1] using h1
    · exact hset _ hlt
  · rw [hu]
    split
    · split <;> rfl
    · rfl
  · rw [hu]
    split
    · split <;> rfl
    · rfl
  · rintro ⟨h1, h2, h3, h4⟩
    intro blend g
    have hg : g = (self.genotype.transfer_from_f32 other.genotype weighting).1 := by
      show (self.interact_with_f32 other rng).1.genotype = _
      rw [hu, if_pos ⟨h1, h2, h3⟩, if_pos h4]
    rw [hg]
    exact ⟨rfl, rfl, rfl, rfl⟩

/-- C5, amended, at `sample_organism` meeting `sample_neighbour` (same position, fitness 1
each, age 300, collision record clear) with the draw 0: the transfer takes place and the
collision record is set. -/
theorem interact_with_f32_contract_witness :
    (sample_organism.exists_ = true ∧ sample_neighbour.exists_ = true) ∧
    (sample_organism.interact_with_f32 sample_neighbour ⟨fun _ => 0, 0⟩).1 =
      { sample_organism with
          genotype := (sample_organism.genotype.transfer_from_f32 sample_neighbour.genotype
            (f32 (f32 (f32 (f32 (sample_neighbour.fitness - sample_organism.fitness) / 2)
              + 0.5) / 5))).1,
          genes_transferred := true, transfer_effect_time := 0,
          collisions := sample_organism.collisions.set sample_neighbour.index 1 } ∧
    (sample_organism.interact_with_f32 sample_neighbour ⟨fun _ => 0, 0⟩).1.collisions
      = [0, 1, 0] ∧
    (sample_organism.interact_with_f32 sample_neighbour ⟨fun _ => 0, 0⟩).1.genes_transferred
      = true :=
  ⟨⟨by decide!, by decide!⟩,
   (interact_with_f32_contract sample_organism sample_neighbour ⟨fun _ => 0, 0⟩
      (by decide!) (by decide!)).2.1 (by decide!),
   by decide!, by decide!⟩

/-- C5 as stated fails in two ways. (1) `near_boundary_organism` (size 5, at
`(3 - 2^(-22), 4)`) and `origin_neighbour` (at the origin, 300 timesteps old, collision
record clear), draw 0: the squared centre distance is below `5²` and the draw is below
`(0.35 + 0.65) / 10`, yet the code finds `d_2 = 25.0f`, performs no transfer and records
no collision. (2) `sample_organism` (fitness 1) and `half_fit_neighbour` (fitness 1/2, same
position, 300 timesteps old, collision record clear) with the binary32 draw
`566231 / 8388608`: the draw is below `(0.35 * 1 + 0.65 * 0.5) / 10 = 0.0675`, but not
below the chance the code computes, which is that very number; no transfer is performed. -/
theorem interact_with_f32_contract_counterexample :
    (near_boundary_organism.exists_ = true ∧ origin_neighbour.exists_ = true ∧
      (near_boundary_organism.position.x - origin_neighbour.position.x)
          * (near_boundary_organism.position.x - origin_neighbour.position.x)
        + (near_boundary_organism.position.y - origin_neighbour.position.y)
          * (near_boundary_organism.position.y - origin_neighbour.position.y)
        < near_boundary_organism.size * near_boundary_organism.size ∧
      f32 near_boundary_organism.position.x = near_boundary_organism.position.x ∧
      near_boundary_organism.collisions.getD origin_neighbour.index 0 = 0 ∧
      origin_neighbour.age > 250 ∧
      (uniform_real 0 1 ⟨fun _ => 0, 0⟩).1
        < (0.35 * near_boundary_organism.fitness + 0.65 * origin_neighbour.fitness) / 10 ∧
      near_boundary_organism.check_in_range_f32 origin_neighbour.toSimulationObject true
        = false ∧
      (near_boundary_organism.interact_with_f32 origin_neighbour ⟨fun _ => 0, 0⟩).1
        = near_boundary_organism) ∧
    (sample_organism.exists_ = true ∧ half_fit_neighbour.exists_ = true ∧
      sample_organism.check_in_range_f32 half_fit_neighbour.toSimulationObject true = true ∧
      sample_organism.collisions.getD half_fit_neighbour.index 0 = 0 ∧
      half_fit_neighbour.age > 250 ∧
      f32 (566231 / 8388608) = 566231 / 8388608 ∧
      (uniform_real 0 1 ⟨fun _ => 566231 / 8388608, 0⟩).1
        < (0.35 * sample_organism.fitness + 0.65 * half_fit_neighbour.fitness) / 10 ∧
      f32 (f32 (f32 (sample_organism.fitness * f32 0.35)
        + f32 (half_fit_neighbour.fitness * f32 0.65)) / 10) = 566231 / 8388608 ∧
      (sample_organism.interact_with_f32 half_fit_neighbour
          ⟨fun _ => 566231 / 8388608, 0⟩).1.genes_transferred = false ∧
      (sample_organism.interact_with_f32 half_fit_neighbour
          ⟨fun _ => 566231 / 8388608, 0⟩).1.genotype = sample_organism.genotype) := by
  decide!

/-! ### Reaction to temperature in binary32 arithmetic -/

/-- The value assigned to `integrity` by a living organism's `react_to_temperature_f32`. -/
theorem react_to_temperature_f32_integrity (o : Organism) (planet : Planet ℚ) (time : Nat)
    (h : o.exists_ = true) :
    (o.react_to_temperature_f32 planet time).integrity =
      truncToInt (if |f32 (planet.get_temperature (truncToNat o.position.y) time
            - o.phenotype.get_ideal_temp)| < o.phenotype.get_temp_range then
          min 1000000 (f32 (f32 (o.integrity : ℚ) + f32 (o.phenotype.get_health_rate /
            max 1 |f32 (planet.get_temperature (truncToNat o.position.y) time
              - o.phenotype.get_ideal_temp)|)))
        else
          max 0 (f32 (f32 (o.integrity : ℚ)
            - f32 (|f32 (planet.get_temperature (truncToNat o.position.y) time
                - o.phenotype.get_ideal_temp)|
              / f32 (120 / f32 (o.phenotype.get_health_rate / 2)))))) := by
  have hex : o.get_exists = true := h
  unfold Organism.react_to_temperature_f32
  simp only [hex, Bool.not_true, Bool.false_eq_true, if_false, SimulationObject.get_position]

/-- C7, amended: for a living organism with `Δ = |T(⌊y⌋, t) - ideal_temp|` (the difference
rounded to `float`), `react_to_temperature` takes the gain branch, setting integrity to
`min(1000000, integrity + health_rate / max(1, Δ))`, exactly when `Δ < temp_range`; in
every other case, `Δ == temp_range` included, it sets integrity to
`max(0, integrity - Δ / (120 / (health_rate / 2)))`: the loss is cut off at 0. Both values
are computed in `float` arithmetic, every operation rounded, and converted to `int` by
truncation. In the loss branch the new integrity is not negative, and it is not above the
old one when the health rate is not negative and the integrity before the call lies in
`[0, 1000000]`. -/
theorem react_to_temperature_f32_branches (o : Organism) (planet : Planet ℚ) (time : Nat)
    (h : o.exists_ = true) :
    let Δ := |f32 (planet.get_temperature (truncToNat o.position.y) time
      - o.phenotype.get_ideal_temp)|
    let gain := f32 (o.phenotype.get_health_rate / max 1 Δ)
    let loss := f32 (Δ / f32 (120 / f32 (o.phenotype.get_health_rate / 2)))
    (Δ < o.phenotype.get_temp_range →
      (o.react_to_temperature_f32 planet time).integrity
        = truncToInt (min 1000000 (f32 (f32 (o.integrity : ℚ) + gain)))) ∧
    (¬ Δ < o.phenotype.get_temp_range →
      (o.react_to_temperature_f32 planet time).integrity
        = truncToInt (max 0 (f32 (f32 (o.integrity : ℚ) - loss)))) ∧
    (Δ = o.phenotype.get_temp_range →
      (o.react_to_temperature_f32 planet time).integrity
        = truncToInt (max 0 (f32 (f32 (o.integrity : ℚ) - loss)))) ∧
    (¬ Δ < o.phenotype.get_temp_range →
      0 ≤ (o.react_to_temperature_f32 planet time).integrity) ∧
    (¬ Δ < o.phenotype.get_temp_range → 0 ≤ o.phenotype.get_health_rate →
      0 ≤ o.integrity → o.integrity ≤ 1000000 →
      (o.react_to_temperature_f32 planet time).integrity ≤ o.integrity) := by
  intro Δ gain loss
  have hi := react_to_temperature_f32_integrity o planet time h
  have hloss : ¬ Δ < o.phenotype.get_temp_range →
      (o.react_to_temperature_f32 planet time).integrity
        = truncToInt (max 0 (f32 (f32 (o.integrity : ℚ) - loss))) := by
    intro hd
    rw [hi, if_neg hd]
  refine ⟨?_, hloss, ?_, ?_, ?_⟩
  · intro hd
    rw [hi, if_pos hd]
  · intro hd
    exact hloss (by rw [hd]; exact lt_irrefl _)
  · intro hd
    rw [hloss hd]
    exact truncToInt_nonneg (le_max_left _ _)
  · intro hd hr h0 h1
    rw [hloss hd]
    apply truncToInt_le
    have hl : 0 ≤ loss :=
      f32_nonneg _ (div_nonneg (abs_nonneg _)
        (f32_nonneg _ (div_nonneg (by norm_num) (f32_nonneg _ (div_nonneg hr (by norm_num))))))
    have hI : f32 (o.integrity : ℚ) = (o.integrity : ℚ) :=
      f32_int o.integrity ⟨by omega, by omega⟩
    have h0' : (0 : ℚ) ≤ (o.integrity : ℚ) := by exact_mod_cast h0
    apply max_le h0'
    rw [hI]
    exact f32_le_int _ o.integrity ⟨by omega, by omega⟩ (by linarith)

/-- C7, amended, at `sample_organism` (integrity 1000000, health rate 220, ideal
temperature 260, range 10): at 260 K it gains and stays at the cap; at 360 K, with
`Δ = 100`, it loses and is left with 999908. -/
theorem react_to_temperature_f32_branches_witness :
    sample_organism.exists_ = true ∧
    (sample_organism.react_to_temperature_f32 sample_planet 0).integrity = 1000000 ∧
    (sample_organism.react_to_temperature_f32 hot_planet 0).integrity = 999908 ∧
    (sample_organism.react_to_temperature_f32 hot_planet 0).integrity
      ≤ sample_organism.integrity :=
  ⟨by decide!, by decide!, by decide!,
   (react_to_temperature_f32_branches sample_organism hot_planet 0 (by decide!)).2.2.2.2
     (by decide!) (by decide!) (by decide!) (by decide!)⟩

/-- C7 fails as stated. A living organism with integrity 10 and `Δ = 100 >= temp_range`
(health rate 220) is left with integrity 0, a reduction by 10 and not by
`Δ / (120 / (health_rate / 2)) = 275/3`. With the negative health rate -220 the same branch
raises integrity from 1000000 to 1000091. And the value stored is the rounded `float`
result: with the binary32 health rate `7235961 / 32768`, integrity 1000000 and `Δ = 100`
the code stores 999908, whereas `1000000 - Δ / (120 / (health_rate / 2))` is below 999908
and truncates to 999907. -/
theorem react_to_temperature_f32_branches_counterexample :
    frail_organism.exists_ = true ∧ frail_organism.integrity = 10 ∧
    ¬ (|hot_planet.get_temperature (truncToNat frail_organism.position.y) 0
        - frail_organism.phenotype.get_ideal_temp| < frail_organism.phenotype.get_temp_range) ∧
    (frail_organism.react_to_temperature_f32 hot_planet 0).integrity = 0 ∧
    ((frail_organism.react_to_temperature_f32 hot_planet 0).integrity : ℚ)
      ≠ (frail_organism.integrity : ℚ)
        - |hot_planet.get_temperature (truncToNat frail_organism.position.y) 0
            - frail_organism.phenotype.get_ideal_temp|
          / (120 / (frail_organism.phenotype.get_health_rate / 2)) ∧
    (frail_organism.react_to_temperature_f32 hot_planet 0).integrity
      ≠ truncToInt ((frail_organism.integrity : ℚ)
        - |hot_planet.get_temperature (truncToNat frail_organism.position.y) 0
            - frail_organism.phenotype.get_ideal_temp|
          / (120 / (frail_organism.phenotype.get_health_rate / 2))) ∧
    ¬ (|hot_planet.get_temperature (truncToNat negative_rate_organism.position.y) 0
        - negative_rate_organism.phenotype.get_ideal_temp|
        < negative_rate_organism.phenotype.get_temp_range) ∧
    negative_rate_organism.integrity
      < (negative_rate_organism.react_to_temperature_f32 hot_planet 0).integrity ∧
    rounded_rate_organism.exists_ = true ∧ rounded_rate_organism.integrity = 1000000 ∧
    f32 rounded_rate_organism.phenotype.get_health_rate
      = rounded_rate_organism.phenotype.get_health_rate ∧
    |hot_planet.get_temperature (truncToNat rounded_rate_organism.position.y) 0
        - rounded_rate_organism.phenotype.get_ideal_temp| = 100 ∧
    (rounded_rate_organism.react_to_temperature_f32 hot_planet 0).integrity = 999908 ∧
    (rounded_rate_organism.integrity : ℚ)
        - 100 / (120 / (rounded_rate_organism.phenotype.get_health_rate / 2)) < 999908 ∧
    truncToInt ((rounded_rate_organism.integrity : ℚ)
        - 100 / (120 / (rounded_rate_organism.phenotype.get_health_rate / 2))) = 999907 := by
  decide!

/-! ### Movement in binary32 arithmetic -/

/-- One coordinate of `update_position_wrap_f32` in an area of width `W ≤ 2^23`: from
`0 ≤ x < W` with `|v| ≤ W − 1` the wrapped coordinate lies in `[0, W]`, and in
`[0, W − 1]` when `x ≤ W − 1`. -/
theorem wrap_coordinate_f32 (x v : ℚ) (W : Nat) (hW : 1 ≤ W ∧ W ≤ 8388608)
    (h0 : 0 ≤ x) (h1 : x < (W : ℚ)) (hv : |v| ≤ (W : ℚ) - 1) :
    let r := if f32 (x + v) > f32 (f32 (W : ℚ) - 1) then
        f32 (0 + f32 (f32 (x + v) - f32 (f32 (W : ℚ) - 1)))
      else if f32 (x + v) < 0 then
        f32 (f32 (f32 (W : ℚ) - 1) - f32 (0 - f32 (x + v)))
      else f32 (x + v)
    0 ≤ r ∧ r ≤ (W : ℚ) ∧ (x ≤ (W : ℚ) - 1 → r ≤ (W : ℚ) - 1) := by
  obtain ⟨hv1, hv2⟩ := abs_le.mp hv
  have cW : (((W : Int)) : ℚ) = (W : ℚ) := Int.cast_natCast W
  have cW1 : (((W : Int) - 1 : Int) : ℚ) = (W : ℚ) - 1 := by push_cast; ring
  have cW2 : (((2 * (W : Int) - 1 : Int)) : ℚ) = 2 * (W : ℚ) - 1 := by push_cast; ring
  have cW3 : (((2 * (W : Int) - 2 : Int)) : ℚ) = 2 * (W : ℚ) - 2 := by push_cast; ring
  have cW4 : (((-((W : Int) - 1) : Int)) : ℚ) = -((W : ℚ) - 1) := by push_cast; ring
  have c0 : (((0 : Int)) : ℚ) = 0 := Int.cast_zero
  have bW : -16777216 < (W : Int) ∧ (W : Int) < 16777216 := ⟨by omega, by omega⟩
  have bW1 : -16777216 < (W : Int) - 1 ∧ (W : Int) - 1 < 16777216 := ⟨by omega, by omega⟩
  have bW2 : -16777216 < 2 * (W : Int) - 1 ∧ 2 * (W : Int) - 1 < 16777216 :=
    ⟨by omega, by omega⟩
  have bW3 : -16777216 < 2 * (W : Int) - 2 ∧ 2 * (W : Int) - 2 < 16777216 :=
    ⟨by omega, by omega⟩
  have bW4 : -16777216 < -((W : Int) - 1) ∧ -((W : Int) - 1) < 16777216 :=
    ⟨by omega, by omega⟩
  have b0 : -16777216 < (0 : Int) ∧ (0 : Int) < 16777216 := ⟨by decide, by decide⟩
  have hfW : f32 (W : ℚ) = (W : ℚ) := by
    have := f32_int (W : Int) bW
    rwa [cW] at this
  have hbm : f32 (f32 (W : ℚ) - 1) = (W : ℚ) - 1 := by
    have := f32_int ((W : Int) - 1) bW1
    rw [cW1] at this
    rw [hfW, this]
  -- bounds of the rounded sum
  have hs_lo : -((W : ℚ) - 1) ≤ f32 (x + v) := by
    have := int_le_f32 (x + v) (-((W : Int) - 1)) bW4 (by rw [cW4]; linarith)
    rwa [cW4] at this
  have hs_hi : f32 (x + v) ≤ 2 * (W : ℚ) - 1 := by
    have := f32_le_int (x + v) (2 * (W : Int) - 1) bW2 (by rw [cW2]; linarith)
    rwa [cW2] at this
  have hs_hi2 : x ≤ (W : ℚ) - 1 → f32 (x + v) ≤ 2 * (W : ℚ) - 2 := by
    intro hx
    have := f32_le_int (x + v) (2 * (W : Int) - 2) bW3 (by rw [cW3]; linarith)
    rwa [cW3] at this
  -- rounding between integer bounds
  have up0 : ∀ y : ℚ, 0 ≤ y → 0 ≤ f32 y := fun y hy => f32_nonneg y hy
  have upW : ∀ y : ℚ, y ≤ (W : ℚ) → f32 y ≤ (W : ℚ) := by
    intro y hy
    have := f32_le_int y (W : Int) bW (by rw [cW]; exact hy)
    rwa [cW] at this
  have upW1 : ∀ y : ℚ, y ≤ (W : ℚ) - 1 → f32 y ≤ (W : ℚ) - 1 := by
    intro y hy
    have := f32_le_int y ((W : Int) - 1) bW1 (by rw [cW1]; exact hy)
    rwa [cW1] at this
  intro r
  simp only [r, hbm]
  split_ifs with ha hb
  · have t0 : 0 ≤ f32 (f32 (x + v) - ((W : ℚ) - 1)) := up0 _ (by linarith)
    have tW : f32 (f32 (x + v) - ((W : ℚ) - 1)) ≤ (W : ℚ) := upW _ (by linarith)
    refine ⟨up0 _ (by linarith), upW _ (by linarith), ?_⟩
    intro hx
    have t1 : f32 (f32 (x + v) - ((W : ℚ) - 1)) ≤ (W : ℚ) - 1 :=
      upW1 _ (by linarith [hs_hi2 hx])
    exact upW1 _ (by linarith)
  · have t0 : 0 ≤ f32 (0 - f32 (x + v)) := up0 _ (by linarith)
    have t1 : f32 (0 - f32 (x + v)) ≤ (W : ℚ) - 1 := upW1 _ (by linarith)
    have r1 : f32 ((W : ℚ) - 1 - f32 (0 - f32 (x + v))) ≤ (W : ℚ) - 1 :=
      upW1 _ (by linarith)
    refine ⟨up0 _ (by linarith), by linarith, fun _ => r1⟩
  · have h2 : 0 ≤ f32 (x + v) := not_lt.mp hb
    have h3 : f32 (x + v) ≤ (W : ℚ) - 1 := not_lt.mp ha
    exact ⟨h2, by linarith, fun _ => h3⟩

/-- C16, amended: a living organism in an area of `W x H` (each at most `2^23`) at a
position `p` in `[0, W) × [0, H)` with a velocity with `|v.x| ≤ W − 1` and `|v.y| ≤ H − 1`.
One call of `move` leaves the position `p'` with `0 ≤ p'.x ≤ W` and `0 ≤ p'.y ≤ H`, both
bounds included; and for `p.x ≤ W − 1` it leaves `0 ≤ p'.x ≤ W − 1`, hence `p'.x < W`,
likewise for `p.y ≤ H − 1`: the positions of `[0, W − 1] × [0, H − 1]` stay there. -/
theorem move_f32_stays_in_area (o : Organism) (he : o.exists_ = true)
    (hW : 1 ≤ o.area.get_size.x ∧ o.area.get_size.x ≤ 8388608)
    (hH : 1 ≤ o.area.get_size.y ∧ o.area.get_size.y ≤ 8388608)
    (hx : 0 ≤ o.position.x ∧ o.position.x < (o.area.get_size.x : ℚ))
    (hy : 0 ≤ o.position.y ∧ o.position.y < (o.area.get_size.y : ℚ))
    (hvx : |o.velocity.x| ≤ (o.area.get_size.x : ℚ) - 1)
    (hvy : |o.velocity.y| ≤ (o.area.get_size.y : ℚ) - 1) :
    (0 ≤ o.move_f32.position.x ∧ o.move_f32.position.x ≤ (o.area.get_size.x : ℚ)) ∧
    (0 ≤ o.move_f32.position.y ∧ o.move_f32.position.y ≤ (o.area.get_size.y : ℚ)) ∧
    (o.position.x ≤ (o.area.get_size.x : ℚ) - 1 →
      o.move_f32.position.x ≤ (o.area.get_size.x : ℚ) - 1 ∧
      o.move_f32.position.x < (o.area.get_size.x : ℚ)) ∧
    (o.position.y ≤ (o.area.get_size.y : ℚ) - 1 →
      o.move_f32.position.y ≤ (o.area.get_size.y : ℚ) - 1 ∧
      o.move_f32.position.y < (o.area.get_size.y : ℚ)) := by
  have he2 : o.get_exists = true := he
  have kx := wrap_coordinate_f32 o.position.x o.velocity.x o.area.get_size.x hW hx.1 hx.2 hvx
  have ky := wrap_coordinate_f32 o.position.y o.velocity.y o.area.get_size.y hH hy.1 hy.2 hvy
  unfold Organism.move_f32
  simp only [he2, Bool.not_true, Bool.false_eq_true, if_false]
  unfold SimulationObject.update_position_wrap_f32
  simp only [he, Bool.not_true, Bool.false_eq_true, if_false]
  refine ⟨⟨kx.1, kx.2.1⟩, ⟨ky.1, ky.2.1⟩, ?_, ?_⟩
  · intro h
    have := kx.2.2 h
    exact ⟨this, by linarith⟩
  · intro h
    have := ky.2.2 h
    exact ⟨this, by linarith⟩

/-- C16, amended, at `edge_organism`: from `(299, 150)` with the velocity `(2, 0)` in the
300 x 300 area, `move` wraps to `(2, 150)`, inside `[0, 299] × [0, 299]`. -/
theorem move_f32_stays_in_area_witness :
    (edge_organism.exists_ = true ∧ edge_organism.area.get_size.x = 300 ∧
      edge_organism.position.x + edge_organism.velocity.x = 301) ∧
    edge_organism.move_f32.position = ⟨2, 150⟩ ∧
    (edge_organism.move_f32.position.x ≤ ((edge_organism.area.get_size.x : Nat) : ℚ) - 1 ∧
      edge_organism.move_f32.position.x < ((edge_organism.area.get_size.x : Nat) : ℚ)) :=
  ⟨by decide!, by decide!,
   (move_f32_stays_in_area edge_organism (by decide!) (by decide!) (by decide!) (by decide!)
     (by decide!) (by decide!) (by decide!)).2.2.1 (by decide!)⟩

/-- C16 fails as stated, in both directions. `fast_organism` lives at `(0, 100)` in the
300 x 300 area with the velocity `(-299.5, 0)`, `|v.x| < 300`; after `move` its x
coordinate is `299 - 299.5 = -0.5`. `brink_organism` lives at `(300 - 2^(-15), 100)` with
the velocity `(299, 0)`; the sum rounds to `599.0f` and after `move` its x coordinate is
`599 - 299 = 300`, the width itself. -/
theorem move_f32_stays_in_area_counterexample :
    (fast_organism.exists_ = true ∧
      (fast_organism.area.get_size.x = 300 ∧ fast_organism.area.get_size.y = 300) ∧
      (0 ≤ fast_organism.position.x ∧ fast_organism.position.x < 300) ∧
      (0 ≤ fast_organism.position.y ∧ fast_organism.position.y < 300) ∧
      (|fast_organism.velocity.x| < 300 ∧ |fast_organism.velocity.y| < 300) ∧
      fast_organism.move_f32.position.x = -1 / 2 ∧
      ¬ (0 ≤ fast_organism.move_f32.position.x)) ∧
    (brink_organism.exists_ = true ∧
      (brink_organism.area.get_size.x = 300 ∧ brink_organism.area.get_size.y = 300) ∧
      f32 brink_organism.position.x = brink_organism.position.x ∧
      (0 ≤ brink_organism.position.x ∧ brink_organism.position.x < 300) ∧
      (0 ≤ brink_organism.position.y ∧ brink_organism.position.y < 300) ∧
      (|brink_organism.velocity.x| < 300 ∧ |brink_organism.velocity.y| < 300) ∧
      |brink_organism.velocity.x| ≤ 300 - 1 ∧
      f32 (brink_organism.position.x + brink_organism.velocity.x) = 599 ∧
      brink_organism.move_f32.position.x = 300 ∧
      ¬ (brink_organism.move_f32.position.x < 300)) := by
  decide!

/-! ### Distribution of resources in machine arithmetic -/

/-- The scan of the organisms for item `i` passes over an organism that is missing, dead
or out of range. -/
theorem distribute_scan_skip (which_pool : resource_pool_type) (i j : Nat) (rest : List Nat)
    (organisms : List Organism) (pool : ConsumableResourcePool) (rng : Rng)
    (item : ConsumableResource) (hi : pool.pool[i]? = some item)
    (hn : ¬ ∃ o, organisms[j]? = some o ∧ o.exists_ = true ∧
      o.check_in_range_f32 item.toSimulationObject false = true) :
    Population.distribute_scan which_pool i (j :: rest) (organisms, pool, rng)
      = Population.distribute_scan which_pool i rest (organisms, pool, rng) := by
  rw [Population.distribute_scan]
  cases ho : organisms[j]? with
  | none => simp only [hi]
  | some o =>
    simp only [hi]
    have hc : ¬ ((o.get_exists && o.check_in_range_f32 item.toSimulationObject false)
        = true) := by
      intro hc
      rw [Bool.and_eq_true] at hc
      exact hn ⟨o, ho, hc.1, hc.2⟩
    rw [if_neg hc]

/-- The scan of the organisms for item `i` ends at a living organism in range: it receives
the value of the item, which is consumed and reset. -/
theorem distribute_scan_hit (which_pool : resource_pool_type) (i j : Nat) (rest : List Nat)
    (organisms : List Organism) (pool : ConsumableResourcePool) (rng : Rng)
    (item : ConsumableResource) (o : Organism) (hi : pool.pool[i]? = some item)
    (ho : organisms[j]? = some o) (he : o.exists_ = true)
    (hc : o.check_in_range_f32 item.toSimulationObject false = true) :
    Population.distribute_scan which_pool i (j :: rest) (organisms, pool, rng)
      = (organisms.set j (match which_pool with
            | .food_pool => o.nourish_i32 item.value
            | .water_pool => o.hydrate_i32 item.value),
         (pool.consume_and_reset_item_f32 i rng).2.1,
         (pool.consume_and_reset_item_f32 i rng).2.2) := by
  have he2 : o.get_exists = true := he
  have hv : (pool.consume_and_reset_item_f32 i rng).1 = item.value := by
    simp only [ConsumableResourcePool.consume_and_reset_item_f32, hi, ConsumableResource.consume]
  rw [Population.distribute_scan]
  simp only [ho, hi, he2, hc, Bool.and_self, if_true, hv, update_at]
  cases which_pool <;> rfl

/-- A scan over organisms none of which is living and in range changes nothing. -/
theorem distribute_scan_none (which_pool : resource_pool_type) (i : Nat)
    (organisms : List Organism) (pool : ConsumableResourcePool) (rng : Rng)
    (item : ConsumableResource) (hi : pool.pool[i]? = some item) (js : List Nat)
    (hn : ∀ j ∈ js, ¬ ∃ o, organisms[j]? = some o ∧ o.exists_ = true ∧
      o.check_in_range_f32 item.toSimulationObject false = true) :
    Population.distribute_scan which_pool i js (organisms, pool, rng)
      = (organisms, pool, rng) := by
  induction js with
  | nil => rfl
  | cons j rest ih =>
    rw [distribute_scan_skip which_pool i j rest organisms pool rng item hi
      (hn j (List.mem_cons_self j rest))]
    exact ih (fun j2 hj2 => hn j2 (List.mem_cons_of_mem j hj2))

/-- A scan passes over a prefix of organisms none of which is living and in range. -/
theorem distribute_scan_prefix (which_pool : resource_pool_type) (i : Nat)
    (organisms : List Organism) (pool : ConsumableResourcePool) (rng : Rng)
    (item : ConsumableResource) (hi : pool.pool[i]? = some item) (pre js : List Nat)
    (hn : ∀ j ∈ pre, ¬ ∃ o, organisms[j]? = some o ∧ o.exists_ = true ∧
      o.check_in_range_f32 item.toSimulationObject false = true) :
    Population.distribute_scan which_pool i (pre ++ js) (organisms, pool, rng)
      = Population.distribute_scan which_pool i js (organisms, pool, rng) := by
  induction pre with
  | nil => rfl
  | cons j rest ih =>
    rw [List.cons_append, distribute_scan_skip which_pool i j (rest ++ js) organisms pool
      rng item hi (hn j (List.mem_cons_self j rest))]
    exact ih (fun j2 hj2 => hn j2 (List.mem_cons_of_mem j hj2))

/-- C17, amended: in `distribute_resources`, the pass for item `i` of the range (the
organisms `0 .. max_size − 1` are scanned), where an organism has the item in range when
`check_in_range` holds as the code evaluates it in `float` arithmetic: the rounded squared
distance of the centres is below the rounded square of the rounded sum
`organism.size + item.size`. An item that does not exist is passed over. For an existing
item: if `j` is the lowest index of a living organism in range, exactly that organism has
the value the item held added to its nutrition (food pool) or hydration (water pool) by a
`fetch_add` on the 32-bit counter, which is an increase by that value whenever the sum
stays within the range of `int`; nothing else of it and no other organism changes, and the
item is consumed and reset. If no living organism is in range, organisms, pool and engine
are unchanged. -/
theorem distribute_item (which_pool : resource_pool_type) (max_size i : Nat)
    (rest : List Nat) (organisms : List Organism) (pool : ConsumableResourcePool) (rng : Rng)
    (item : ConsumableResource) (hi : pool.pool[i]? = some item) :
    let in_range := fun (o : Organism) => o.check_in_range_f32 item.toSimulationObject false
    let served := fun (j : Nat) =>
      ∃ o, organisms[j]? = some o ∧ o.exists_ = true ∧ in_range o = true
    (∀ o : Organism, in_range o = decide
      (f32 (f32 (f32 (o.position.x - item.position.x) * f32 (o.position.x - item.position.x))
          + f32 (f32 (o.position.y - item.position.y) * f32 (o.position.y - item.position.y)))
        < f32 (f32 (o.size + f32 item.size) * f32 (o.size + f32 item.size)))) ∧
    (item.exists_ = false →
      Population.distribute_loop which_pool max_size (i :: rest) (organisms, pool, rng)
        = Population.distribute_loop which_pool max_size rest (organisms, pool, rng)) ∧
    (item.exists_ = true →
      Population.distribute_loop which_pool max_size (i :: rest) (organisms, pool, rng)
        = Population.distribute_loop which_pool max_size rest
            (Population.distribute_scan which_pool i (List.range max_size)
              (organisms, pool, rng))) ∧
    (∀ (j : Nat) (o : Organism), j < max_size → organisms[j]? = some o →
      o.exists_ = true → in_range o = true → (∀ j2, j2 < j → ¬ served j2) →
      Population.distribute_scan which_pool i (List.range max_size) (organisms, pool, rng)
        = (organisms.set j (match which_pool with
              | .food_pool => { o with nutrition := i32 (o.nutrition + item.value) }
              | .water_pool => { o with hydration := i32 (o.hydration + item.value) }),
           (pool.consume_and_reset_item_f32 i rng).2.1,
           (pool.consume_and_reset_item_f32 i rng).2.2) ∧
      (pool.consume_and_reset_item_f32 i rng).1 = item.value ∧
      (-2147483648 ≤ o.nutrition → o.nutrition + item.value < 2147483648 →
        i32 (o.nutrition + item.value) = o.nutrition + item.value) ∧
      (-2147483648 ≤ o.hydration → o.hydration + item.value < 2147483648 →
        i32 (o.hydration + item.value) = o.hydration + item.value)) ∧
    ((∀ j, j < max_size → ¬ served j) →
      Population.distribute_scan which_pool i (List.range max_size) (organisms, pool, rng)
        = (organisms, pool, rng)) := by
  intro in_range served
  refine ⟨?_, ?_, ?_, ?_, ?_⟩
  · intro o
    simp [in_range, Organism.check_in_range_f32, SimulationObject.get_position,
      SimulationObject.get_size]
  · intro he
    have he2 : item.get_exists = false := he
    rw [Population.distribute_loop]
    simp only [hi, he2, Bool.false_eq_true, if_false]
  · intro he
    have he2 : item.get_exists = true := he
    rw [Population.distribute_loop]
    simp only [hi, he2, if_true]
  · intro j o hj ho he hc hlow
    refine ⟨?_, ?_, ?_, ?_⟩
    · rw [range_split j max_size hj,
        distribute_scan_prefix which_pool i organisms pool rng item hi (List.range j) _
          (fun j2 hj2 => hlow j2 (List.mem_range.mp hj2)),
        distribute_scan_hit which_pool i j _ organisms pool rng item o hi ho he hc]
      cases which_pool <;> rfl
    · simp only [ConsumableResourcePool.consume_and_reset_item_f32, hi,
        ConsumableResource.consume]
    · intro h0 h1
      exact i32_of_range _ (by omega) h1
    · intro h0 h1
      exact i32_of_range _ (by omega) h1
  · intro hnone
    exact distribute_scan_none which_pool i organisms pool rng item hi
      (List.range max_size) (fun j hj => hnone j (List.mem_range.mp hj))

/-- C17, amended, at `sample_food_f32` and the organisms `sample_organism` and
`sample_neighbour`, both living at `(100, 100)` with size 8: the item at `(103, 104)` is in
range of both; the organism of index 0 receives its value 20000 as nutrition and the
organism of index 1 is unchanged. -/
theorem distribute_item_witness :
    (sample_food_f32.pool[0]? = some sample_item_f32 ∧ sample_item_f32.value = 20000 ∧
      sample_neighbour.check_in_range_f32 sample_item_f32.toSimulationObject false = true) ∧
    (Population.distribute_scan resource_pool_type.food_pool 0 (List.range 2)
        ([sample_organism, sample_neighbour], sample_food_f32, ⟨fun _ => 0, 0⟩)).1
      = [{ sample_organism with nutrition := sample_organism.nutrition + 20000 },
         sample_neighbour] :=
  ⟨⟨by decide!, by decide!, by decide!⟩,
   (congrArg Prod.fst
     ((distribute_item resource_pool_type.food_pool 2 0 []
        [sample_organism, sample_neighbour]
        sample_food_f32 ⟨fun _ => 0, 0⟩ sample_item_f32 (by decide!)).2.2.2.1 0 sample_organism
        (by decide) rfl (by decide!) (by decide!)
        (fun j2 hj2 => absurd hj2 (Nat.not_lt_zero j2))).1).trans (by decide!)⟩

/-- C17 fails as stated, in two ways. (1) `grazing_organism`, living with size 8 at
`(9.2f, 100)`, and the item of `grazing_food` at `(0, 100)` with size `6 * 0.2f`: the
squared centre distance `9.2f²` is below `(organism.size + item.size)²`, but the code
rounds the sum of the sizes to `9.2f`, finds `d_2 < range * range` false and awards
nothing. (2) `sated_organism`, living with the nutrition 2147000000 in range of the item of
`rich_food` of value 1000000: the counter wraps to `2148000000 - 2^32 = -2146967296`,
which is not an increase by the value of the item. -/
theorem distribute_item_counterexample :
    (grazing_organism.exists_ = true ∧
      (grazing_food.pool.map (fun it => (it.exists_, it.position, it.value)))
        = [(true, ⟨0, 100⟩, 20000)] ∧
      f32 grazing_organism.position.x = grazing_organism.position.x ∧
      (∀ it ∈ grazing_food.pool,
        squared_distance grazing_organism.position it.position
          < (grazing_organism.size + it.size) * (grazing_organism.size + it.size)) ∧
      (Population.distribute_loop resource_pool_type.food_pool 1 [0]
          ([grazing_organism], grazing_food, ⟨fun _ => 0, 0⟩)).1 = [grazing_organism] ∧
      (Population.distribute_loop resource_pool_type.food_pool 1 [0]
          ([grazing_organism], grazing_food, ⟨fun _ => 0, 0⟩)).2.1.pool = grazing_food.pool ∧
      (Population.distribute_loop resource_pool_type.food_pool 1 [0]
          ([grazing_organism], grazing_food, ⟨fun _ => 0, 0⟩)).2.2.pos = 0) ∧
    (sated_organism.exists_ = true ∧ sated_organism.nutrition = 2147000000 ∧
      (rich_food.pool.map (fun it => (it.exists_, it.position, it.value)))
        = [(true, ⟨103, 104⟩, 1000000)] ∧
      (∀ it ∈ rich_food.pool,
        sated_organism.check_in_range_f32 it.toSimulationObject false = true) ∧
      ((Population.distribute_loop resource_pool_type.food_pool 1 [0]
          ([sated_organism], rich_food, ⟨fun _ => 0, 0⟩)).1.map (fun o => o.nutrition))
        = [-2146967296] ∧
      (-2146967296 : Int) ≠ sated_organism.nutrition + 1000000) := by
  decide!

/-! ### Awards from two workers -/

/-- Two wrapped additions are the wrapped sum. -/
theorem i32_add (x y : Int) : i32 (i32 x + y) = i32 (x + y) := by
  unfold i32
  omega

/-- C22: two worker threads award the living organism `o` the values `a` and `b`, each by
one call of `nourish`, whose body is the single atomic `fetch_add`. Whatever the schedule
of the two threads, once both calls are done the organism has the two's-complement sum
`nutrition + a + b` as nutrition and is otherwise unchanged; both orders of the calls are
schedules that finish. Within the range of `int` that sum is `nutrition + a + b` itself,
and the clamp of the next `update_fitness` turns it into `min(1000000, sum)`, from which
`update_fitness` then subtracts the health rate. The atomicity is needed: were the award
a plain load followed by the store of the sum, the schedule load, load, store, store would
finish with `nutrition + b`, the award `a` lost. -/
theorem nourish_interleaving_atomic (o : Organism) (a b : Nat) (he : o.exists_ = true) :
    let start := award_start o (nourish_actions a) (nourish_actions b)
    let racy := award_start o (plain_add_actions a) (plain_add_actions b)
    (∀ (schedule : List Bool) (s : AwardState), AwardState.run schedule start = some s →
      s.finished → s.organism = { o with nutrition := i32 (o.nutrition + a + b) }) ∧
    (∃ s, AwardState.run [false, true] start = some s ∧ s.finished) ∧
    (∃ s, AwardState.run [true, false] start = some s ∧ s.finished) ∧
    (-2147483648 ≤ o.nutrition → o.nutrition + a + b < 2147483648 →
      i32 (o.nutrition + a + b) = o.nutrition + a + b) ∧
    ((({ o with nutrition := i32 (o.nutrition + a + b) } : Organism).update_fitness).2.nutrition
      = min 1000000 (i32 (o.nutrition + a + b)) - truncToInt o.phenotype.get_health_rate) ∧
    (∃ s, AwardState.run [false, true, false, true] racy = some s ∧ s.finished ∧
      s.organism = { o with nutrition := i32 (o.nutrition + b) }) ∧
    (0 < a → a < 4294967296 → i32 (o.nutrition + b) ≠ i32 (o.nutrition + a + b)) := by
  intro start racy
  have hab : i32 (i32 (o.nutrition + a) + b) = i32 (o.nutrition + a + b) := i32_add _ _
  have hba : i32 (i32 (o.nutrition + b) + a) = i32 (o.nutrition + a + b) := by
    rw [i32_add]
    congr 1
    ring
  refine ⟨?_, ?_, ?_, ?_, ?_, ?_, ?_⟩
  · intro schedule s hrun hfin
    rcases schedule with _ | ⟨t1, _ | ⟨t2, _ | ⟨t3, rest⟩⟩⟩
    · simp only [AwardState.run, Option.some.injEq] at hrun
      subst hrun
      exact absurd hfin.1 (by simp [start, award_start, nourish_actions])
    · cases t1
      · simp only [AwardState.run, AwardState.step, Worker.step, start, award_start,
          nourish_actions, Bool.false_eq_true, if_false, Option.some.injEq] at hrun
        subst hrun
        exact absurd hfin.2 (by simp)
      · simp only [AwardState.run, AwardState.step, Worker.step, start, award_start,
          nourish_actions, if_true, Option.some.injEq] at hrun
        subst hrun
        exact absurd hfin.1 (by simp)
    · cases t1 <;> cases t2
      · simp [AwardState.run, AwardState.step, Worker.step, start, award_start,
          nourish_actions] at hrun
      · simp only [AwardState.run, AwardState.step, Worker.step, start, award_start,
          nourish_actions, Bool.false_eq_true, if_false, if_true, Option.some.injEq] at hrun
        subst hrun
        simp only [CounterAction.apply, Organism.nourish_i32, hab]
      · simp only [AwardState.run, AwardState.step, Worker.step, start, award_start,
          nourish_actions, Bool.false_eq_true, if_false, if_true, Option.some.injEq] at hrun
        subst hrun
        simp only [CounterAction.apply, Organism.nourish_i32, hba]
      · simp [AwardState.run, AwardState.step, Worker.step, start, award_start,
          nourish_actions] at hrun
    · cases t1 <;> cases t2 <;> cases t3 <;>
        simp [AwardState.run, AwardState.step, Worker.step, start, award_start,
          nourish_actions] at hrun
  · exact ⟨_, rfl, rfl, rfl⟩
  · exact ⟨_, rfl, rfl, rfl⟩
  · intro h0 h1
    exact i32_of_range _ (by omega) h1
  · have hu := update_fitness_alive
      ({ o with nutrition := i32 (o.nutrition + a + b) } : Organism) he
    rw [hu]
    split <;> rfl
  · exact ⟨_, rfl, ⟨rfl, rfl⟩, rfl⟩
  · intro h0 h1
    unfold i32
    omega

/-- C22 at `sample_organism` lowered to 900000 units of nutrition, with the awards 60000
and 70000: the schedule in which the second worker acts first finishes with 1030000, and
`update_fitness` (health rate 220) leaves `1000000 − 220`. -/
theorem nourish_interleaving_atomic_witness :
    ({ sample_organism with nutrition := 900000 } : Organism).exists_ = true ∧
    (∀ s : AwardState,
      AwardState.run [true, false]
        (award_start ({ sample_organism with nutrition := 900000 } : Organism)
          (nourish_actions 60000) (nourish_actions 70000)) = some s →
      s.finished → s.organism.nutrition = 1030000) ∧
    ((({ sample_organism with nutrition := 1030000 } : Organism).update_fitness).2.nutrition
      = 999780) :=
  ⟨by decide!,
   fun s hrun hfin =>
     (congrArg Organism.nutrition
       ((nourish_interleaving_atomic ({ sample_organism with nutrition := 900000 } : Organism)
         60000 70000 (by decide!)).1 [true, false] s hrun hfin)).trans (by decide!),
   by decide!⟩

/-! ### Heading to the nearest resource in binary32 arithmetic -/

/-- The binary32 scan for the nearest resource, started with the shortest distance `sd`
and the heading `h`, distances being the computed squared distances: either no existing
item is nearer than `sd` and the pair is returned as it was, or the pair is the squared
distance of and the heading to an existing item `it` of index `k` that is nearer than `sd`,
no existing item is nearer than `it` and every existing item of lower index is farther. -/
theorem nearest_resource_scan_f32_spec (m : LibmFns) (pos : Vector2f)
    (items : List ConsumableResource) :
    ∀ (sd h : ℚ),
      (nearest_resource_scan_f32 m pos items (sd, h) = (sd, h) ∧
        ∀ (k : Nat) (it : ConsumableResource), items[k]? = some it → it.exists_ = true →
          sd ≤ squared_distance_f32 pos it.position) ∨
      (∃ (k : Nat) (it : ConsumableResource), items[k]? = some it ∧ it.exists_ = true ∧
        squared_distance_f32 pos it.position < sd ∧
        nearest_resource_scan_f32 m pos items (sd, h)
          = (squared_distance_f32 pos it.position,
             m.atan2 (f32 (pos.y - it.position.y)) (f32 (pos.x - it.position.x))) ∧
        (∀ (k2 : Nat) (it2 : ConsumableResource), items[k2]? = some it2 →
          it2.exists_ = true →
          squared_distance_f32 pos it.position ≤ squared_distance_f32 pos it2.position) ∧
        (∀ (k2 : Nat) (it2 : ConsumableResource), k2 < k → items[k2]? = some it2 →
          it2.exists_ = true →
          squared_distance_f32 pos it.position < squared_distance_f32 pos it2.position)) := by
  induction items with
  | nil =>
    intro sd h
    left
    refine ⟨rfl, ?_⟩
    intro k it hk
    simp at hk
  | cons item rest ih =>
    intro sd h
    rw [nearest_resource_scan_f32]
    by_cases hc : item.exists_ = true ∧ squared_distance_f32 pos item.position < sd
    · have he : item.get_exists = true := hc.1
      have hd : f32 (f32 (f32 (pos.x - item.get_position.x) * f32 (pos.x - item.get_position.x))
            + f32 (f32 (pos.y - item.get_position.y) * f32 (pos.y - item.get_position.y))) < sd := hc.2
      simp only [he, if_true, hd]
      right
      rcases ih (squared_distance_f32 pos item.position)
          (m.atan2 (f32 (pos.y - item.position.y)) (f32 (pos.x - item.position.x))) with h1 | h1
      · obtain ⟨hr, hall⟩ := h1
        refine ⟨0, item, List.getElem?_cons_zero, hc.1, hc.2, hr, ?_, ?_⟩
        · intro k2 it2 hk2 he2
          cases k2 with
          | zero =>
            simp only [List.getElem?_cons_zero, Option.some.injEq] at hk2
            subst hk2
            exact le_refl _
          | succ k3 =>
            rw [List.getElem?_cons_succ] at hk2
            exact hall k3 it2 hk2 he2
        · intro k2 it2 hlt
          exact absurd hlt (Nat.not_lt_zero k2)
      · obtain ⟨k, it, hk, hex, hlt, hr, hmin, hfirst⟩ := h1
        refine ⟨k + 1, it, ?_, hex, lt_trans hlt hc.2, hr, ?_, ?_⟩
        · rw [List.getElem?_cons_succ]
          exact hk
        · intro k2 it2 hk2 he2
          cases k2 with
          | zero =>
            simp only [List.getElem?_cons_zero, Option.some.injEq] at hk2
            subst hk2
            exact le_of_lt hlt
          | succ k3 =>
            rw [List.getElem?_cons_succ] at hk2
            exact hmin k3 it2 hk2 he2
        · intro k2 it2 hk2lt hk2 he2
          cases k2 with
          | zero =>
            simp only [List.getElem?_cons_zero, Option.some.injEq] at hk2
            subst hk2
            exact hlt
          | succ k3 =>
            rw [List.getElem?_cons_succ] at hk2
            exact hfirst k3 it2 (by omega) hk2 he2
    · have hskip : (if item.get_exists = true then
            if f32 (f32 (f32 (pos.x - item.get_position.x) * f32 (pos.x - item.get_position.x))
            + f32 (f32 (pos.y - item.get_position.y) * f32 (pos.y - item.get_position.y))) < sd then
              nearest_resource_scan_f32 m pos rest
                (f32 (f32 (f32 (pos.x - item.get_position.x) * f32 (pos.x - item.get_position.x))
            + f32 (f32 (pos.y - item.get_position.y) * f32 (pos.y - item.get_position.y))),
                 m.atan2 (f32 (pos.y - item.get_position.y)) (f32 (pos.x - item.get_position.x)))
            else nearest_resource_scan_f32 m pos rest (sd, h)
          else nearest_resource_scan_f32 m pos rest (sd, h))
          = nearest_resource_scan_f32 m pos rest (sd, h) := by
        split
        · next he =>
          split
          · next hd => exact absurd ⟨he, hd⟩ hc
          · rfl
        · rfl
      dsimp only
      rw [hskip]
      have hitem : item.exists_ = true → sd ≤ squared_distance_f32 pos item.position := by
        intro he
        exact not_lt.mp (fun hd => hc ⟨he, hd⟩)
      rcases ih sd h with h1 | h1
      · left
        obtain ⟨hr, hall⟩ := h1
        refine ⟨hr, ?_⟩
        intro k2 it2 hk2 he2
        cases k2 with
        | zero =>
          simp only [List.getElem?_cons_zero, Option.some.injEq] at hk2
          subst hk2
          exact hitem he2
        | succ k3 =>
          rw [List.getElem?_cons_succ] at hk2
          exact hall k3 it2 hk2 he2
      · right
        obtain ⟨k, it, hk, hex, hlt, hr, hmin, hfirst⟩ := h1
        refine ⟨k + 1, it, ?_, hex, hlt, hr, ?_, ?_⟩
        · rw [List.getElem?_cons_succ]
          exact hk
        · intro k2 it2 hk2 he2
          cases k2 with
          | zero =>
            simp only [List.getElem?_cons_zero, Option.some.injEq] at hk2
            subst hk2
            exact le_of_lt (lt_of_lt_of_le hlt (hitem he2))
          | succ k3 =>
            rw [List.getElem?_cons_succ] at hk2
            exact hmin k3 it2 hk2 he2
        · intro k2 it2 hk2lt hk2 he2
          cases k2 with
          | zero =>
            simp only [List.getElem?_cons_zero, Option.some.injEq] at hk2
            subst hk2
            exact lt_of_lt_of_le hlt (hitem he2)
          | succ k3 =>
            rw [List.getElem?_cons_succ] at hk2
            exact hfirst k3 it2 (by omega) hk2 he2

/-- C28, amended: for a living organism at position `p` (its sensory vector has its seven
elements) and a pool whose existing items all lie at a computed squared distance below
`numeric_limits<float>::max()`, the heading computed by the scan over the items
`pool[0 .. max_size − 1]` is 0 when no item exists, and otherwise
`atan2(p.y − r.y, p.x − r.x)` (of the differences rounded to `float`) for an existing item
`r` whose squared distance to `p` as computed in `float` arithmetic (`d_x * d_x + d_y *
d_y` with every operation rounded) is minimal among the existing items, the one of lowest
index among those with that computed distance. `search_for_food` and `search_for_water`
record that heading, divided by `pi` and rounded, in elements 3 and 4 of the sensory
data. -/
theorem search_heading_nearest_f32 (m : LibmFns) (o : Organism) (pool : ConsumableResourcePool)
    (he : o.exists_ = true) (hl : o.sensory_data.data.length = 7)
    (hfar : ∀ it ∈ pool.pool.take pool.get_max_size, it.exists_ = true →
      squared_distance_f32 o.position it.position < float_max) :
    let items := pool.pool.take pool.get_max_size
    let heading := o.get_heading_to_nearest_resource_f32 m pool
    (((∀ (k : Nat) (it : ConsumableResource), items[k]? = some it → it.exists_ = false) ∧
        heading = 0) ∨
      (∃ (k : Nat) (it : ConsumableResource), items[k]? = some it ∧ it.exists_ = true ∧
        heading = m.atan2 (f32 (o.position.y - it.position.y))
          (f32 (o.position.x - it.position.x)) ∧
        (∀ (k2 : Nat) (it2 : ConsumableResource), items[k2]? = some it2 →
          it2.exists_ = true →
          squared_distance_f32 o.position it.position
            ≤ squared_distance_f32 o.position it2.position) ∧
        (∀ (k2 : Nat) (it2 : ConsumableResource), k2 < k → items[k2]? = some it2 →
          it2.exists_ = true →
          squared_distance_f32 o.position it.position
            < squared_distance_f32 o.position it2.position))) ∧
    (o.search_for_food_f32 m pool).sensory_data.data[3]? = some (f32 (heading / pi)) ∧
    (o.search_for_water_f32 m pool).sensory_data.data[4]? = some (f32 (heading / pi)) := by
  intro items heading
  have he2 : o.get_exists = true := he
  have hf3 : (o.search_for_food_f32 m pool).sensory_data.data[3]?
      = some (f32 (heading / pi)) := by
    simp only [Organism.search_for_food_f32, he2, Bool.not_true, Bool.false_eq_true, if_false,
      SensoryData.set_hunger_f32, SensoryData.set_food_heading_f32]
    rw [List.getElem?_set_ne (by decide), List.getElem?_set_self (by omega)]
  have hw4 : (o.search_for_water_f32 m pool).sensory_data.data[4]?
      = some (f32 (heading / pi)) := by
    simp only [Organism.search_for_water_f32, he2, Bool.not_true, Bool.false_eq_true, if_false,
      SensoryData.set_thirst_f32, SensoryData.set_water_heading_f32]
    rw [List.getElem?_set_ne (by decide), List.getElem?_set_self (by omega)]
  refine ⟨?_, hf3, hw4⟩
  rcases nearest_resource_scan_f32_spec m o.position items float_max 0 with h1 | h1
  · left
    obtain ⟨hr, hall⟩ := h1
    constructor
    · intro k it hk
      cases hex : it.exists_ with
      | false => rfl
      | true =>
        have h2 := hall k it hk hex
        have h3 := hfar it (List.getElem?_mem hk) hex
        exact absurd h3 (not_lt.mpr h2)
    · show (nearest_resource_scan_f32 m o.get_position items (float_max, 0)).2 = 0
      have : o.get_position = o.position := rfl
      rw [this, hr]
  · right
    obtain ⟨k, it, hk, hex, _, hr, hmin, hfirst⟩ := h1
    refine ⟨k, it, hk, hex, ?_, hmin, hfirst⟩
    show (nearest_resource_scan_f32 m o.get_position items (float_max, 0)).2 = _
    have : o.get_position = o.position := rfl
    rw [this, hr]

/-- C28, amended, at `sample_organism` (at `(100, 100)`) and `sample_food_f32` (one item,
at `(103, 104)`): the heading is `atan2 (-4) (-3)`, which `search_for_food` records divided
by `pi` and rounded. -/
theorem search_heading_nearest_f32_witness :
    (sample_organism.exists_ = true ∧ sample_organism.sensory_data.data.length = 7) ∧
    sample_organism.get_heading_to_nearest_resource_f32 sample_libm sample_food_f32
      = sample_libm.atan2 (-4) (-3) ∧
    (sample_organism.search_for_food_f32 sample_libm sample_food_f32).sensory_data.data[3]?
      = some (f32 (sample_organism.get_heading_to_nearest_resource_f32 sample_libm
          sample_food_f32 / pi)) :=
  ⟨⟨by decide!, by decide!⟩, by decide!,
   (search_heading_nearest_f32 sample_libm sample_organism sample_food_f32 (by decide!)
      (by decide!) (by decide!)).2.1⟩

/-- C28 fails as stated: `far_organism` at `(1000 + 2^(-14), 1190)` and `two_item_pool`,
whose items lie at `(600, 0)` and `(1400, 0)`. The item of index 1 is strictly nearer, so
the heading should be `atan2(1190, -400 + 2^(-14))`; but both squared distances round to
`1576100.0f`, the strict comparison keeps the item of index 0, and the heading is
`atan2(1190, 400 + 2^(-14))`, whatever function `atan2` is. -/
theorem search_heading_nearest_f32_counterexample :
    far_organism.exists_ = true ∧
    f32 far_organism.position.x = far_organism.position.x ∧
    (two_item_pool.pool.map (fun it => (it.exists_, it.position)))
      = [(true, ⟨600, 0⟩), (true, ⟨1400, 0⟩)] ∧
    squared_distance far_organism.position ⟨1400, 0⟩
      < squared_distance far_organism.position ⟨600, 0⟩ ∧
    squared_distance_f32 far_organism.position ⟨600, 0⟩ = 1576100 ∧
    squared_distance_f32 far_organism.position ⟨1400, 0⟩ = 1576100 ∧
    (∀ m : LibmFns, far_organism.get_heading_to_nearest_resource_f32 m two_item_pool
      = m.atan2 1190 (400 + 1 / 16384)) ∧
    far_organism.get_heading_to_nearest_resource_f32 sample_libm two_item_pool
      ≠ sample_libm.atan2 (far_organism.position.y - 0) (far_organism.position.x - 1400) := by
  refine ⟨by decide!, by decide!, by decide!, by decide!, by decide!, by decide!, ?_,
    by decide!⟩
  intro m
  have h0 : f32 ((1000 + 1 / 16384 : ℚ) - 600) = 400 + 1 / 16384 := by decide!
  have h1 : f32 ((1190 : ℚ) - 0) = 1190 := by decide!
  have d0 : squared_distance_f32 ⟨1000 + 1 / 16384, 1190⟩ ⟨600, 0⟩ < float_max := by decide!
  have d1 : ¬ squared_distance_f32 ⟨1000 + 1 / 16384, 1190⟩ ⟨1400, 0⟩
      < squared_distance_f32 ⟨1000 + 1 / 16384, 1190⟩ ⟨600, 0⟩ := by decide!
  simp only [squared_distance_f32] at d0 d1
  show (nearest_resource_scan_f32 m ⟨1000 + 1 / 16384, 1190⟩
    [(ConsumableResource.new wide_area).init_f32 20000 100000 ⟨600, 0⟩,
     (ConsumableResource.new wide_area).init_f32 20000 100000 ⟨1400, 0⟩] (float_max, 0)).2 = _
  rw [nearest_resource_scan_f32]
  have e0 : ((ConsumableResource.new wide_area).init_f32 20000 100000 ⟨600, 0⟩).get_exists
      = true := rfl
  have e1 : ((ConsumableResource.new wide_area).init_f32 20000 100000 ⟨1400, 0⟩).get_exists
      = true := rfl
  have p0 : ((ConsumableResource.new wide_area).init_f32 20000 100000 ⟨600, 0⟩).get_position
      = ⟨600, 0⟩ := rfl
  have p1 : ((ConsumableResource.new wide_area).init_f32 20000 100000 ⟨1400, 0⟩).get_position
      = ⟨1400, 0⟩ := rfl
  simp only [e0, p0, if_true]
  rw [if_pos d0, nearest_resource_scan_f32]
  simp only [e1, p1, if_true]
  rw [if_neg d1, nearest_resource_scan_f32, h0, h1]

end GeneticSimulation
